import Mathlib

/-!
Verification development for the food-order-management-system repository.

The repository is a Next.js application whose API routes perform CRUD over a
SQLite database (drizzle-orm).  This file gives a shallow embedding of the
eight API route files together with the client checkout flow of
src/app/dashboard (CheckoutPage.handleCheckout), and proves properties of the
embedded code.

Modelling conventions, uniform across the file:

* JSON request bodies are modelled with JavaScript value distinctions made
  explicit: a field of type `Option T` is `none` when the property is absent
  (undefined) and `some v` when it is present; a field of type
  `Option (Option T)` additionally distinguishes a present `null`
  (`some none`).  JSON numbers are modelled as `Rat`; for a numeric argument
  the source calls of `parseFloat` are the identity and the
  `typeof x !== 'number'` / `isNaN` guards are false, so those branches do not
  appear.  A request whose body is not valid JSON (`request.json()` throws) is
  modelled as the body value `none` and takes the catch-all 500 branch.
* The SQLite layer is modelled per table.  A UNIQUE index admits exactly the
  table states whose indexed column is duplicate-free, so an insert or update
  succeeds if and only if the resulting column is still duplicate-free, and
  otherwise fails with the SQLite message
  UNIQUE constraint failed: table.column, which is what the route handlers
  match on.  AUTOINCREMENT primary keys are modelled by a per-table counter.
* SQLite LIKE with a %s% pattern is an ASCII-case-insensitive substring test;
  ORDER BY createdAt DESC is an insertion sort on the text column; a negative
  OFFSET behaves like 0 and a negative LIMIT means no limit.  Passing NaN
  (a failed parseInt) to limit or offset makes the driver fail, surfacing as
  the catch-all 500 response.
* new Date(s) validity and toISOString are simplified: the model treats every
  non-empty string as a valid timestamp and normalisation as the identity,
  which agrees with JavaScript on the ISO strings the application generates.
  No property proved below depends on date parsing.
-/

/-- JavaScript String.(jsTrim prototype), computed on the character list so that
the kernel can evaluate it on literals. -/
def jsTrim (s : String) : String :=
  ⟨((s.data.dropWhile Char.isWhitespace).reverse.dropWhile Char.isWhitespace).reverse⟩

/-- JavaScript String.prototype.toLowerCase, computed on the character
list. -/
def jsToLower (s : String) : String :=
  ⟨s.data.map Char.toLower⟩

/-- JavaScript parseInt on a string: skip leading whitespace, optional sign,
then a maximal run of decimal digits; `none` models NaN. -/
def jsParseInt (s : String) : Option Int :=
  let cs := (jsTrim s).toList
  let signed : Int × List Char :=
    match cs with
    | '-' :: r => (-1, r)
    | '+' :: r => (1, r)
    | r => (1, r)
  let ds := signed.2.takeWhile Char.isDigit
  if ds.isEmpty then none
  else some (signed.1 * (Int.ofNat (ds.foldl (fun a c => a * 10 + (c.toNat - '0'.toNat)) 0)))

/-- Containment of one character list in another as a contiguous segment. -/
def segContains (pat : List Char) : List Char → Bool
  | [] => pat.isEmpty
  | c :: t => pat.isPrefixOf (c :: t) || segContains pat t

/-- SQLite LIKE with a wildcard on both sides: ASCII-case-insensitive
substring containment of the pattern in the column value. -/
def likeContains (column pat : String) : Bool :=
  segContains (jsToLower pat).toList (jsToLower column).toList

/-- The pagination limit every list handler computes:
Math.min(parseInt(limit ?? 10), 100); `none` models NaN. -/
def listLimit (p : Option String) : Option Int :=
  match jsParseInt (p.getD "10") with
  | none => none
  | some n => some (min n 100)

/-- The pagination offset every list handler computes:
parseInt(offset ?? 0); `none` models NaN. -/
def listOffset (p : Option String) : Option Int :=
  jsParseInt (p.getD "0")

/-- Apply LIMIT/OFFSET the way SQLite does: negative offset acts as 0,
negative limit means no limit; a NaN binding makes the driver fail. -/
def applyPage {α : Type} (limit offset : Option Int) (rows : List α) : Except String (List α) :=
  match limit, offset with
  | some l, some o =>
    let dropped := rows.drop o.toNat
    .ok (if l < 0 then dropped else dropped.take l.toNat)
  | _, _ => .error "TypeError: value out of range for bind parameter"

/-- One row of the customers table. -/
structure Customer where
  id : Int
  name : String
  email : String
  phone : String
  address : String
  latitude : Option Rat
  longitude : Option Rat
  createdAt : String
deriving DecidableEq

/-- One row of the menu_items table. -/
structure MenuItem where
  id : Int
  name : String
  category : String
  price : Rat
  availability : Bool
  description : Option String
  imageUrl : Option String
  createdAt : String
deriving DecidableEq

/-- One row of the offers table. -/
structure Offer where
  id : Int
  title : String
  description : Option String
  discountPercent : Rat
  validFrom : String
  validUntil : String
  createdAt : String
deriving DecidableEq

/-- One row of the orders table. -/
structure Order where
  id : Int
  customerId : Option Int
  tokenNumber : String
  subtotal : Rat
  discount : Rat
  finalAmount : Rat
  status : String
  deliveryMode : String
  paymentStatus : String
  estimatedReadyTime : Option String
  createdAt : String
  updatedAt : String
deriving DecidableEq

/-- One row of the order_items table. -/
structure OrderItem where
  id : Int
  orderId : Option Int
  menuItemId : Option Int
  quantity : Int
  price : Rat
  createdAt : String
deriving DecidableEq

/-- One row of the payments table. -/
structure Payment where
  id : Int
  orderId : Option Int
  transactionId : String
  paymentMode : String
  amountPaid : Rat
  paymentStatus : String
  createdAt : String
deriving DecidableEq

/-- One row of the receipts table. -/
structure Receipt where
  id : Int
  orderId : Option Int
  receiptData : String
  createdAt : String
deriving DecidableEq

/-- One row of the shops table. -/
structure Shop where
  id : Int
  name : String
  address : String
  contact : String
  email : String
  createdAt : String
deriving DecidableEq

/-- The database state: one list per table plus the AUTOINCREMENT counters. -/
structure Store where
  customers : List Customer := []
  menuItems : List MenuItem := []
  offers : List Offer := []
  orders : List Order := []
  orderItems : List OrderItem := []
  payments : List Payment := []
  receipts : List Receipt := []
  shops : List Shop := []
  nextCustomerId : Int := 1
  nextMenuItemId : Int := 1
  nextOfferId : Int := 1
  nextOrderId : Int := 1
  nextOrderItemId : Int := 1
  nextPaymentId : Int := 1
  nextReceiptId : Int := 1
  nextShopId : Int := 1
deriving DecidableEq

/-- The JSON payload of a successful response: the record or list of records
the handler serialises. -/
inductive Payload where
  | customer (c : Customer)
  | customerList (l : List Customer)
  | menuItem (m : MenuItem)
  | menuItemList (l : List MenuItem)
  | offer (o : Offer)
  | offerList (l : List Offer)
  | order (o : Order)
  | orderList (l : List Order)
  | orderItem (i : OrderItem)
  | orderItemList (l : List OrderItem)
  | payment (p : Payment)
  | paymentList (l : List Payment)
  | receipt (r : Receipt)
  | receiptList (l : List Receipt)
  | shop (s : Shop)
  | shopList (l : List Shop)
deriving DecidableEq

/-- An HTTP response as produced by NextResponse.json: the status together
with the error / code / message fields of the JSON body (absent fields are
`none`) and the serialised record payload, if any. -/
structure ApiResponse where
  status : Nat
  error : Option String := none
  code : Option String := none
  message : Option String := none
  payload : Option Payload := none
deriving DecidableEq

/-- An error response carrying a symbolic code. -/
def errResp (status : Nat) (msg code : String) : ApiResponse :=
  { status := status, error := some msg, code := some code }

/-- An error response without a code field (the offers not-found bodies). -/
def errRespNoCode (status : Nat) (msg : String) : ApiResponse :=
  { status := status, error := some msg }

/-- The catch-all 500 response: "Internal server error: " + error.message,
with no code field. -/
def serverError (msg : String) : ApiResponse :=
  { status := 500, error := some ("Internal server error: " ++ msg) }

/-- The 500 response for a body that is not valid JSON (request.json() throws
a SyntaxError that reaches the catch handler). -/
def badJsonError : ApiResponse :=
  serverError "Unexpected end of JSON input"

/-- fetch-style ok flag: status in the 200-299 range. -/
def respOk (r : ApiResponse) : Bool :=
  200 ≤ r.status && r.status < 300

/-- JavaScript String.prototype.includes: case-sensitive substring test. -/
def strIncludes (s sub : String) : Bool :=
  segContains sub.toList s.toList

/-- Validation step shared by the partial-update handlers for optional string
fields: absent stays absent, a supplied value must be non-empty after
trimming and is stored trimmed. -/
def reqString (v : Option String) (e : ApiResponse) : Except ApiResponse (Option String) :=
  match v with
  | none => .ok none
  | some s => if (jsTrim s) = "" then .error e else .ok (some (jsTrim s))

/-! ## Customers route (src/unnamed/part_001) -/

/-- Query parameters of GET /api/customers. -/
structure CustomersGetParams where
  id : Option String := none
  limit : Option String := none
  offset : Option String := none
  search : Option String := none
deriving DecidableEq

/-- The list branch of the customers GET handler. -/
def customersList (p : CustomersGetParams) (st : Store) : ApiResponse :=
  let limit := listLimit p.limit
  let offset := listOffset p.offset
  let rows :=
    match p.search with
    | some s =>
      if s = "" then st.customers
      else st.customers.filter (fun c =>
        likeContains c.name s || likeContains c.email s || likeContains c.phone s)
    | none => st.customers
  match applyPage limit offset rows with
  | .ok res => { status := 200, payload := some (.customerList res) }
  | .error msg => serverError msg

/-- GET /api/customers: single fetch when a non-empty id parameter is present,
otherwise the paginated list. -/
def customersGET (p : CustomersGetParams) (st : Store) : ApiResponse :=
  match p.id with
  | some idStr =>
    if idStr = "" then customersList p st
    else
      match jsParseInt idStr with
      | none => errResp 400 "Valid ID is required" "INVALID_ID"
      | some n =>
        match st.customers.find? (fun c => c.id == n) with
        | none => errResp 404 "Customer not found" "NOT_FOUND"
        | some c => { status := 200, payload := some (.customer c) }
  | none => customersList p st

/-- Request body of POST /api/customers. -/
structure CustomersPostBody where
  name : Option String := none
  email : Option String := none
  phone : Option String := none
  address : Option String := none
  latitude : Option (Option Rat) := none
  longitude : Option (Option Rat) := none
deriving DecidableEq

/-- Insert into the customers table; fails when the UNIQUE index on email
would be violated. -/
def dbInsertCustomers (st : Store) (name email phone address : String)
    (latitude longitude : Option Rat) (createdAt : String) :
    Except String (Customer × Store) :=
  let c : Customer :=
    { id := st.nextCustomerId, name := name, email := email, phone := phone,
      address := address, latitude := latitude, longitude := longitude, createdAt := createdAt }
  let rows := st.customers ++ [c]
  if (rows.map Customer.email).Nodup then
    .ok (c, { st with customers := rows, nextCustomerId := st.nextCustomerId + 1 })
  else .error "UNIQUE constraint failed: customers.email"

/-- POST /api/customers.  The falsy check on a required string field is
subsumed by the emptiness-after-trim check, since "" trims to "". -/
def customersPOST (now : String) (body : Option CustomersPostBody) (st : Store) :
    ApiResponse × Store :=
  match body with
  | none => (badJsonError, st)
  | some b =>
    match b.name with
    | none => (errResp 400 "Name is required and must not be empty" "MISSING_NAME", st)
    | some name =>
    if (jsTrim name) = "" then
      (errResp 400 "Name is required and must not be empty" "MISSING_NAME", st)
    else match b.email with
    | none => (errResp 400 "Email is required and must not be empty" "MISSING_EMAIL", st)
    | some email =>
    if (jsTrim email) = "" then
      (errResp 400 "Email is required and must not be empty" "MISSING_EMAIL", st)
    else match b.phone with
    | none => (errResp 400 "Phone is required and must not be empty" "MISSING_PHONE", st)
    | some phone =>
    if (jsTrim phone) = "" then
      (errResp 400 "Phone is required and must not be empty" "MISSING_PHONE", st)
    else match b.address with
    | none => (errResp 400 "Address is required and must not be empty" "MISSING_ADDRESS", st)
    | some address =>
    if (jsTrim address) = "" then
      (errResp 400 "Address is required and must not be empty" "MISSING_ADDRESS", st)
    else
      match dbInsertCustomers st (jsTrim name) (jsToLower (jsTrim email)) (jsTrim phone) (jsTrim address)
          (b.latitude.getD none) (b.longitude.getD none) now with
      | .ok (c, st2) => ({ status := 201, payload := some (.customer c) }, st2)
      | .error msg =>
        if strIncludes msg "UNIQUE" || strIncludes msg "unique" then
          (errResp 400 "Email already exists" "DUPLICATE_EMAIL", st)
        else (serverError msg, st)

/-- Request body of PUT /api/customers. -/
structure CustomersPutBody where
  name : Option String := none
  email : Option String := none
  phone : Option String := none
  address : Option String := none
  latitude : Option (Option Rat) := none
  longitude : Option (Option Rat) := none
deriving DecidableEq

/-- The updateData object assembled by the customers PUT handler. -/
structure CustomerUpdate where
  name : Option String := none
  email : Option String := none
  phone : Option String := none
  address : Option String := none
  latitude : Option (Option Rat) := none
  longitude : Option (Option Rat) := none
deriving DecidableEq

/-- Object.keys(updateData).length === 0 for the customers PUT handler. -/
def customerUpdateEmpty (u : CustomerUpdate) : Bool :=
  u.name.isNone && u.email.isNone && u.phone.isNone && u.address.isNone &&
  u.latitude.isNone && u.longitude.isNone

/-- Apply a customers updateData object to a row. -/
def applyCustomerUpdate (u : CustomerUpdate) (c : Customer) : Customer :=
  { c with
    name := u.name.getD c.name
    email := u.email.getD c.email
    phone := u.phone.getD c.phone
    address := u.address.getD c.address
    latitude := u.latitude.getD c.latitude
    longitude := u.longitude.getD c.longitude }

/-- Validation of the customers PUT body, in source order, producing the
updateData object or the first 400 response. -/
def customersBuildUpdate (b : CustomersPutBody) : Except ApiResponse CustomerUpdate :=
  Except.bind (reqString b.name (errResp 400 "Name must not be empty" "INVALID_NAME")) (fun name =>
  Except.bind (reqString b.email (errResp 400 "Email must not be empty" "INVALID_EMAIL")) (fun email =>
  Except.bind (reqString b.phone (errResp 400 "Phone must not be empty" "INVALID_PHONE")) (fun phone =>
  Except.bind (reqString b.address (errResp 400 "Address must not be empty" "INVALID_ADDRESS")) (fun address =>
  Except.ok { name := name, email := email.map jsToLower, phone := phone, address := address, latitude := b.latitude, longitude := b.longitude }))))

/-- Update the customers table row with the given id; fails when the UNIQUE
index on email would be violated by the result. -/
def dbUpdateCustomers (st : Store) (i : Int) (u : CustomerUpdate) :
    Except String (Option Customer × Store) :=
  let rows := st.customers.map (fun c => if c.id == i then applyCustomerUpdate u c else c)
  if (rows.map Customer.email).Nodup then
    .ok (rows.find? (fun c => c.id == i), { st with customers := rows })
  else .error "UNIQUE constraint failed: customers.email"

/-- PUT /api/customers: id check, then existence, then the body is read and
validated; an empty update returns the existing record unchanged. -/
def customersPUT (idp : Option String) (body : Option CustomersPutBody) (st : Store) :
    ApiResponse × Store :=
  match idp with
  | none => (errResp 400 "Valid ID is required" "INVALID_ID", st)
  | some idStr =>
    if idStr = "" then (errResp 400 "Valid ID is required" "INVALID_ID", st)
    else match jsParseInt idStr with
    | none => (errResp 400 "Valid ID is required" "INVALID_ID", st)
    | some n =>
      match st.customers.find? (fun c => c.id == n) with
      | none => (errResp 404 "Customer not found" "NOT_FOUND", st)
      | some existing =>
        match body with
        | none => (badJsonError, st)
        | some b =>
          match customersBuildUpdate b with
          | .error resp => (resp, st)
          | .ok u =>
            if customerUpdateEmpty u then
              ({ status := 200, payload := some (.customer existing) }, st)
            else
              match dbUpdateCustomers st n u with
              | .ok (updated, st2) =>
                ({ status := 200, payload := updated.map Payload.customer }, st2)
              | .error msg =>
                if strIncludes msg "UNIQUE" || strIncludes msg "unique" then
                  (errResp 400 "Email already exists" "DUPLICATE_EMAIL", st)
                else (serverError msg, st)

/-- Delete the customers rows with the given id, returning the deleted rows. -/
def dbDeleteCustomers (st : Store) (i : Int) : List Customer × Store :=
  (st.customers.filter (fun c => c.id == i),
   { st with customers := st.customers.filter (fun c => !(c.id == i)) })

/-- DELETE /api/customers. -/
def customersDELETE (idp : Option String) (st : Store) : ApiResponse × Store :=
  match idp with
  | none => (errResp 400 "Valid ID is required" "INVALID_ID", st)
  | some idStr =>
    if idStr = "" then (errResp 400 "Valid ID is required" "INVALID_ID", st)
    else match jsParseInt idStr with
    | none => (errResp 400 "Valid ID is required" "INVALID_ID", st)
    | some n =>
      match st.customers.find? (fun c => c.id == n) with
      | none => (errResp 404 "Customer not found" "NOT_FOUND", st)
      | some _ =>
        let res := dbDeleteCustomers st n
        ({ status := 200, message := some "Customer deleted successfully",
           payload := res.1.head?.map Payload.customer }, res.2)

/-! ## Payments route (src/unnamed/part_000) -/

/-- Query parameters of GET /api/payments. -/
structure PaymentsGetParams where
  id : Option String := none
  limit : Option String := none
  offset : Option String := none
  search : Option String := none
  orderId : Option String := none
  paymentStatus : Option String := none
  paymentMode : Option String := none
deriving DecidableEq

/-- The filter conditions of the payments list query. -/
def paymentsRowMatch (p : PaymentsGetParams) (r : Payment) : Bool :=
  (match p.search with
   | some s => if s = "" then true else likeContains r.transactionId s
   | none => true) &&
  (match p.orderId with
   | some s =>
     if s = "" then true
     else match jsParseInt s with
       | some n => r.orderId == some n
       | none => true
   | none => true) &&
  (match p.paymentStatus with
   | some s => if s = "" then true else r.paymentStatus == s
   | none => true) &&
  (match p.paymentMode with
   | some s => if s = "" then true else r.paymentMode == s
   | none => true)

/-- The list branch of the payments GET handler. -/
def paymentsList (p : PaymentsGetParams) (st : Store) : ApiResponse :=
  let limit := listLimit p.limit
  let offset := listOffset p.offset
  let rows := st.payments.filter (paymentsRowMatch p)
  match applyPage limit offset rows with
  | .ok res => { status := 200, payload := some (.paymentList res) }
  | .error msg => serverError msg

/-- GET /api/payments. -/
def paymentsGET (p : PaymentsGetParams) (st : Store) : ApiResponse :=
  match p.id with
  | some idStr =>
    if idStr = "" then paymentsList p st
    else
      match jsParseInt idStr with
      | none => errResp 400 "Valid ID is required" "INVALID_ID"
      | some n =>
        match st.payments.find? (fun r => r.id == n) with
        | none => errResp 404 "Payment not found" "PAYMENT_NOT_FOUND"
        | some r => { status := 200, payload := some (.payment r) }
  | none => paymentsList p st

/-- Request body of POST /api/payments. -/
structure PaymentsPostBody where
  transactionId : Option String := none
  paymentMode : Option String := none
  amountPaid : Option (Option Rat) := none
  paymentStatus : Option String := none
  orderId : Option (Option Int) := none
deriving DecidableEq

/-- Insert into the payments table; fails when the UNIQUE index on
transaction_id would be violated. -/
def dbInsertPayments (st : Store) (orderId : Option Int)
    (transactionId paymentMode : String) (amountPaid : Rat) (paymentStatus createdAt : String) :
    Except String (Payment × Store) :=
  let r : Payment :=
    { id := st.nextPaymentId, orderId := orderId, transactionId := transactionId,
      paymentMode := paymentMode, amountPaid := amountPaid, paymentStatus := paymentStatus,
      createdAt := createdAt }
  let rows := st.payments ++ [r]
  if (rows.map Payment.transactionId).Nodup then
    .ok (r, { st with payments := rows, nextPaymentId := st.nextPaymentId + 1 })
  else .error "UNIQUE constraint failed: payments.transaction_id"

/-- POST /api/payments. -/
def paymentsPOST (now : String) (body : Option PaymentsPostBody) (st : Store) :
    ApiResponse × Store :=
  match body with
  | none => (badJsonError, st)
  | some b =>
    match b.transactionId with
    | none =>
      (errResp 400 "Transaction ID is required and cannot be empty" "MISSING_TRANSACTION_ID", st)
    | some transactionId =>
    if (jsTrim transactionId) = "" then
      (errResp 400 "Transaction ID is required and cannot be empty" "MISSING_TRANSACTION_ID", st)
    else match b.paymentMode with
    | none => (errResp 400 "Payment mode is required" "MISSING_PAYMENT_MODE", st)
    | some paymentMode =>
    if (jsTrim paymentMode) = "" then
      (errResp 400 "Payment mode is required" "MISSING_PAYMENT_MODE", st)
    else match b.amountPaid with
    | none => (errResp 400 "Amount paid is required" "MISSING_AMOUNT_PAID", st)
    | some none => (errResp 400 "Amount paid is required" "MISSING_AMOUNT_PAID", st)
    | some (some amountPaid) =>
    if amountPaid ≤ 0 then
      (errResp 400 "Amount paid must be a positive number" "INVALID_AMOUNT_PAID", st)
    else match b.paymentStatus with
    | none => (errResp 400 "Payment status is required" "MISSING_PAYMENT_STATUS", st)
    | some paymentStatus =>
    if (jsTrim paymentStatus) = "" then
      (errResp 400 "Payment status is required" "MISSING_PAYMENT_STATUS", st)
    else
      match dbInsertPayments st (b.orderId.getD none) (jsTrim transactionId) (jsTrim paymentMode)
          amountPaid (jsTrim paymentStatus) now with
      | .ok (r, st2) => ({ status := 201, payload := some (.payment r) }, st2)
      | .error msg =>
        if strIncludes msg "UNIQUE constraint failed" then
          (errResp 400 "Transaction ID already exists" "DUPLICATE_TRANSACTION_ID", st)
        else (serverError msg, st)

/-- Request body of PUT /api/payments. -/
structure PaymentsPutBody where
  orderId : Option (Option Int) := none
  paymentMode : Option (Option String) := none
  paymentStatus : Option (Option String) := none
deriving DecidableEq

/-- The updateData object assembled by the payments PUT handler. -/
structure PaymentUpdate where
  orderId : Option (Option Int) := none
  paymentMode : Option String := none
  paymentStatus : Option String := none
deriving DecidableEq

/-- Object.keys(updateData).length === 0 for the payments PUT handler. -/
def paymentUpdateEmpty (u : PaymentUpdate) : Bool :=
  u.orderId.isNone && u.paymentMode.isNone && u.paymentStatus.isNone

/-- Apply a payments updateData object to a row. -/
def applyPaymentUpdate (u : PaymentUpdate) (r : Payment) : Payment :=
  { r with
    orderId := u.orderId.getD r.orderId
    paymentMode := u.paymentMode.getD r.paymentMode
    paymentStatus := u.paymentStatus.getD r.paymentStatus }

/-- Validation of the payments PUT body, in source order.  A field supplied
as null is skipped (it contributes no update), matching the
value !== undefined && value !== null guards. -/
def paymentsBuildUpdate (b : PaymentsPutBody) : Except ApiResponse PaymentUpdate :=
  Except.bind
    (match b.paymentMode with
    | some (some m) =>
      if (jsTrim m) = "" then
        Except.error (errResp 400 "Payment mode cannot be empty" "INVALID_PAYMENT_MODE")
      else Except.ok (some (jsTrim m))
    | _ => Except.ok none) (fun pm =>
  Except.bind
    (match b.paymentStatus with
    | some (some s) =>
      if (jsTrim s) = "" then
        Except.error (errResp 400 "Payment status cannot be empty" "INVALID_PAYMENT_STATUS")
      else Except.ok (some (jsTrim s))
    | _ => Except.ok none) (fun ps =>
  Except.ok { orderId := b.orderId, paymentMode := pm, paymentStatus := ps }))

/-- Update the payments table row with the given id.  The transaction_id
column is never part of a payments update, so no constraint can fail. -/
def dbUpdatePayments (st : Store) (i : Int) (u : PaymentUpdate) : Option Payment × Store :=
  let rows := st.payments.map (fun r => if r.id == i then applyPaymentUpdate u r else r)
  (rows.find? (fun r => r.id == i), { st with payments := rows })

/-- PUT /api/payments: id check, body read, existence check, validation,
then the no-update-fields guard. -/
def paymentsPUT (idp : Option String) (body : Option PaymentsPutBody) (st : Store) :
    ApiResponse × Store :=
  match idp with
  | none => (errResp 400 "Valid ID is required" "INVALID_ID", st)
  | some idStr =>
    if idStr = "" then (errResp 400 "Valid ID is required" "INVALID_ID", st)
    else match jsParseInt idStr with
    | none => (errResp 400 "Valid ID is required" "INVALID_ID", st)
    | some n =>
      match body with
      | none => (badJsonError, st)
      | some b =>
        match st.payments.find? (fun r => r.id == n) with
        | none => (errResp 404 "Payment not found" "PAYMENT_NOT_FOUND", st)
        | some _ =>
          match paymentsBuildUpdate b with
          | .error resp => (resp, st)
          | .ok u =>
            if paymentUpdateEmpty u then
              (errResp 400 "No valid fields to update" "NO_UPDATE_FIELDS", st)
            else
              let res := dbUpdatePayments st n u
              ({ status := 200, payload := res.1.map Payload.payment }, res.2)

/-- Delete the payments rows with the given id, returning the deleted rows. -/
def dbDeletePayments (st : Store) (i : Int) : List Payment × Store :=
  (st.payments.filter (fun r => r.id == i),
   { st with payments := st.payments.filter (fun r => !(r.id == i)) })

/-- DELETE /api/payments. -/
def paymentsDELETE (idp : Option String) (st : Store) : ApiResponse × Store :=
  match idp with
  | none => (errResp 400 "Valid ID is required" "INVALID_ID", st)
  | some idStr =>
    if idStr = "" then (errResp 400 "Valid ID is required" "INVALID_ID", st)
    else match jsParseInt idStr with
    | none => (errResp 400 "Valid ID is required" "INVALID_ID", st)
    | some n =>
      match st.payments.find? (fun r => r.id == n) with
      | none => (errResp 404 "Payment not found" "PAYMENT_NOT_FOUND", st)
      | some _ =>
        let res := dbDeletePayments st n
        ({ status := 200, message := some "Payment deleted successfully",
           payload := res.1.head?.map Payload.payment }, res.2)

/-! ## Orders route (src/src/app/api/orders/route.ts) -/

/-- Query parameters of GET /api/orders. -/
structure OrdersGetParams where
  id : Option String := none
  limit : Option String := none
  offset : Option String := none
  search : Option String := none
  status : Option String := none
  paymentStatus : Option String := none
  customerId : Option String := none
deriving DecidableEq

/-- The filter conditions of the orders list query. -/
def ordersRowMatch (p : OrdersGetParams) (o : Order) : Bool :=
  (match p.search with
   | some s => if s = "" then true else likeContains o.tokenNumber s
   | none => true) &&
  (match p.status with
   | some s => if s = "" then true else o.status == s
   | none => true) &&
  (match p.paymentStatus with
   | some s => if s = "" then true else o.paymentStatus == s
   | none => true) &&
  (match p.customerId with
   | some s =>
     if s = "" then true
     else match jsParseInt s with
       | some n => o.customerId == some n
       | none => true
   | none => true)

/-- Insert an order into a list sorted descending by createdAt. -/
def insertByCreatedAtDesc (o : Order) : List Order → List Order
  | [] => [o]
  | b :: t =>
    if compare b.createdAt o.createdAt == Ordering.lt then o :: b :: t
    else b :: insertByCreatedAtDesc o t

/-- ORDER BY created_at DESC. -/
def sortByCreatedAtDesc : List Order → List Order
  | [] => []
  | a :: t => insertByCreatedAtDesc a (sortByCreatedAtDesc t)

/-- The list branch of the orders GET handler. -/
def ordersListQ (p : OrdersGetParams) (st : Store) : ApiResponse :=
  let limit := listLimit p.limit
  let offset := listOffset p.offset
  let rows := sortByCreatedAtDesc (st.orders.filter (ordersRowMatch p))
  match applyPage limit offset rows with
  | .ok res => { status := 200, payload := some (.orderList res) }
  | .error msg => serverError msg

/-- GET /api/orders. -/
def ordersGET (p : OrdersGetParams) (st : Store) : ApiResponse :=
  match p.id with
  | some idStr =>
    if idStr = "" then ordersListQ p st
    else
      match jsParseInt idStr with
      | none => errResp 400 "Valid ID is required" "INVALID_ID"
      | some n =>
        match st.orders.find? (fun o => o.id == n) with
        | none => errResp 404 "Order not found" "ORDER_NOT_FOUND"
        | some o => { status := 200, payload := some (.order o) }
  | none => ordersListQ p st

/-- Request body of POST /api/orders. -/
structure OrdersPostBody where
  customerId : Option (Option Int) := none
  tokenNumber : Option String := none
  subtotal : Option Rat := none
  discount : Option (Option Rat) := none
  finalAmount : Option Rat := none
  status : Option (Option String) := none
  deliveryMode : Option String := none
  paymentStatus : Option (Option String) := none
  estimatedReadyTime : Option String := none
deriving DecidableEq

/-- The status the orders POST stores: the destructuring default for an
absent field, then status or the same default for null or empty string. -/
def ordersPostStatusVal (v : Option (Option String)) (dflt : String) : String :=
  match v with
  | some (some s) => if s = "" then dflt else s
  | _ => dflt

/-- Insert into the orders table; fails when the UNIQUE index on token_number
would be violated. -/
def dbInsertOrders (st : Store) (customerId : Option Int) (tokenNumber : String)
    (subtotal discount finalAmount : Rat) (status deliveryMode paymentStatus : String)
    (estimatedReadyTime : Option String) (createdAt updatedAt : String) :
    Except String (Order × Store) :=
  let o : Order :=
    { id := st.nextOrderId, customerId := customerId, tokenNumber := tokenNumber,
      subtotal := subtotal, discount := discount, finalAmount := finalAmount,
      status := status, deliveryMode := deliveryMode, paymentStatus := paymentStatus,
      estimatedReadyTime := estimatedReadyTime, createdAt := createdAt, updatedAt := updatedAt }
  let rows := st.orders ++ [o]
  if (rows.map Order.tokenNumber).Nodup then
    .ok (o, { st with orders := rows, nextOrderId := st.nextOrderId + 1 })
  else .error "UNIQUE constraint failed: orders.token_number"

/-- POST /api/orders.  A subtotal or finalAmount of 0 is caught by the falsy
check with the same response as the nonpositive check, so the two are
modelled by a single comparison; a null subtotal or finalAmount takes the
same 400 branch as an absent one via the falsy check. -/
def ordersPOST (now : String) (body : Option OrdersPostBody) (st : Store) :
    ApiResponse × Store :=
  match body with
  | none => (badJsonError, st)
  | some b =>
    match b.tokenNumber with
    | none => (errResp 400 "Token number is required" "MISSING_TOKEN_NUMBER", st)
    | some tokenNumber =>
    if (jsTrim tokenNumber) = "" then
      (errResp 400 "Token number is required" "MISSING_TOKEN_NUMBER", st)
    else match b.subtotal with
    | none => (errResp 400 "Valid positive subtotal is required" "INVALID_SUBTOTAL", st)
    | some subtotal =>
    if subtotal ≤ 0 then
      (errResp 400 "Valid positive subtotal is required" "INVALID_SUBTOTAL", st)
    else match b.finalAmount with
    | none => (errResp 400 "Valid positive final amount is required" "INVALID_FINAL_AMOUNT", st)
    | some finalAmount =>
    if finalAmount ≤ 0 then
      (errResp 400 "Valid positive final amount is required" "INVALID_FINAL_AMOUNT", st)
    else match b.deliveryMode with
    | none => (errResp 400 "Delivery mode is required" "MISSING_DELIVERY_MODE", st)
    | some deliveryMode =>
    if (jsTrim deliveryMode) = "" then
      (errResp 400 "Delivery mode is required" "MISSING_DELIVERY_MODE", st)
    else match b.discount with
    | some none => (errResp 400 "Discount must be a non-negative number" "INVALID_DISCOUNT", st)
    | discountField =>
    let discount := (discountField.getD (some 0)).getD 0
    if discount < 0 then
      (errResp 400 "Discount must be a non-negative number" "INVALID_DISCOUNT", st)
    else match b.customerId with
    | some (some c) =>
      if c ≤ 0 then
        (errResp 400 "Customer ID must be a positive number" "INVALID_CUSTOMER_ID", st)
      else
        match dbInsertOrders st (some c) (jsTrim tokenNumber) subtotal discount finalAmount
            (ordersPostStatusVal b.status "Order Received") (jsTrim deliveryMode)
            (ordersPostStatusVal b.paymentStatus "Pending")
            (if (b.estimatedReadyTime.getD "") = "" then none else b.estimatedReadyTime)
            now now with
        | .ok (o, st2) => ({ status := 201, payload := some (.order o) }, st2)
        | .error msg =>
          if strIncludes msg "UNIQUE" then
            (errResp 400 "Token number already exists" "DUPLICATE_TOKEN_NUMBER", st)
          else (serverError msg, st)
    | _ =>
      match dbInsertOrders st none (jsTrim tokenNumber) subtotal discount finalAmount
          (ordersPostStatusVal b.status "Order Received") (jsTrim deliveryMode)
          (ordersPostStatusVal b.paymentStatus "Pending")
          (if (b.estimatedReadyTime.getD "") = "" then none else b.estimatedReadyTime)
          now now with
      | .ok (o, st2) => ({ status := 201, payload := some (.order o) }, st2)
      | .error msg =>
        if strIncludes msg "UNIQUE" then
          (errResp 400 "Token number already exists" "DUPLICATE_TOKEN_NUMBER", st)
        else (serverError msg, st)

/-- Request body of PUT /api/orders. -/
structure OrdersPutBody where
  customerId : Option (Option Int) := none
  status : Option (Option String) := none
  deliveryMode : Option (Option String) := none
  paymentStatus : Option (Option String) := none
  estimatedReadyTime : Option (Option String) := none
  discount : Option (Option Rat) := none
  finalAmount : Option (Option Rat) := none
deriving DecidableEq

/-- The updateData object assembled by the orders PUT handler.  It always
carries a fresh updatedAt and never mentions tokenNumber, subtotal or
createdAt. -/
structure OrderUpdate where
  updatedAt : String
  customerId : Option (Option Int) := none
  status : Option String := none
  deliveryMode : Option String := none
  paymentStatus : Option String := none
  estimatedReadyTime : Option (Option String) := none
  discount : Option Rat := none
  finalAmount : Option Rat := none
deriving DecidableEq

/-- Apply an orders updateData object to a row. -/
def applyOrderUpdate (u : OrderUpdate) (o : Order) : Order :=
  { o with
    updatedAt := u.updatedAt
    customerId := u.customerId.getD o.customerId
    status := u.status.getD o.status
    deliveryMode := u.deliveryMode.getD o.deliveryMode
    paymentStatus := u.paymentStatus.getD o.paymentStatus
    estimatedReadyTime := u.estimatedReadyTime.getD o.estimatedReadyTime
    discount := u.discount.getD o.discount
    finalAmount := u.finalAmount.getD o.finalAmount }

/-- Validation of the orders PUT body, in source order; a supplied null
status, deliveryMode or paymentStatus fails the falsy check. -/
def ordersBuildUpdate (now : String) (b : OrdersPutBody) : Except ApiResponse OrderUpdate :=
  Except.bind
    (match b.customerId with
    | some (some c) =>
      if c ≤ 0 then
        Except.error (errResp 400 "Customer ID must be a positive number or null" "INVALID_CUSTOMER_ID")
      else Except.ok (some (some c))
    | v => Except.ok v) (fun cid =>
  Except.bind
    (match b.status with
    | some (some s) =>
      if (jsTrim s) = "" then Except.error (errResp 400 "Status cannot be empty" "INVALID_STATUS")
      else Except.ok (some (jsTrim s))
    | some none => Except.error (errResp 400 "Status cannot be empty" "INVALID_STATUS")
    | none => Except.ok none) (fun stat =>
  Except.bind
    (match b.deliveryMode with
    | some (some s) =>
      if (jsTrim s) = "" then
        Except.error (errResp 400 "Delivery mode cannot be empty" "INVALID_DELIVERY_MODE")
      else Except.ok (some (jsTrim s))
    | some none =>
      Except.error (errResp 400 "Delivery mode cannot be empty" "INVALID_DELIVERY_MODE")
    | none => Except.ok none) (fun dm =>
  Except.bind
    (match b.paymentStatus with
    | some (some s) =>
      if (jsTrim s) = "" then
        Except.error (errResp 400 "Payment status cannot be empty" "INVALID_PAYMENT_STATUS")
      else Except.ok (some (jsTrim s))
    | some none =>
      Except.error (errResp 400 "Payment status cannot be empty" "INVALID_PAYMENT_STATUS")
    | none => Except.ok none) (fun ps =>
  Except.bind
    (match b.discount with
    | some (some d) =>
      if d < 0 then
        Except.error (errResp 400 "Discount must be a non-negative number" "INVALID_DISCOUNT")
      else Except.ok (some d)
    | some none =>
      Except.error (errResp 400 "Discount must be a non-negative number" "INVALID_DISCOUNT")
    | none => Except.ok none) (fun disc =>
  Except.bind
    (match b.finalAmount with
    | some (some f) =>
      if f ≤ 0 then
        Except.error (errResp 400 "Final amount must be a positive number" "INVALID_FINAL_AMOUNT")
      else Except.ok (some f)
    | some none =>
      Except.error (errResp 400 "Final amount must be a positive number" "INVALID_FINAL_AMOUNT")
    | none => Except.ok none) (fun fin =>
  Except.ok { updatedAt := now, customerId := cid, status := stat, deliveryMode := dm, paymentStatus := ps, estimatedReadyTime := b.estimatedReadyTime, discount := disc, finalAmount := fin }))))))

/-- Update the orders table row with the given id.  The token_number column
is never part of an orders update, so no constraint can fail. -/
def dbUpdateOrders (st : Store) (i : Int) (u : OrderUpdate) : Option Order × Store :=
  let rows := st.orders.map (fun o => if o.id == i then applyOrderUpdate u o else o)
  (rows.find? (fun o => o.id == i), { st with orders := rows })

/-- PUT /api/orders: id check, body read, existence check, validation,
update. -/
def ordersPUT (now : String) (idp : Option String) (body : Option OrdersPutBody) (st : Store) :
    ApiResponse × Store :=
  match idp with
  | none => (errResp 400 "Valid ID is required" "INVALID_ID", st)
  | some idStr =>
    if idStr = "" then (errResp 400 "Valid ID is required" "INVALID_ID", st)
    else match jsParseInt idStr with
    | none => (errResp 400 "Valid ID is required" "INVALID_ID", st)
    | some n =>
      match body with
      | none => (badJsonError, st)
      | some b =>
        match st.orders.find? (fun o => o.id == n) with
        | none => (errResp 404 "Order not found" "ORDER_NOT_FOUND", st)
        | some _ =>
          match ordersBuildUpdate now b with
          | .error resp => (resp, st)
          | .ok u =>
            let res := dbUpdateOrders st n u
            ({ status := 200, payload := res.1.map Payload.order }, res.2)

/-- Delete the orders rows with the given id, returning the deleted rows. -/
def dbDeleteOrders (st : Store) (i : Int) : List Order × Store :=
  (st.orders.filter (fun o => o.id == i),
   { st with orders := st.orders.filter (fun o => !(o.id == i)) })

/-- DELETE /api/orders. -/
def ordersDELETE (idp : Option String) (st : Store) : ApiResponse × Store :=
  match idp with
  | none => (errResp 400 "Valid ID is required" "INVALID_ID", st)
  | some idStr =>
    if idStr = "" then (errResp 400 "Valid ID is required" "INVALID_ID", st)
    else match jsParseInt idStr with
    | none => (errResp 400 "Valid ID is required" "INVALID_ID", st)
    | some n =>
      match st.orders.find? (fun o => o.id == n) with
      | none => (errResp 404 "Order not found" "ORDER_NOT_FOUND", st)
      | some _ =>
        let res := dbDeleteOrders st n
        ({ status := 200, message := some "Order deleted successfully",
           payload := res.1.head?.map Payload.order }, res.2)

/-! ## Offers route (src/src/app/api/offers/route.ts, first segment) -/

/-- String comparison a <= b, as SQLite compares text. -/
def strLe (a b : String) : Bool :=
  !(compare a b == Ordering.gt)

/-- The value ? (jsTrim value)() : null idiom for optional text columns. -/
def jsOptTrim (v : Option (Option String)) : Option String :=
  match v with
  | some (some s) => if s = "" then none else some (jsTrim s)
  | _ => none

/-- Simplified new Date(s) validity: the model accepts every non-empty
string, agreeing with JavaScript on the ISO strings the application
produces; toISOString is the identity on them. -/
def jsDateValid (s : String) : Bool :=
  !(s = "")

/-- Query parameters of GET /api/offers. -/
structure OffersGetParams where
  id : Option String := none
  limit : Option String := none
  offset : Option String := none
  search : Option String := none
  active : Option String := none
deriving DecidableEq

/-- The filter conditions of the offers list query; the active filter
compares against the request-time timestamp. -/
def offersRowMatch (now : String) (p : OffersGetParams) (o : Offer) : Bool :=
  (match p.search with
   | some s =>
     if s = "" then true
     else likeContains o.title s || (match o.description with
       | some d => likeContains d s
       | none => false)
   | none => true) &&
  (if p.active == some "true" then strLe o.validFrom now && strLe now o.validUntil else true)

/-- The list branch of the offers GET handler. -/
def offersList (now : String) (p : OffersGetParams) (st : Store) : ApiResponse :=
  let limit := listLimit p.limit
  let offset := listOffset p.offset
  let rows := st.offers.filter (offersRowMatch now p)
  match applyPage limit offset rows with
  | .ok res => { status := 200, payload := some (.offerList res) }
  | .error msg => serverError msg

/-- GET /api/offers.  The not-found response carries no code field. -/
def offersGET (now : String) (p : OffersGetParams) (st : Store) : ApiResponse :=
  match p.id with
  | some idStr =>
    if idStr = "" then offersList now p st
    else
      match jsParseInt idStr with
      | none => errResp 400 "Valid ID is required" "INVALID_ID"
      | some n =>
        match st.offers.find? (fun o => o.id == n) with
        | none => errRespNoCode 404 "Offer not found"
        | some o => { status := 200, payload := some (.offer o) }
  | none => offersList now p st

/-- Request body of POST /api/offers. -/
structure OffersPostBody where
  title : Option String := none
  description : Option (Option String) := none
  discountPercent : Option (Option Rat) := none
  validFrom : Option String := none
  validUntil : Option String := none
deriving DecidableEq

/-- Insert into the offers table (no uniqueness constraint). -/
def dbInsertOffers (st : Store) (title : String) (description : Option String)
    (discountPercent : Rat) (validFrom validUntil createdAt : String) : Offer × Store :=
  let o : Offer :=
    { id := st.nextOfferId, title := title, description := description,
      discountPercent := discountPercent, validFrom := validFrom, validUntil := validUntil,
      createdAt := createdAt }
  (o, { st with offers := st.offers ++ [o], nextOfferId := st.nextOfferId + 1 })

/-- POST /api/offers. -/
def offersPOST (now : String) (body : Option OffersPostBody) (st : Store) :
    ApiResponse × Store :=
  match body with
  | none => (badJsonError, st)
  | some b =>
    match b.title with
    | none => (errResp 400 "Title is required and cannot be empty" "MISSING_REQUIRED_FIELD", st)
    | some title =>
    if (jsTrim title) = "" then
      (errResp 400 "Title is required and cannot be empty" "MISSING_REQUIRED_FIELD", st)
    else match b.discountPercent with
    | none => (errResp 400 "Discount percent is required" "MISSING_REQUIRED_FIELD", st)
    | some none => (errResp 400 "Discount percent is required" "MISSING_REQUIRED_FIELD", st)
    | some (some discountPercent) =>
    match b.validFrom with
    | none => (errResp 400 "Valid from date is required" "MISSING_REQUIRED_FIELD", st)
    | some validFrom =>
    if validFrom = "" then
      (errResp 400 "Valid from date is required" "MISSING_REQUIRED_FIELD", st)
    else match b.validUntil with
    | none => (errResp 400 "Valid until date is required" "MISSING_REQUIRED_FIELD", st)
    | some validUntil =>
    if validUntil = "" then
      (errResp 400 "Valid until date is required" "MISSING_REQUIRED_FIELD", st)
    else if discountPercent < 0 || 100 < discountPercent then
      (errResp 400 "Discount percent must be a number between 0 and 100"
        "INVALID_DISCOUNT_PERCENT", st)
    else if !(jsDateValid validFrom) then
      (errResp 400 "Valid from must be a valid ISO timestamp" "INVALID_DATE_FORMAT", st)
    else if !(jsDateValid validUntil) then
      (errResp 400 "Valid until must be a valid ISO timestamp" "INVALID_DATE_FORMAT", st)
    else
      let res := dbInsertOffers st (jsTrim title) (jsOptTrim b.description) discountPercent
        validFrom validUntil now
      ({ status := 201, payload := some (.offer res.1) }, res.2)

/-- Request body of PUT /api/offers. -/
structure OffersPutBody where
  title : Option String := none
  description : Option (Option String) := none
  discountPercent : Option Rat := none
  validFrom : Option String := none
  validUntil : Option String := none
deriving DecidableEq

/-- The updateData object assembled by the offers PUT handler. -/
structure OfferUpdate where
  title : Option String := none
  description : Option (Option String) := none
  discountPercent : Option Rat := none
  validFrom : Option String := none
  validUntil : Option String := none
deriving DecidableEq

/-- Object.keys(updateData).length === 0 for the offers PUT handler; an empty
set object makes drizzle throw, surfacing as a 500. -/
def offerUpdateEmpty (u : OfferUpdate) : Bool :=
  u.title.isNone && u.description.isNone && u.discountPercent.isNone &&
  u.validFrom.isNone && u.validUntil.isNone

/-- Apply an offers updateData object to a row. -/
def applyOfferUpdate (u : OfferUpdate) (o : Offer) : Offer :=
  { o with
    title := u.title.getD o.title
    description := u.description.getD o.description
    discountPercent := u.discountPercent.getD o.discountPercent
    validFrom := u.validFrom.getD o.validFrom
    validUntil := u.validUntil.getD o.validUntil }

/-- Validation of the offers PUT body, in source order. -/
def offersBuildUpdate (b : OffersPutBody) : Except ApiResponse OfferUpdate :=
  Except.bind
    (match b.title with
    | some t =>
      if (jsTrim t) = "" then Except.error (errResp 400 "Title cannot be empty" "INVALID_TITLE")
      else Except.ok (some (jsTrim t))
    | none => Except.ok none) (fun title =>
  Except.bind
    (match b.discountPercent with
    | some d =>
      if d < 0 || 100 < d then
        Except.error (errResp 400 "Discount percent must be a number between 0 and 100"
          "INVALID_DISCOUNT_PERCENT")
      else Except.ok (some d)
    | none => Except.ok none) (fun disc =>
  Except.bind
    (match b.validFrom with
    | some s =>
      if !(jsDateValid s) then
        Except.error (errResp 400 "Valid from must be a valid ISO timestamp" "INVALID_DATE_FORMAT")
      else Except.ok (some s)
    | none => Except.ok none) (fun vf =>
  Except.bind
    (match b.validUntil with
    | some s =>
      if !(jsDateValid s) then
        Except.error (errResp 400 "Valid until must be a valid ISO timestamp" "INVALID_DATE_FORMAT")
      else Except.ok (some s)
    | none => Except.ok none) (fun vu =>
  Except.ok { title := title, description := (match b.description with | some v => some (jsOptTrim (some v)) | none => none), discountPercent := disc, validFrom := vf, validUntil := vu }))))

/-- Update the offers table row with the given id. -/
def dbUpdateOffers (st : Store) (i : Int) (u : OfferUpdate) : Option Offer × Store :=
  let rows := st.offers.map (fun o => if o.id == i then applyOfferUpdate u o else o)
  (rows.find? (fun o => o.id == i), { st with offers := rows })

/-- PUT /api/offers.  The not-found response carries no code field. -/
def offersPUT (idp : Option String) (body : Option OffersPutBody) (st : Store) :
    ApiResponse × Store :=
  match idp with
  | none => (errResp 400 "Valid ID is required" "INVALID_ID", st)
  | some idStr =>
    if idStr = "" then (errResp 400 "Valid ID is required" "INVALID_ID", st)
    else match jsParseInt idStr with
    | none => (errResp 400 "Valid ID is required" "INVALID_ID", st)
    | some n =>
      match st.offers.find? (fun o => o.id == n) with
      | none => (errRespNoCode 404 "Offer not found", st)
      | some _ =>
        match body with
        | none => (badJsonError, st)
        | some b =>
          match offersBuildUpdate b with
          | .error resp => (resp, st)
          | .ok u =>
            if offerUpdateEmpty u then (serverError "No values to set", st)
            else
              let res := dbUpdateOffers st n u
              ({ status := 200, payload := res.1.map Payload.offer }, res.2)

/-- Delete the offers rows with the given id, returning the deleted rows. -/
def dbDeleteOffers (st : Store) (i : Int) : List Offer × Store :=
  (st.offers.filter (fun o => o.id == i),
   { st with offers := st.offers.filter (fun o => !(o.id == i)) })

/-- DELETE /api/offers.  The not-found response carries no code field. -/
def offersDELETE (idp : Option String) (st : Store) : ApiResponse × Store :=
  match idp with
  | none => (errResp 400 "Valid ID is required" "INVALID_ID", st)
  | some idStr =>
    if idStr = "" then (errResp 400 "Valid ID is required" "INVALID_ID", st)
    else match jsParseInt idStr with
    | none => (errResp 400 "Valid ID is required" "INVALID_ID", st)
    | some n =>
      match st.offers.find? (fun o => o.id == n) with
      | none => (errRespNoCode 404 "Offer not found", st)
      | some _ =>
        let res := dbDeleteOffers st n
        ({ status := 200, message := some "Offer deleted successfully",
           payload := res.1.head?.map Payload.offer }, res.2)

/-! ## Shops route (src/src/app/api/offers/route.ts, second segment) -/

/-- Query parameters of GET /api/shops. -/
structure ShopsGetParams where
  id : Option String := none
  limit : Option String := none
  offset : Option String := none
  search : Option String := none
deriving DecidableEq

/-- The list branch of the shops GET handler. -/
def shopsList (p : ShopsGetParams) (st : Store) : ApiResponse :=
  let limit := listLimit p.limit
  let offset := listOffset p.offset
  let rows :=
    match p.search with
    | some s =>
      if s = "" then st.shops
      else st.shops.filter (fun r =>
        likeContains r.name s || likeContains r.address s || likeContains r.email s)
    | none => st.shops
  match applyPage limit offset rows with
  | .ok res => { status := 200, payload := some (.shopList res) }
  | .error msg => serverError msg

/-- GET /api/shops. -/
def shopsGET (p : ShopsGetParams) (st : Store) : ApiResponse :=
  match p.id with
  | some idStr =>
    if idStr = "" then shopsList p st
    else
      match jsParseInt idStr with
      | none => errResp 400 "Valid ID is required" "INVALID_ID"
      | some n =>
        match st.shops.find? (fun r => r.id == n) with
        | none => errResp 404 "Shop not found" "SHOP_NOT_FOUND"
        | some r => { status := 200, payload := some (.shop r) }
  | none => shopsList p st

/-- Request body of POST /api/shops. -/
structure ShopsPostBody where
  name : Option String := none
  address : Option String := none
  contact : Option String := none
  email : Option String := none
deriving DecidableEq

/-- Insert into the shops table (no uniqueness constraint). -/
def dbInsertShops (st : Store) (name address contact email createdAt : String) : Shop × Store :=
  let r : Shop :=
    { id := st.nextShopId, name := name, address := address, contact := contact,
      email := email, createdAt := createdAt }
  (r, { st with shops := st.shops ++ [r], nextShopId := st.nextShopId + 1 })

/-- POST /api/shops. -/
def shopsPOST (now : String) (body : Option ShopsPostBody) (st : Store) :
    ApiResponse × Store :=
  match body with
  | none => (badJsonError, st)
  | some b =>
    match b.name with
    | none => (errResp 400 "Name is required and cannot be empty" "MISSING_NAME", st)
    | some name =>
    if (jsTrim name) = "" then
      (errResp 400 "Name is required and cannot be empty" "MISSING_NAME", st)
    else match b.address with
    | none => (errResp 400 "Address is required and cannot be empty" "MISSING_ADDRESS", st)
    | some address =>
    if (jsTrim address) = "" then
      (errResp 400 "Address is required and cannot be empty" "MISSING_ADDRESS", st)
    else match b.contact with
    | none => (errResp 400 "Contact is required and cannot be empty" "MISSING_CONTACT", st)
    | some contact =>
    if (jsTrim contact) = "" then
      (errResp 400 "Contact is required and cannot be empty" "MISSING_CONTACT", st)
    else match b.email with
    | none => (errResp 400 "Email is required and cannot be empty" "MISSING_EMAIL", st)
    | some email =>
    if (jsTrim email) = "" then
      (errResp 400 "Email is required and cannot be empty" "MISSING_EMAIL", st)
    else
      let res := dbInsertShops st (jsTrim name) (jsTrim address) (jsTrim contact)
        (jsToLower (jsTrim email)) now
      ({ status := 201, payload := some (.shop res.1) }, res.2)

/-- Request body of PUT /api/shops. -/
structure ShopsPutBody where
  name : Option String := none
  address : Option String := none
  contact : Option String := none
  email : Option String := none
deriving DecidableEq

/-- The updateData object assembled by the shops PUT handler. -/
structure ShopUpdate where
  name : Option String := none
  address : Option String := none
  contact : Option String := none
  email : Option String := none
deriving DecidableEq

/-- Object.keys(updateData).length === 0 for the shops PUT handler. -/
def shopUpdateEmpty (u : ShopUpdate) : Bool :=
  u.name.isNone && u.address.isNone && u.contact.isNone && u.email.isNone

/-- Apply a shops updateData object to a row. -/
def applyShopUpdate (u : ShopUpdate) (r : Shop) : Shop :=
  { r with
    name := u.name.getD r.name
    address := u.address.getD r.address
    contact := u.contact.getD r.contact
    email := u.email.getD r.email }

/-- Validation of the shops PUT body, in source order. -/
def shopsBuildUpdate (b : ShopsPutBody) : Except ApiResponse ShopUpdate :=
  Except.bind (reqString b.name (errResp 400 "Name cannot be empty" "INVALID_NAME")) (fun name =>
  Except.bind (reqString b.address (errResp 400 "Address cannot be empty" "INVALID_ADDRESS")) (fun address =>
  Except.bind (reqString b.contact (errResp 400 "Contact cannot be empty" "INVALID_CONTACT")) (fun contact =>
  Except.bind (reqString b.email (errResp 400 "Email cannot be empty" "INVALID_EMAIL")) (fun email =>
  Except.ok { name := name, address := address, contact := contact, email := email.map jsToLower }))))

/-- Update the shops table row with the given id. -/
def dbUpdateShops (st : Store) (i : Int) (u : ShopUpdate) : Option Shop × Store :=
  let rows := st.shops.map (fun r => if r.id == i then applyShopUpdate u r else r)
  (rows.find? (fun r => r.id == i), { st with shops := rows })

/-- PUT /api/shops. -/
def shopsPUT (idp : Option String) (body : Option ShopsPutBody) (st : Store) :
    ApiResponse × Store :=
  match idp with
  | none => (errResp 400 "Valid ID is required" "INVALID_ID", st)
  | some idStr =>
    if idStr = "" then (errResp 400 "Valid ID is required" "INVALID_ID", st)
    else match jsParseInt idStr with
    | none => (errResp 400 "Valid ID is required" "INVALID_ID", st)
    | some n =>
      match body with
      | none => (badJsonError, st)
      | some b =>
        match st.shops.find? (fun r => r.id == n) with
        | none => (errResp 404 "Shop not found" "SHOP_NOT_FOUND", st)
        | some _ =>
          match shopsBuildUpdate b with
          | .error resp => (resp, st)
          | .ok u =>
            if shopUpdateEmpty u then (serverError "No values to set", st)
            else
              let res := dbUpdateShops st n u
              ({ status := 200, payload := res.1.map Payload.shop }, res.2)

/-- Delete the shops rows with the given id, returning the deleted rows. -/
def dbDeleteShops (st : Store) (i : Int) : List Shop × Store :=
  (st.shops.filter (fun r => r.id == i),
   { st with shops := st.shops.filter (fun r => !(r.id == i)) })

/-- DELETE /api/shops. -/
def shopsDELETE (idp : Option String) (st : Store) : ApiResponse × Store :=
  match idp with
  | none => (errResp 400 "Valid ID is required" "INVALID_ID", st)
  | some idStr =>
    if idStr = "" then (errResp 400 "Valid ID is required" "INVALID_ID", st)
    else match jsParseInt idStr with
    | none => (errResp 400 "Valid ID is required" "INVALID_ID", st)
    | some n =>
      match st.shops.find? (fun r => r.id == n) with
      | none => (errResp 404 "Shop not found" "SHOP_NOT_FOUND", st)
      | some _ =>
        let res := dbDeleteShops st n
        ({ status := 200, message := some "Shop deleted successfully",
           payload := res.1.head?.map Payload.shop }, res.2)

/-! ## Menu-items route (src/src/app/api/offers/route.ts, third segment) -/

/-- Query parameters of GET /api/menu-items. -/
structure MenuItemsGetParams where
  id : Option String := none
  limit : Option String := none
  offset : Option String := none
  search : Option String := none
  category : Option String := none
  availability : Option String := none
deriving DecidableEq

/-- The filter conditions of the menu-items list query. -/
def menuItemsRowMatch (p : MenuItemsGetParams) (m : MenuItem) : Bool :=
  (match p.search with
   | some s =>
     if s = "" then true
     else likeContains m.name s || likeContains m.category s ||
       (match m.description with
        | some d => likeContains d s
        | none => false)
   | none => true) &&
  (match p.category with
   | some s => if s = "" then true else m.category == s
   | none => true) &&
  (match p.availability with
   | some s => m.availability == (s == "true" || s == "1")
   | none => true)

/-- The list branch of the menu-items GET handler. -/
def menuItemsList (p : MenuItemsGetParams) (st : Store) : ApiResponse :=
  let limit := listLimit p.limit
  let offset := listOffset p.offset
  let rows := st.menuItems.filter (menuItemsRowMatch p)
  match applyPage limit offset rows with
  | .ok res => { status := 200, payload := some (.menuItemList res) }
  | .error msg => serverError msg

/-- GET /api/menu-items. -/
def menuItemsGET (p : MenuItemsGetParams) (st : Store) : ApiResponse :=
  match p.id with
  | some idStr =>
    if idStr = "" then menuItemsList p st
    else
      match jsParseInt idStr with
      | none => errResp 400 "Valid ID is required" "INVALID_ID"
      | some n =>
        match st.menuItems.find? (fun m => m.id == n) with
        | none => errResp 404 "Menu item not found" "NOT_FOUND"
        | some m => { status := 200, payload := some (.menuItem m) }
  | none => menuItemsList p st

/-- Request body of POST /api/menu-items. -/
structure MenuItemsPostBody where
  name : Option String := none
  category : Option String := none
  price : Option (Option Rat) := none
  availability : Option (Option Bool) := none
  description : Option (Option String) := none
  imageUrl : Option (Option String) := none
deriving DecidableEq

/-- Insert into the menu_items table (no uniqueness constraint). -/
def dbInsertMenuItems (st : Store) (name category : String) (price : Rat)
    (availability : Bool) (description imageUrl : Option String) (createdAt : String) :
    MenuItem × Store :=
  let m : MenuItem :=
    { id := st.nextMenuItemId, name := name, category := category, price := price,
      availability := availability, description := description, imageUrl := imageUrl,
      createdAt := createdAt }
  (m, { st with menuItems := st.menuItems ++ [m], nextMenuItemId := st.nextMenuItemId + 1 })

/-- POST /api/menu-items.  availability !== undefined ? Boolean(availability)
: true, so an absent flag defaults to true and a supplied null is false. -/
def menuItemsPOST (now : String) (body : Option MenuItemsPostBody) (st : Store) :
    ApiResponse × Store :=
  match body with
  | none => (badJsonError, st)
  | some b =>
    match b.name with
    | none => (errResp 400 "Name is required and must not be empty" "MISSING_NAME", st)
    | some name =>
    if (jsTrim name) = "" then
      (errResp 400 "Name is required and must not be empty" "MISSING_NAME", st)
    else match b.category with
    | none => (errResp 400 "Category is required and must not be empty" "MISSING_CATEGORY", st)
    | some category =>
    if (jsTrim category) = "" then
      (errResp 400 "Category is required and must not be empty" "MISSING_CATEGORY", st)
    else match b.price with
    | none => (errResp 400 "Price is required" "MISSING_PRICE", st)
    | some none => (errResp 400 "Price is required" "MISSING_PRICE", st)
    | some (some price) =>
    if price ≤ 0 then
      (errResp 400 "Price must be a positive number" "INVALID_PRICE", st)
    else
      let avail :=
        match b.availability with
        | some v => v.getD false
        | none => true
      let res := dbInsertMenuItems st (jsTrim name) (jsTrim category) price avail
        (jsOptTrim b.description) (jsOptTrim b.imageUrl) now
      ({ status := 201, payload := some (.menuItem res.1) }, res.2)

/-- Request body of PUT /api/menu-items. -/
structure MenuItemsPutBody where
  name : Option String := none
  category : Option String := none
  price : Option (Option Rat) := none
  availability : Option (Option Bool) := none
  description : Option (Option String) := none
  imageUrl : Option (Option String) := none
deriving DecidableEq

/-- The updateData object assembled by the menu-items PUT handler. -/
structure MenuItemUpdate where
  name : Option String := none
  category : Option String := none
  price : Option Rat := none
  availability : Option Bool := none
  description : Option (Option String) := none
  imageUrl : Option (Option String) := none
deriving DecidableEq

/-- Object.keys(updateData).length === 0 for the menu-items PUT handler. -/
def menuItemUpdateEmpty (u : MenuItemUpdate) : Bool :=
  u.name.isNone && u.category.isNone && u.price.isNone && u.availability.isNone &&
  u.description.isNone && u.imageUrl.isNone

/-- Apply a menu-items updateData object to a row. -/
def applyMenuItemUpdate (u : MenuItemUpdate) (m : MenuItem) : MenuItem :=
  { m with
    name := u.name.getD m.name
    category := u.category.getD m.category
    price := u.price.getD m.price
    availability := u.availability.getD m.availability
    description := u.description.getD m.description
    imageUrl := u.imageUrl.getD m.imageUrl }

/-- Validation of the menu-items PUT body, in source order.  A null price is
rejected like a nonpositive one because null coerces to 0 in the <= 0
comparison. -/
def menuItemsBuildUpdate (b : MenuItemsPutBody) : Except ApiResponse MenuItemUpdate :=
  Except.bind (reqString b.name (errResp 400 "Name must not be empty" "INVALID_NAME")) (fun name =>
  Except.bind (reqString b.category (errResp 400 "Category must not be empty" "INVALID_CATEGORY")) (fun category =>
  Except.bind
    (match b.price with
    | some (some p) =>
      if p ≤ 0 then
        Except.error (errResp 400 "Price must be a positive number" "INVALID_PRICE")
      else Except.ok (some p)
    | some none =>
      Except.error (errResp 400 "Price must be a positive number" "INVALID_PRICE")
    | none => Except.ok none) (fun price =>
  Except.ok { name := name, category := category, price := price, availability := (match b.availability with | some v => some (v.getD false) | none => none), description := (match b.description with | some v => some (jsOptTrim (some v)) | none => none), imageUrl := (match b.imageUrl with | some v => some (jsOptTrim (some v)) | none => none) })))

/-- Update the menu_items table row with the given id. -/
def dbUpdateMenuItems (st : Store) (i : Int) (u : MenuItemUpdate) : Option MenuItem × Store :=
  let rows := st.menuItems.map (fun m => if m.id == i then applyMenuItemUpdate u m else m)
  (rows.find? (fun m => m.id == i), { st with menuItems := rows })

/-- PUT /api/menu-items. -/
def menuItemsPUT (idp : Option String) (body : Option MenuItemsPutBody) (st : Store) :
    ApiResponse × Store :=
  match idp with
  | none => (errResp 400 "Valid ID is required" "INVALID_ID", st)
  | some idStr =>
    if idStr = "" then (errResp 400 "Valid ID is required" "INVALID_ID", st)
    else match jsParseInt idStr with
    | none => (errResp 400 "Valid ID is required" "INVALID_ID", st)
    | some n =>
      match st.menuItems.find? (fun m => m.id == n) with
      | none => (errResp 404 "Menu item not found" "NOT_FOUND", st)
      | some _ =>
        match body with
        | none => (badJsonError, st)
        | some b =>
          match menuItemsBuildUpdate b with
          | .error resp => (resp, st)
          | .ok u =>
            if menuItemUpdateEmpty u then (serverError "No values to set", st)
            else
              let res := dbUpdateMenuItems st n u
              ({ status := 200, payload := res.1.map Payload.menuItem }, res.2)

/-- Delete the menu_items rows with the given id, returning the deleted
rows. -/
def dbDeleteMenuItems (st : Store) (i : Int) : List MenuItem × Store :=
  (st.menuItems.filter (fun m => m.id == i),
   { st with menuItems := st.menuItems.filter (fun m => !(m.id == i)) })

/-- DELETE /api/menu-items. -/
def menuItemsDELETE (idp : Option String) (st : Store) : ApiResponse × Store :=
  match idp with
  | none => (errResp 400 "Valid ID is required" "INVALID_ID", st)
  | some idStr =>
    if idStr = "" then (errResp 400 "Valid ID is required" "INVALID_ID", st)
    else match jsParseInt idStr with
    | none => (errResp 400 "Valid ID is required" "INVALID_ID", st)
    | some n =>
      match st.menuItems.find? (fun m => m.id == n) with
      | none => (errResp 404 "Menu item not found" "NOT_FOUND", st)
      | some _ =>
        let res := dbDeleteMenuItems st n
        ({ status := 200, message := some "Menu item deleted successfully",
           payload := res.1.head?.map Payload.menuItem }, res.2)

/-! ## Order-items route (src/src/app/api/order-items/route.ts) -/

/-- Query parameters of GET /api/order-items. -/
structure OrderItemsGetParams where
  id : Option String := none
  limit : Option String := none
  offset : Option String := none
  orderId : Option String := none
  menuItemId : Option String := none
deriving DecidableEq

/-- The filter conditions of the order-items list query. -/
def orderItemsRowMatch (p : OrderItemsGetParams) (r : OrderItem) : Bool :=
  (match p.orderId with
   | some s =>
     if s = "" then true
     else match jsParseInt s with
       | some n => r.orderId == some n
       | none => true
   | none => true) &&
  (match p.menuItemId with
   | some s =>
     if s = "" then true
     else match jsParseInt s with
       | some n => r.menuItemId == some n
       | none => true
   | none => true)

/-- The list branch of the order-items GET handler. -/
def orderItemsList (p : OrderItemsGetParams) (st : Store) : ApiResponse :=
  let limit := listLimit p.limit
  let offset := listOffset p.offset
  let rows := st.orderItems.filter (orderItemsRowMatch p)
  match applyPage limit offset rows with
  | .ok res => { status := 200, payload := some (.orderItemList res) }
  | .error msg => serverError msg

/-- GET /api/order-items. -/
def orderItemsGET (p : OrderItemsGetParams) (st : Store) : ApiResponse :=
  match p.id with
  | some idStr =>
    if idStr = "" then orderItemsList p st
    else
      match jsParseInt idStr with
      | none => errResp 400 "Valid ID is required" "INVALID_ID"
      | some n =>
        match st.orderItems.find? (fun r => r.id == n) with
        | none => errResp 404 "Order item not found" "NOT_FOUND"
        | some r => { status := 200, payload := some (.orderItem r) }
  | none => orderItemsList p st

/-- Request body of POST /api/order-items. -/
structure OrderItemsPostBody where
  orderId : Option (Option Int) := none
  menuItemId : Option (Option Int) := none
  quantity : Option (Option Int) := none
  price : Option (Option Rat) := none
deriving DecidableEq

/-- Insert into the order_items table (no uniqueness constraint). -/
def dbInsertOrderItems (st : Store) (orderId menuItemId : Option Int)
    (quantity : Int) (price : Rat) (createdAt : String) : OrderItem × Store :=
  let r : OrderItem :=
    { id := st.nextOrderItemId, orderId := orderId, menuItemId := menuItemId,
      quantity := quantity, price := price, createdAt := createdAt }
  (r, { st with orderItems := st.orderItems ++ [r], nextOrderItemId := st.nextOrderItemId + 1 })

/-- POST /api/order-items. -/
def orderItemsPOST (now : String) (body : Option OrderItemsPostBody) (st : Store) :
    ApiResponse × Store :=
  match body with
  | none => (badJsonError, st)
  | some b =>
    match b.quantity with
    | none => (errResp 400 "Quantity is required" "MISSING_QUANTITY", st)
    | some none => (errResp 400 "Quantity is required" "MISSING_QUANTITY", st)
    | some (some quantity) =>
    match b.price with
    | none => (errResp 400 "Price is required" "MISSING_PRICE", st)
    | some none => (errResp 400 "Price is required" "MISSING_PRICE", st)
    | some (some price) =>
    if quantity ≤ 0 then
      (errResp 400 "Quantity must be a positive integer" "INVALID_QUANTITY", st)
    else if price ≤ 0 then
      (errResp 400 "Price must be a positive number" "INVALID_PRICE", st)
    else if (match b.orderId with
      | some (some o) => decide (o ≤ 0)
      | _ => false) then
      (errResp 400 "Order ID must be a positive integer" "INVALID_ORDER_ID", st)
    else if (match b.menuItemId with
      | some (some m) => decide (m ≤ 0)
      | _ => false) then
      (errResp 400 "Menu item ID must be a positive integer" "INVALID_MENU_ITEM_ID", st)
    else
      let res := dbInsertOrderItems st (b.orderId.getD none) (b.menuItemId.getD none)
        quantity price now
      ({ status := 201, payload := some (.orderItem res.1) }, res.2)

/-- Request body of PUT /api/order-items. -/
structure OrderItemsPutBody where
  orderId : Option (Option Int) := none
  menuItemId : Option (Option Int) := none
  quantity : Option (Option Int) := none
  price : Option (Option Rat) := none
deriving DecidableEq

/-- The updateData object assembled by the order-items PUT handler.  A
supplied null orderId or menuItemId is stored as null; a null quantity or
price contributes nothing. -/
structure OrderItemUpdate where
  orderId : Option (Option Int) := none
  menuItemId : Option (Option Int) := none
  quantity : Option Int := none
  price : Option Rat := none
deriving DecidableEq

/-- Object.keys(updateData).length === 0 for the order-items PUT handler. -/
def orderItemUpdateEmpty (u : OrderItemUpdate) : Bool :=
  u.orderId.isNone && u.menuItemId.isNone && u.quantity.isNone && u.price.isNone

/-- Apply an order-items updateData object to a row. -/
def applyOrderItemUpdate (u : OrderItemUpdate) (r : OrderItem) : OrderItem :=
  { r with
    orderId := u.orderId.getD r.orderId
    menuItemId := u.menuItemId.getD r.menuItemId
    quantity := u.quantity.getD r.quantity
    price := u.price.getD r.price }

/-- Validation of the order-items PUT body, in source order. -/
def orderItemsBuildUpdate (b : OrderItemsPutBody) : Except ApiResponse OrderItemUpdate :=
  Except.bind
    (match b.quantity with
    | some (some q) =>
      if q ≤ 0 then
        Except.error (errResp 400 "Quantity must be a positive integer" "INVALID_QUANTITY")
      else Except.ok (some q)
    | _ => Except.ok none) (fun qty =>
  Except.bind
    (match b.price with
    | some (some p) =>
      if p ≤ 0 then
        Except.error (errResp 400 "Price must be a positive number" "INVALID_PRICE")
      else Except.ok (some p)
    | _ => Except.ok none) (fun price =>
  Except.bind
    (match b.orderId with
    | some (some o) =>
      if o ≤ 0 then
        Except.error (errResp 400 "Order ID must be a positive integer" "INVALID_ORDER_ID")
      else Except.ok ()
    | _ => Except.ok ()) (fun _ =>
  Except.bind
    (match b.menuItemId with
    | some (some m) =>
      if m ≤ 0 then
        Except.error (errResp 400 "Menu item ID must be a positive integer" "INVALID_MENU_ITEM_ID")
      else Except.ok ()
    | _ => Except.ok ()) (fun _ =>
  Except.ok { orderId := b.orderId, menuItemId := b.menuItemId, quantity := qty, price := price }))))

/-- Update the order_items table row with the given id. -/
def dbUpdateOrderItems (st : Store) (i : Int) (u : OrderItemUpdate) :
    Option OrderItem × Store :=
  let rows := st.orderItems.map (fun r => if r.id == i then applyOrderItemUpdate u r else r)
  (rows.find? (fun r => r.id == i), { st with orderItems := rows })

/-- PUT /api/order-items. -/
def orderItemsPUT (idp : Option String) (body : Option OrderItemsPutBody) (st : Store) :
    ApiResponse × Store :=
  match idp with
  | none => (errResp 400 "Valid ID is required" "INVALID_ID", st)
  | some idStr =>
    if idStr = "" then (errResp 400 "Valid ID is required" "INVALID_ID", st)
    else match jsParseInt idStr with
    | none => (errResp 400 "Valid ID is required" "INVALID_ID", st)
    | some n =>
      match st.orderItems.find? (fun r => r.id == n) with
      | none => (errResp 404 "Order item not found" "NOT_FOUND", st)
      | some _ =>
        match body with
        | none => (badJsonError, st)
        | some b =>
          match orderItemsBuildUpdate b with
          | .error resp => (resp, st)
          | .ok u =>
            if orderItemUpdateEmpty u then (serverError "No values to set", st)
            else
              let res := dbUpdateOrderItems st n u
              ({ status := 200, payload := res.1.map Payload.orderItem }, res.2)

/-- Delete the order_items rows with the given id, returning the deleted
rows. -/
def dbDeleteOrderItems (st : Store) (i : Int) : List OrderItem × Store :=
  (st.orderItems.filter (fun r => r.id == i),
   { st with orderItems := st.orderItems.filter (fun r => !(r.id == i)) })

/-- DELETE /api/order-items. -/
def orderItemsDELETE (idp : Option String) (st : Store) : ApiResponse × Store :=
  match idp with
  | none => (errResp 400 "Valid ID is required" "INVALID_ID", st)
  | some idStr =>
    if idStr = "" then (errResp 400 "Valid ID is required" "INVALID_ID", st)
    else match jsParseInt idStr with
    | none => (errResp 400 "Valid ID is required" "INVALID_ID", st)
    | some n =>
      match st.orderItems.find? (fun r => r.id == n) with
      | none => (errResp 404 "Order item not found" "NOT_FOUND", st)
      | some _ =>
        let res := dbDeleteOrderItems st n
        ({ status := 200, message := some "Order item deleted successfully",
           payload := res.1.head?.map Payload.orderItem }, res.2)

/-! ## Receipts route (src/src/app/api/receipts/route.ts) -/

/-- Query parameters of GET /api/receipts. -/
structure ReceiptsGetParams where
  id : Option String := none
  limit : Option String := none
  offset : Option String := none
  orderId : Option String := none
deriving DecidableEq

/-- The filter condition of the receipts list query: an unparsable orderId
parameter adds no condition. -/
def receiptsRowMatch (p : ReceiptsGetParams) (r : Receipt) : Bool :=
  match p.orderId with
  | some s =>
    if s = "" then true
    else match jsParseInt s with
      | some n => r.orderId == some n
      | none => true
  | none => true

/-- The list branch of the receipts GET handler. -/
def receiptsList (p : ReceiptsGetParams) (st : Store) : ApiResponse :=
  let limit := listLimit p.limit
  let offset := listOffset p.offset
  let rows := st.receipts.filter (receiptsRowMatch p)
  match applyPage limit offset rows with
  | .ok res => { status := 200, payload := some (.receiptList res) }
  | .error msg => serverError msg

/-- GET /api/receipts. -/
def receiptsGET (p : ReceiptsGetParams) (st : Store) : ApiResponse :=
  match p.id with
  | some idStr =>
    if idStr = "" then receiptsList p st
    else
      match jsParseInt idStr with
      | none => errResp 400 "Valid ID is required" "INVALID_ID"
      | some n =>
        match st.receipts.find? (fun r => r.id == n) with
        | none => errResp 404 "Receipt not found" "RECEIPT_NOT_FOUND"
        | some r => { status := 200, payload := some (.receipt r) }
  | none => receiptsList p st

/-- Request body of POST /api/receipts. -/
structure ReceiptsPostBody where
  receiptData : Option String := none
  orderId : Option (Option Int) := none
deriving DecidableEq

/-- Insert into the receipts table (no uniqueness constraint). -/
def dbInsertReceipts (st : Store) (orderId : Option Int) (receiptData createdAt : String) :
    Receipt × Store :=
  let r : Receipt :=
    { id := st.nextReceiptId, orderId := orderId, receiptData := receiptData,
      createdAt := createdAt }
  (r, { st with receipts := st.receipts ++ [r], nextReceiptId := st.nextReceiptId + 1 })

/-- POST /api/receipts: an absent or empty-string receiptData fails the falsy
check with MISSING_RECEIPT_DATA; whitespace-only data fails the trimmed
check with EMPTY_RECEIPT_DATA. -/
def receiptsPOST (now : String) (body : Option ReceiptsPostBody) (st : Store) :
    ApiResponse × Store :=
  match body with
  | none => (badJsonError, st)
  | some b =>
    match b.receiptData with
    | none => (errResp 400 "Receipt data is required" "MISSING_RECEIPT_DATA", st)
    | some receiptData =>
    if receiptData = "" then
      (errResp 400 "Receipt data is required" "MISSING_RECEIPT_DATA", st)
    else if (jsTrim receiptData) = "" then
      (errResp 400 "Receipt data must not be empty" "EMPTY_RECEIPT_DATA", st)
    else
      let oid : Option Int :=
        match b.orderId with
        | some (some n) => some n
        | _ => none
      let res := dbInsertReceipts st oid (jsTrim receiptData) now
      ({ status := 201, payload := some (.receipt res.1) }, res.2)

/-- Request body of PUT /api/receipts. -/
structure ReceiptsPutBody where
  receiptData : Option String := none
  orderId : Option (Option Int) := none
deriving DecidableEq

/-- The updateData object assembled by the receipts PUT handler. -/
structure ReceiptUpdate where
  receiptData : Option String := none
  orderId : Option (Option Int) := none
deriving DecidableEq

/-- Object.keys(updateData).length === 0 for the receipts PUT handler. -/
def receiptUpdateEmpty (u : ReceiptUpdate) : Bool :=
  u.receiptData.isNone && u.orderId.isNone

/-- Apply a receipts updateData object to a row. -/
def applyReceiptUpdate (u : ReceiptUpdate) (r : Receipt) : Receipt :=
  { r with
    receiptData := u.receiptData.getD r.receiptData
    orderId := u.orderId.getD r.orderId }

/-- Update the receipts table row with the given id. -/
def dbUpdateReceipts (st : Store) (i : Int) (u : ReceiptUpdate) : Option Receipt × Store :=
  let rows := st.receipts.map (fun r => if r.id == i then applyReceiptUpdate u r else r)
  (rows.find? (fun r => r.id == i), { st with receipts := rows })

/-- PUT /api/receipts. -/
def receiptsPUT (idp : Option String) (body : Option ReceiptsPutBody) (st : Store) :
    ApiResponse × Store :=
  match idp with
  | none => (errResp 400 "Valid ID is required" "INVALID_ID", st)
  | some idStr =>
    if idStr = "" then (errResp 400 "Valid ID is required" "INVALID_ID", st)
    else match jsParseInt idStr with
    | none => (errResp 400 "Valid ID is required" "INVALID_ID", st)
    | some n =>
      match st.receipts.find? (fun r => r.id == n) with
      | none => (errResp 404 "Receipt not found" "RECEIPT_NOT_FOUND", st)
      | some _ =>
        match body with
        | none => (badJsonError, st)
        | some b =>
          match b.receiptData with
          | some receiptData =>
            if (jsTrim receiptData) = "" then
              (errResp 400 "Receipt data must not be empty" "EMPTY_RECEIPT_DATA", st)
            else
              let u : ReceiptUpdate := { receiptData := some (jsTrim receiptData), orderId := b.orderId }
              if receiptUpdateEmpty u then (serverError "No values to set", st)
              else
                let res := dbUpdateReceipts st n u
                ({ status := 200, payload := res.1.map Payload.receipt }, res.2)
          | none =>
            let u : ReceiptUpdate := { receiptData := none, orderId := b.orderId }
            if receiptUpdateEmpty u then (serverError "No values to set", st)
            else
              let res := dbUpdateReceipts st n u
              ({ status := 200, payload := res.1.map Payload.receipt }, res.2)

/-- Delete the receipts rows with the given id, returning the deleted rows. -/
def dbDeleteReceipts (st : Store) (i : Int) : List Receipt × Store :=
  (st.receipts.filter (fun r => r.id == i),
   { st with receipts := st.receipts.filter (fun r => !(r.id == i)) })

/-- DELETE /api/receipts. -/
def receiptsDELETE (idp : Option String) (st : Store) : ApiResponse × Store :=
  match idp with
  | none => (errResp 400 "Valid ID is required" "INVALID_ID", st)
  | some idStr =>
    if idStr = "" then (errResp 400 "Valid ID is required" "INVALID_ID", st)
    else match jsParseInt idStr with
    | none => (errResp 400 "Valid ID is required" "INVALID_ID", st)
    | some n =>
      match st.receipts.find? (fun r => r.id == n) with
      | none => (errResp 404 "Receipt not found" "RECEIPT_NOT_FOUND", st)
      | some _ =>
        let res := dbDeleteReceipts st n
        ({ status := 200, message := some "Receipt deleted successfully",
           payload := res.1.head?.map Payload.receipt }, res.2)

/-! ## Checkout flow (src/src/app/dashboard/page.tsx, CheckoutPage) -/

/-- A cart line as stored in browser storage. -/
structure CartItem where
  id : Int
  name : String
  price : Rat
  quantity : Int
  imageUrl : Option String := none
deriving DecidableEq

/-- The customer object in browser storage. -/
structure CustomerLS where
  id : Int
  name : String
  email : String
  phone : String
  address : String
deriving DecidableEq

/-- The inputs of one run of handleCheckout.  tokenNumber, transactionId,
estimatedReadyTime and now stand for the values the handler derives from the
clock and Math.random at the start of the run. -/
structure CheckoutInput where
  cart : List CartItem
  customer : Option CustomerLS
  guestName : String
  guestPhone : String
  guestAddress : String
  deliveryMode : String
  paymentMode : String
  tokenNumber : String
  transactionId : String
  estimatedReadyTime : String
  now : String
deriving DecidableEq

/-- Which fetch calls resolve (the request reaches the server and a response
comes back, of any status) and which reject at the network level. -/
structure NetSchedule where
  orderCall : Bool
  itemCall : Nat → Bool
  paymentCall : Bool

/-- The user-visible outcome of one checkout run, together with the responses
the run received (the payment response is received but never inspected by
the source). -/
structure CheckoutOutcome where
  errorToast : Option String := none
  successToast : Option String := none
  cartCleared : Bool := false
  orderResp : Option ApiResponse := none
  paymentResp : Option ApiResponse := none
deriving DecidableEq

/-- cart.reduce((sum, item) => sum + item.price * item.quantity, 0). -/
def cartSubtotal (cart : List CartItem) : Rat :=
  cart.foldl (fun sum item => sum + item.price * (item.quantity : Rat)) 0

/-- The JSON body of the order-creation call: an absent customer makes
JSON.stringify drop the customerId key. -/
def checkoutOrderBody (inp : CheckoutInput) : OrdersPostBody :=
  let subtotal := cartSubtotal inp.cart
  let discount : Rat := 0
  let finalAmount := subtotal - discount
  { customerId := inp.customer.map (fun c => some c.id)
    tokenNumber := some inp.tokenNumber
    subtotal := some subtotal
    discount := some (some discount)
    finalAmount := some finalAmount
    status := some (some "Order Received")
    deliveryMode := some inp.deliveryMode
    paymentStatus := some (some (if inp.paymentMode == "Cash" then "Pending" else "Paid"))
    estimatedReadyTime := some inp.estimatedReadyTime }

/-- The JSON body of one order-item call; a missing order id (order.id read
off a non-order response) is dropped by JSON.stringify. -/
def checkoutItemBody (oid : Option Int) (item : CartItem) : OrderItemsPostBody :=
  { orderId := oid.map some
    menuItemId := some (some item.id)
    quantity := some (some item.quantity)
    price := some (some item.price) }

/-- The JSON body of the payment call. -/
def checkoutPaymentBody (inp : CheckoutInput) (oid : Option Int) : PaymentsPostBody :=
  let subtotal := cartSubtotal inp.cart
  let discount : Rat := 0
  let finalAmount := subtotal - discount
  { orderId := oid.map some
    transactionId := some inp.transactionId
    paymentMode := some inp.paymentMode
    amountPaid := some (some finalAmount)
    paymentStatus := some (if inp.paymentMode == "Cash" then "Pending" else "Completed") }

/-- The Promise.all over the item-creation fetches: every fetch is initiated,
so each resolving call reaches the server in cart order regardless of other
rejections; the Boolean records whether any call rejected. -/
def checkoutItemsLoop (now : String) (oid : Option Int) (net : Nat → Bool) :
    List CartItem → Nat → Store → Bool × Store
  | [], _, st => (false, st)
  | item :: rest, i, st =>
    if net i then
      let st2 := (orderItemsPOST now (some (checkoutItemBody oid item)) st).2
      let r := checkoutItemsLoop now oid net rest (i + 1) st2
      r
    else
      let r := checkoutItemsLoop now oid net rest (i + 1) st
      (true, r.2)

/-- handleCheckout: the early guards, then order creation (its ok flag is the
only response ever checked), then the item calls, then the payment call whose
response is ignored, then the cart is cleared and success reported.  Any
rejection or a non-ok order response lands in the catch block with the
generic failure toast and without clearing the cart. -/
def handleCheckout (inp : CheckoutInput) (net : NetSchedule) (st : Store) :
    CheckoutOutcome × Store :=
  if inp.cart.isEmpty then
    ({ errorToast := some "Your cart is empty" }, st)
  else if inp.customer.isNone && (inp.guestName = "" || inp.guestPhone = "") then
    ({ errorToast := some "Please enter your name and phone number" }, st)
  else if !net.orderCall then
    ({ errorToast := some "Failed to place order. Please try again." }, st)
  else
    let orderRes := ordersPOST inp.now (some (checkoutOrderBody inp)) st
    if !(respOk orderRes.1) then
      ({ errorToast := some "Failed to place order. Please try again."
         orderResp := some orderRes.1 }, orderRes.2)
    else
      let oid : Option Int :=
        match orderRes.1.payload with
        | some (.order o) => some o.id
        | _ => none
      let itemsRes := checkoutItemsLoop inp.now oid net.itemCall inp.cart 0 orderRes.2
      if itemsRes.1 then
        ({ errorToast := some "Failed to place order. Please try again."
           orderResp := some orderRes.1 }, itemsRes.2)
      else if !net.paymentCall then
        ({ errorToast := some "Failed to place order. Please try again."
           orderResp := some orderRes.1 }, itemsRes.2)
      else
        let payRes := paymentsPOST inp.now (some (checkoutPaymentBody inp oid)) itemsRes.2
        ({ successToast := some ("Order placed! Token: " ++ inp.tokenNumber)
           cartCleared := true
           orderResp := some orderRes.1
           paymentResp := some payRes.1 }, payRes.2)

/-! ## The API as a whole -/

/-- One request against any of the eight entity endpoints. -/
inductive ApiOp where
  | customersGet (p : CustomersGetParams)
  | customersPost (now : String) (body : Option CustomersPostBody)
  | customersPut (idp : Option String) (body : Option CustomersPutBody)
  | customersDelete (idp : Option String)
  | menuItemsGet (p : MenuItemsGetParams)
  | menuItemsPost (now : String) (body : Option MenuItemsPostBody)
  | menuItemsPut (idp : Option String) (body : Option MenuItemsPutBody)
  | menuItemsDelete (idp : Option String)
  | offersGet (now : String) (p : OffersGetParams)
  | offersPost (now : String) (body : Option OffersPostBody)
  | offersPut (idp : Option String) (body : Option OffersPutBody)
  | offersDelete (idp : Option String)
  | ordersGet (p : OrdersGetParams)
  | ordersPost (now : String) (body : Option OrdersPostBody)
  | ordersPut (now : String) (idp : Option String) (body : Option OrdersPutBody)
  | ordersDelete (idp : Option String)
  | orderItemsGet (p : OrderItemsGetParams)
  | orderItemsPost (now : String) (body : Option OrderItemsPostBody)
  | orderItemsPut (idp : Option String) (body : Option OrderItemsPutBody)
  | orderItemsDelete (idp : Option String)
  | paymentsGet (p : PaymentsGetParams)
  | paymentsPost (now : String) (body : Option PaymentsPostBody)
  | paymentsPut (idp : Option String) (body : Option PaymentsPutBody)
  | paymentsDelete (idp : Option String)
  | receiptsGet (p : ReceiptsGetParams)
  | receiptsPost (now : String) (body : Option ReceiptsPostBody)
  | receiptsPut (idp : Option String) (body : Option ReceiptsPutBody)
  | receiptsDelete (idp : Option String)
  | shopsGet (p : ShopsGetParams)
  | shopsPost (now : String) (body : Option ShopsPostBody)
  | shopsPut (idp : Option String) (body : Option ShopsPutBody)
  | shopsDelete (idp : Option String)

/-- Dispatch a request to its handler; GET handlers leave the store as is. -/
def applyOp : ApiOp → Store → ApiResponse × Store
  | .customersGet p, st => (customersGET p st, st)
  | .customersPost now body, st => customersPOST now body st
  | .customersPut idp body, st => customersPUT idp body st
  | .customersDelete idp, st => customersDELETE idp st
  | .menuItemsGet p, st => (menuItemsGET p st, st)
  | .menuItemsPost now body, st => menuItemsPOST now body st
  | .menuItemsPut idp body, st => menuItemsPUT idp body st
  | .menuItemsDelete idp, st => menuItemsDELETE idp st
  | .offersGet now p, st => (offersGET now p st, st)
  | .offersPost now body, st => offersPOST now body st
  | .offersPut idp body, st => offersPUT idp body st
  | .offersDelete idp, st => offersDELETE idp st
  | .ordersGet p, st => (ordersGET p st, st)
  | .ordersPost now body, st => ordersPOST now body st
  | .ordersPut now idp body, st => ordersPUT now idp body st
  | .ordersDelete idp, st => ordersDELETE idp st
  | .orderItemsGet p, st => (orderItemsGET p st, st)
  | .orderItemsPost now body, st => orderItemsPOST now body st
  | .orderItemsPut idp body, st => orderItemsPUT idp body st
  | .orderItemsDelete idp, st => orderItemsDELETE idp st
  | .paymentsGet p, st => (paymentsGET p st, st)
  | .paymentsPost now body, st => paymentsPOST now body st
  | .paymentsPut idp body, st => paymentsPUT idp body st
  | .paymentsDelete idp, st => paymentsDELETE idp st
  | .receiptsGet p, st => (receiptsGET p st, st)
  | .receiptsPost now body, st => receiptsPOST now body st
  | .receiptsPut idp body, st => receiptsPUT idp body st
  | .receiptsDelete idp, st => receiptsDELETE idp st
  | .shopsGet p, st => (shopsGET p st, st)
  | .shopsPost now body, st => shopsPOST now body st
  | .shopsPut idp body, st => shopsPUT idp body st
  | .shopsDelete idp, st => shopsDELETE idp st

/-- The three uniqueness invariants of the schema: customer emails, order
token numbers and payment transaction ids are pairwise distinct. -/
def UniqStore (st : Store) : Prop :=
  (st.customers.map Customer.email).Nodup ∧
  (st.orders.map Order.tokenNumber).Nodup ∧
  (st.payments.map Payment.transactionId).Nodup

instance (st : Store) : Decidable (UniqStore st) := by
  unfold UniqStore; infer_instance

/-- Updating rows through a function that fixes a key column leaves the
mapped key column unchanged. -/
theorem map_key_update {α β : Type} (l : List α) (p : α → Bool) (f : α → α) (key : α → β)
    (h : ∀ a, key (f a) = key a) :
    (l.map (fun a => if p a then f a else a)).map key = l.map key := by
  induction l with
  | nil => rfl
  | cons a t ih => by_cases hp : p a <;> simp [hp, h a, ih]

/-- Filtering rows preserves duplicate-freeness of a mapped key column. -/
theorem nodup_map_filter {α β : Type} (l : List α) (p : α → Bool) (key : α → β)
    (h : (l.map key).Nodup) : ((l.filter p).map key).Nodup :=
  List.Nodup.sublist (List.Sublist.map key (List.filter_sublist l)) h

/-- A successful customers insert yields a store satisfying the invariants:
the guard is exactly duplicate-freeness of the new email column. -/
theorem dbInsertCustomers_preserves {st : Store} {nm em ph ad : String} {la lo : Option Rat}
    {ca : String} {c : Customer} {st2 : Store}
    (heq : dbInsertCustomers st nm em ph ad la lo ca = .ok (c, st2)) (h : UniqStore st) :
    UniqStore st2 := by
  obtain ⟨h1, h2, h3⟩ := h
  unfold dbInsertCustomers at heq
  dsimp only at heq
  split at heq
  · cases heq
    exact ⟨by assumption, h2, h3⟩
  · cases heq

/-- customersPOST preserves the uniqueness invariants. -/
theorem customersPOST_preserves (now : String) (body : Option CustomersPostBody) (st : Store)
    (h : UniqStore st) : UniqStore (customersPOST now body st).2 := by
  obtain ⟨h1, h2, h3⟩ := h
  unfold customersPOST
  repeat' split
  all_goals first
    | exact ⟨h1, h2, h3⟩
    | exact dbInsertCustomers_preserves (by assumption) ⟨h1, h2, h3⟩

/-- A successful customers update yields a store satisfying the invariants. -/
theorem dbUpdateCustomers_preserves {st : Store} {i : Int} {u : CustomerUpdate}
    {res : Option Customer × Store} (heq : dbUpdateCustomers st i u = .ok res)
    (h : UniqStore st) : UniqStore res.2 := by
  obtain ⟨h1, h2, h3⟩ := h
  unfold dbUpdateCustomers at heq
  dsimp only at heq
  split at heq
  · cases heq
    exact ⟨by assumption, h2, h3⟩
  · cases heq

/-- customersPUT preserves the uniqueness invariants. -/
theorem customersPUT_preserves (idp : Option String) (body : Option CustomersPutBody)
    (st : Store) (h : UniqStore st) : UniqStore (customersPUT idp body st).2 := by
  obtain ⟨h1, h2, h3⟩ := h
  unfold customersPUT
  repeat' split
  all_goals first
    | exact ⟨h1, h2, h3⟩
    | exact dbUpdateCustomers_preserves (by assumption) ⟨h1, h2, h3⟩

/-- customersDELETE preserves the uniqueness invariants. -/
theorem customersDELETE_preserves (idp : Option String) (st : Store) (h : UniqStore st) :
    UniqStore (customersDELETE idp st).2 := by
  obtain ⟨h1, h2, h3⟩ := h
  unfold customersDELETE dbDeleteCustomers
  repeat' split
  all_goals first
    | exact ⟨h1, h2, h3⟩
    | exact ⟨nodup_map_filter _ _ _ h1, h2, h3⟩

/-- A successful orders insert yields a store satisfying the invariants. -/
theorem dbInsertOrders_preserves {st : Store} {cid : Option Int} {tok : String}
    {sub disc fin : Rat} {stat dm ps : String} {ert : Option String} {ca ua : String}
    {o : Order} {st2 : Store}
    (heq : dbInsertOrders st cid tok sub disc fin stat dm ps ert ca ua = .ok (o, st2))
    (h : UniqStore st) : UniqStore st2 := by
  obtain ⟨h1, h2, h3⟩ := h
  unfold dbInsertOrders at heq
  dsimp only at heq
  split at heq
  · cases heq
    exact ⟨h1, by assumption, h3⟩
  · cases heq

/-- ordersPOST preserves the uniqueness invariants. -/
theorem ordersPOST_preserves (now : String) (body : Option OrdersPostBody) (st : Store)
    (h : UniqStore st) : UniqStore (ordersPOST now body st).2 := by
  obtain ⟨h1, h2, h3⟩ := h
  unfold ordersPOST
  dsimp only
  repeat' split
  all_goals first
    | exact ⟨h1, h2, h3⟩
    | exact dbInsertOrders_preserves (by assumption) ⟨h1, h2, h3⟩

/-- An orders update never touches the token column. -/
theorem dbUpdateOrders_preserves (st : Store) (i : Int) (u : OrderUpdate)
    (h : UniqStore st) : UniqStore (dbUpdateOrders st i u).2 := by
  obtain ⟨h1, h2, h3⟩ := h
  refine ⟨h1, ?_, h3⟩
  show ((st.orders.map fun o => if o.id == i then applyOrderUpdate u o else o).map
    Order.tokenNumber).Nodup
  rw [map_key_update st.orders (fun o => o.id == i) (applyOrderUpdate u)
    Order.tokenNumber (fun o => rfl)]
  exact h2

/-- ordersPUT preserves the uniqueness invariants. -/
theorem ordersPUT_preserves (now : String) (idp : Option String) (body : Option OrdersPutBody)
    (st : Store) (h : UniqStore st) : UniqStore (ordersPUT now idp body st).2 := by
  obtain ⟨h1, h2, h3⟩ := h
  unfold ordersPUT
  repeat' split
  all_goals first
    | exact ⟨h1, h2, h3⟩
    | exact dbUpdateOrders_preserves _ _ _ ⟨h1, h2, h3⟩

/-- ordersDELETE preserves the uniqueness invariants. -/
theorem ordersDELETE_preserves (idp : Option String) (st : Store) (h : UniqStore st) :
    UniqStore (ordersDELETE idp st).2 := by
  obtain ⟨h1, h2, h3⟩ := h
  unfold ordersDELETE dbDeleteOrders
  repeat' split
  all_goals first
    | exact ⟨h1, h2, h3⟩
    | exact ⟨h1, nodup_map_filter _ _ _ h2, h3⟩

/-- A successful payments insert yields a store satisfying the invariants. -/
theorem dbInsertPayments_preserves {st : Store} {oid : Option Int} {tid pm : String}
    {amt : Rat} {ps ca : String} {r : Payment} {st2 : Store}
    (heq : dbInsertPayments st oid tid pm amt ps ca = .ok (r, st2))
    (h : UniqStore st) : UniqStore st2 := by
  obtain ⟨h1, h2, h3⟩ := h
  unfold dbInsertPayments at heq
  dsimp only at heq
  split at heq
  · cases heq
    exact ⟨h1, h2, by assumption⟩
  · cases heq

/-- paymentsPOST preserves the uniqueness invariants. -/
theorem paymentsPOST_preserves (now : String) (body : Option PaymentsPostBody) (st : Store)
    (h : UniqStore st) : UniqStore (paymentsPOST now body st).2 := by
  obtain ⟨h1, h2, h3⟩ := h
  unfold paymentsPOST
  repeat' split
  all_goals first
    | exact ⟨h1, h2, h3⟩
    | exact dbInsertPayments_preserves (by assumption) ⟨h1, h2, h3⟩

/-- A payments update never touches the transaction-id column. -/
theorem dbUpdatePayments_preserves (st : Store) (i : Int) (u : PaymentUpdate)
    (h : UniqStore st) : UniqStore (dbUpdatePayments st i u).2 := by
  obtain ⟨h1, h2, h3⟩ := h
  refine ⟨h1, h2, ?_⟩
  show ((st.payments.map fun r => if r.id == i then applyPaymentUpdate u r else r).map
    Payment.transactionId).Nodup
  rw [map_key_update st.payments (fun r => r.id == i) (applyPaymentUpdate u)
    Payment.transactionId (fun r => rfl)]
  exact h3

/-- paymentsPUT preserves the uniqueness invariants. -/
theorem paymentsPUT_preserves (idp : Option String) (body : Option PaymentsPutBody)
    (st : Store) (h : UniqStore st) : UniqStore (paymentsPUT idp body st).2 := by
  obtain ⟨h1, h2, h3⟩ := h
  unfold paymentsPUT
  repeat' split
  all_goals first
    | exact ⟨h1, h2, h3⟩
    | exact dbUpdatePayments_preserves _ _ _ ⟨h1, h2, h3⟩

/-- paymentsDELETE preserves the uniqueness invariants. -/
theorem paymentsDELETE_preserves (idp : Option String) (st : Store) (h : UniqStore st) :
    UniqStore (paymentsDELETE idp st).2 := by
  obtain ⟨h1, h2, h3⟩ := h
  unfold paymentsDELETE dbDeletePayments
  repeat' split
  all_goals first
    | exact ⟨h1, h2, h3⟩
    | exact ⟨h1, h2, nodup_map_filter _ _ _ h3⟩

/-- menuItemsPOST does not touch the constrained tables. -/
theorem menuItemsPOST_preserves (now : String) (body : Option MenuItemsPostBody) (st : Store)
    (h : UniqStore st) : UniqStore (menuItemsPOST now body st).2 := by
  obtain ⟨h1, h2, h3⟩ := h
  unfold menuItemsPOST dbInsertMenuItems
  dsimp only
  repeat' split
  all_goals exact ⟨h1, h2, h3⟩

/-- menuItemsPUT does not touch the constrained tables. -/
theorem menuItemsPUT_preserves (idp : Option String) (body : Option MenuItemsPutBody)
    (st : Store) (h : UniqStore st) : UniqStore (menuItemsPUT idp body st).2 := by
  obtain ⟨h1, h2, h3⟩ := h
  unfold menuItemsPUT dbUpdateMenuItems
  dsimp only
  repeat' split
  all_goals exact ⟨h1, h2, h3⟩

/-- menuItemsDELETE does not touch the constrained tables. -/
theorem menuItemsDELETE_preserves (idp : Option String) (st : Store) (h : UniqStore st) :
    UniqStore (menuItemsDELETE idp st).2 := by
  obtain ⟨h1, h2, h3⟩ := h
  unfold menuItemsDELETE dbDeleteMenuItems
  repeat' split
  all_goals exact ⟨h1, h2, h3⟩

/-- offersPOST does not touch the constrained tables. -/
theorem offersPOST_preserves (now : String) (body : Option OffersPostBody) (st : Store)
    (h : UniqStore st) : UniqStore (offersPOST now body st).2 := by
  obtain ⟨h1, h2, h3⟩ := h
  unfold offersPOST dbInsertOffers
  dsimp only
  repeat' split
  all_goals exact ⟨h1, h2, h3⟩

/-- offersPUT does not touch the constrained tables. -/
theorem offersPUT_preserves (idp : Option String) (body : Option OffersPutBody)
    (st : Store) (h : UniqStore st) : UniqStore (offersPUT idp body st).2 := by
  obtain ⟨h1, h2, h3⟩ := h
  unfold offersPUT dbUpdateOffers
  dsimp only
  repeat' split
  all_goals exact ⟨h1, h2, h3⟩

/-- offersDELETE does not touch the constrained tables. -/
theorem offersDELETE_preserves (idp : Option String) (st : Store) (h : UniqStore st) :
    UniqStore (offersDELETE idp st).2 := by
  obtain ⟨h1, h2, h3⟩ := h
  unfold offersDELETE dbDeleteOffers
  repeat' split
  all_goals exact ⟨h1, h2, h3⟩

/-- orderItemsPOST does not touch the constrained tables. -/
theorem orderItemsPOST_preserves (now : String) (body : Option OrderItemsPostBody) (st : Store)
    (h : UniqStore st) : UniqStore (orderItemsPOST now body st).2 := by
  obtain ⟨h1, h2, h3⟩ := h
  unfold orderItemsPOST dbInsertOrderItems
  dsimp only
  repeat' split
  all_goals exact ⟨h1, h2, h3⟩

/-- orderItemsPUT does not touch the constrained tables. -/
theorem orderItemsPUT_preserves (idp : Option String) (body : Option OrderItemsPutBody)
    (st : Store) (h : UniqStore st) : UniqStore (orderItemsPUT idp body st).2 := by
  obtain ⟨h1, h2, h3⟩ := h
  unfold orderItemsPUT dbUpdateOrderItems
  dsimp only
  repeat' split
  all_goals exact ⟨h1, h2, h3⟩

/-- orderItemsDELETE does not touch the constrained tables. -/
theorem orderItemsDELETE_preserves (idp : Option String) (st : Store) (h : UniqStore st) :
    UniqStore (orderItemsDELETE idp st).2 := by
  obtain ⟨h1, h2, h3⟩ := h
  unfold orderItemsDELETE dbDeleteOrderItems
  repeat' split
  all_goals exact ⟨h1, h2, h3⟩

/-- receiptsPOST does not touch the constrained tables. -/
theorem receiptsPOST_preserves (now : String) (body : Option ReceiptsPostBody) (st : Store)
    (h : UniqStore st) : UniqStore (receiptsPOST now body st).2 := by
  obtain ⟨h1, h2, h3⟩ := h
  unfold receiptsPOST dbInsertReceipts
  dsimp only
  repeat' split
  all_goals exact ⟨h1, h2, h3⟩

/-- receiptsPUT does not touch the constrained tables. -/
theorem receiptsPUT_preserves (idp : Option String) (body : Option ReceiptsPutBody)
    (st : Store) (h : UniqStore st) : UniqStore (receiptsPUT idp body st).2 := by
  obtain ⟨h1, h2, h3⟩ := h
  unfold receiptsPUT dbUpdateReceipts
  dsimp only
  repeat' split
  all_goals exact ⟨h1, h2, h3⟩

/-- receiptsDELETE does not touch the constrained tables. -/
theorem receiptsDELETE_preserves (idp : Option String) (st : Store) (h : UniqStore st) :
    UniqStore (receiptsDELETE idp st).2 := by
  obtain ⟨h1, h2, h3⟩ := h
  unfold receiptsDELETE dbDeleteReceipts
  repeat' split
  all_goals exact ⟨h1, h2, h3⟩

/-- shopsPOST does not touch the constrained tables. -/
theorem shopsPOST_preserves (now : String) (body : Option ShopsPostBody) (st : Store)
    (h : UniqStore st) : UniqStore (shopsPOST now body st).2 := by
  obtain ⟨h1, h2, h3⟩ := h
  unfold shopsPOST dbInsertShops
  dsimp only
  repeat' split
  all_goals exact ⟨h1, h2, h3⟩

/-- shopsPUT does not touch the constrained tables. -/
theorem shopsPUT_preserves (idp : Option String) (body : Option ShopsPutBody)
    (st : Store) (h : UniqStore st) : UniqStore (shopsPUT idp body st).2 := by
  obtain ⟨h1, h2, h3⟩ := h
  unfold shopsPUT dbUpdateShops
  dsimp only
  repeat' split
  all_goals exact ⟨h1, h2, h3⟩

/-- shopsDELETE does not touch the constrained tables. -/
theorem shopsDELETE_preserves (idp : Option String) (st : Store) (h : UniqStore st) :
    UniqStore (shopsDELETE idp st).2 := by
  obtain ⟨h1, h2, h3⟩ := h
  unfold shopsDELETE dbDeleteShops
  repeat' split
  all_goals exact ⟨h1, h2, h3⟩

/-- Every API operation preserves the three uniqueness invariants. -/
theorem applyOp_preserves (op : ApiOp) (st : Store) (h : UniqStore st) :
    UniqStore (applyOp op st).2 := by
  cases op with
  | customersGet p => exact h
  | customersPost now body => exact customersPOST_preserves now body st h
  | customersPut idp body => exact customersPUT_preserves idp body st h
  | customersDelete idp => exact customersDELETE_preserves idp st h
  | menuItemsGet p => exact h
  | menuItemsPost now body => exact menuItemsPOST_preserves now body st h
  | menuItemsPut idp body => exact menuItemsPUT_preserves idp body st h
  | menuItemsDelete idp => exact menuItemsDELETE_preserves idp st h
  | offersGet now p => exact h
  | offersPost now body => exact offersPOST_preserves now body st h
  | offersPut idp body => exact offersPUT_preserves idp body st h
  | offersDelete idp => exact offersDELETE_preserves idp st h
  | ordersGet p => exact h
  | ordersPost now body => exact ordersPOST_preserves now body st h
  | ordersPut now idp body => exact ordersPUT_preserves now idp body st h
  | ordersDelete idp => exact ordersDELETE_preserves idp st h
  | orderItemsGet p => exact h
  | orderItemsPost now body => exact orderItemsPOST_preserves now body st h
  | orderItemsPut idp body => exact orderItemsPUT_preserves idp body st h
  | orderItemsDelete idp => exact orderItemsDELETE_preserves idp st h
  | paymentsGet p => exact h
  | paymentsPost now body => exact paymentsPOST_preserves now body st h
  | paymentsPut idp body => exact paymentsPUT_preserves idp body st h
  | paymentsDelete idp => exact paymentsDELETE_preserves idp st h
  | receiptsGet p => exact h
  | receiptsPost now body => exact receiptsPOST_preserves now body st h
  | receiptsPut idp body => exact receiptsPUT_preserves idp body st h
  | receiptsDelete idp => exact receiptsDELETE_preserves idp st h
  | shopsGet p => exact h
  | shopsPost now body => exact shopsPOST_preserves now body st h
  | shopsPut idp body => exact shopsPUT_preserves idp body st h
  | shopsDelete idp => exact shopsDELETE_preserves idp st h

/-- Appending an element already present breaks duplicate-freeness. -/
theorem not_nodup_append_singleton {α : Type} {l : List α} {x : α} (hx : x ∈ l) :
    ¬ (l ++ [x]).Nodup := by
  intro h
  rw [List.nodup_append] at h
  exact h.2.2 hx (List.mem_singleton_self x)

/-- Inserting a customer whose normalised email is already stored fails with
the SQLite unique-violation message. -/
theorem dbInsertCustomers_dup {st : Store} {nm em ph ad : String} {la lo : Option Rat}
    {ca : String} (hmem : em ∈ st.customers.map Customer.email) :
    dbInsertCustomers st nm em ph ad la lo ca =
      .error "UNIQUE constraint failed: customers.email" := by
  unfold dbInsertCustomers
  dsimp only
  rw [if_neg]
  intro h
  rw [List.map_append] at h
  exact not_nodup_append_singleton hmem (by simpa using h)

/-- Inserting an order whose trimmed token number is already stored fails
with the SQLite unique-violation message. -/
theorem dbInsertOrders_dup {st : Store} {cid : Option Int} {tok : String}
    {sub disc fin : Rat} {stat dm ps : String} {ert : Option String} {ca ua : String}
    (hmem : tok ∈ st.orders.map Order.tokenNumber) :
    dbInsertOrders st cid tok sub disc fin stat dm ps ert ca ua =
      .error "UNIQUE constraint failed: orders.token_number" := by
  unfold dbInsertOrders
  dsimp only
  rw [if_neg]
  intro h
  rw [List.map_append] at h
  exact not_nodup_append_singleton hmem (by simpa using h)

/-- Inserting a payment whose trimmed transaction id is already stored fails
with the SQLite unique-violation message. -/
theorem dbInsertPayments_dup {st : Store} {oid : Option Int} {tid pm : String}
    {amt : Rat} {ps ca : String} (hmem : tid ∈ st.payments.map Payment.transactionId) :
    dbInsertPayments st oid tid pm amt ps ca =
      .error "UNIQUE constraint failed: payments.transaction_id" := by
  unfold dbInsertPayments
  dsimp only
  rw [if_neg]
  intro h
  rw [List.map_append] at h
  exact not_nodup_append_singleton hmem (by simpa using h)

/-- C2: a create request whose normalised customer email is already stored
fails with DUPLICATE_EMAIL and leaves the store unchanged; likewise an
existing token number fails an order create with DUPLICATE_TOKEN_NUMBER and
an existing transaction id fails a payment create with
DUPLICATE_TRANSACTION_ID; and every API operation preserves the uniqueness
invariants on customer emails, order token numbers and payment transaction
ids. -/
theorem C2_uniqueness_invariant :
    (∀ (now : String) (b : CustomersPostBody) (st : Store) (nm em ph ad : String),
      b.name = some nm → (jsTrim nm) ≠ "" →
      b.email = some em → (jsTrim em) ≠ "" →
      b.phone = some ph → (jsTrim ph) ≠ "" →
      b.address = some ad → (jsTrim ad) ≠ "" →
      jsToLower (jsTrim em) ∈ st.customers.map Customer.email →
      customersPOST now (some b) st =
        (errResp 400 "Email already exists" "DUPLICATE_EMAIL", st)) ∧
    (∀ (now : String) (b : OrdersPostBody) (st : Store) (tok : String) (sub fin : Rat)
      (dm : String),
      b.tokenNumber = some tok → (jsTrim tok) ≠ "" →
      b.subtotal = some sub → ¬ sub ≤ 0 →
      b.finalAmount = some fin → ¬ fin ≤ 0 →
      b.deliveryMode = some dm → (jsTrim dm) ≠ "" →
      (b.discount = none ∨ ∃ d, b.discount = some (some d) ∧ ¬ d < 0) →
      (b.customerId = none ∨ b.customerId = some none ∨
        ∃ c, b.customerId = some (some c) ∧ ¬ c ≤ 0) →
      (jsTrim tok) ∈ st.orders.map Order.tokenNumber →
      ordersPOST now (some b) st =
        (errResp 400 "Token number already exists" "DUPLICATE_TOKEN_NUMBER", st)) ∧
    (∀ (now : String) (b : PaymentsPostBody) (st : Store) (tid pm : String) (amt : Rat)
      (ps : String),
      b.transactionId = some tid → (jsTrim tid) ≠ "" →
      b.paymentMode = some pm → (jsTrim pm) ≠ "" →
      b.amountPaid = some (some amt) → ¬ amt ≤ 0 →
      b.paymentStatus = some ps → (jsTrim ps) ≠ "" →
      (jsTrim tid) ∈ st.payments.map Payment.transactionId →
      paymentsPOST now (some b) st =
        (errResp 400 "Transaction ID already exists" "DUPLICATE_TRANSACTION_ID", st)) ∧
    (∀ (op : ApiOp) (st : Store), UniqStore st → UniqStore (applyOp op st).2) := by
  refine ⟨?_, ?_, ?_, applyOp_preserves⟩
  · intro now b st nm em ph ad hnm hnm2 hem hem2 hph hph2 had had2 hmem
    simp only [customersPOST, hnm, hem, hph, had]
    rw [if_neg hnm2, if_neg hem2, if_neg hph2, if_neg had2,
      dbInsertCustomers_dup hmem]
    rfl
  · intro now b st tok sub fin dm htok htok2 hsub hsub2 hfin hfin2 hdm hdm2 hdisc hcid hmem
    simp only [ordersPOST, htok, hsub, hfin, hdm]
    rw [if_neg htok2, if_neg hsub2, if_neg hfin2, if_neg hdm2]
    have h0 : ¬ ((0 : Rat) < 0) := by norm_num
    rcases hdisc with hd | ⟨d, hd, hd2⟩
    all_goals rcases hcid with hc | hc | ⟨c, hc, hc2⟩
    all_goals simp only [hd, hc, Option.getD_none, Option.getD_some]
    all_goals first
      | (rw [if_neg h0, dbInsertOrders_dup hmem]; rfl)
      | (rw [if_neg h0, if_neg hc2, dbInsertOrders_dup hmem]; rfl)
      | (rw [if_neg hd2, dbInsertOrders_dup hmem]; rfl)
      | (rw [if_neg hd2, if_neg hc2, dbInsertOrders_dup hmem]; rfl)
  · intro now b st tid pm amt ps htid htid2 hpm hpm2 hamt hamt2 hps hps2 hmem
    simp only [paymentsPOST, htid, hpm, hamt, hps]
    rw [if_neg htid2, if_neg hpm2, if_neg hamt2, if_neg hps2,
      dbInsertPayments_dup hmem]
    rfl

/-- A concrete customer row for witnesses. -/
def sampleCustomerRow : Customer :=
  { id := 1, name := "Ann", email := "ann@example.com", phone := "123", address := "A St",
    latitude := none, longitude := none, createdAt := "t0" }

/-- A concrete order row for witnesses. -/
def sampleOrderRow : Order :=
  { id := 1, customerId := some 1, tokenNumber := "TKN1", subtotal := 100, discount := 0,
    finalAmount := 100, status := "Order Received", deliveryMode := "Pickup",
    paymentStatus := "Pending", estimatedReadyTime := none, createdAt := "t0",
    updatedAt := "t0" }

/-- A concrete payment row for witnesses. -/
def samplePaymentRow : Payment :=
  { id := 1, orderId := some 1, transactionId := "TXN1", paymentMode := "Cash",
    amountPaid := 100, paymentStatus := "Pending", createdAt := "t0" }

/-- A store with one customer, one order and one payment. -/
def sampleStore : Store :=
  { customers := [sampleCustomerRow], orders := [sampleOrderRow],
    payments := [samplePaymentRow], nextCustomerId := 2, nextOrderId := 2,
    nextPaymentId := 2 }

/-- C2 evaluated on concrete duplicate create requests against sampleStore,
and invariant preservation across a concrete delete. -/
theorem C2_uniqueness_invariant_witness :
    customersPOST "t1" (some { name := some "Bob", email := some "Ann@Example.com", phone := some "456", address := some "B St" }) sampleStore =
      (errResp 400 "Email already exists" "DUPLICATE_EMAIL", sampleStore) ∧
    ordersPOST "t1" (some { tokenNumber := some "TKN1", subtotal := some 50, finalAmount := some 50, deliveryMode := some "Pickup" }) sampleStore =
      (errResp 400 "Token number already exists" "DUPLICATE_TOKEN_NUMBER", sampleStore) ∧
    paymentsPOST "t1" (some { transactionId := some "TXN1", paymentMode := some "Card", amountPaid := some (some 50), paymentStatus := some "Completed" }) sampleStore =
      (errResp 400 "Transaction ID already exists" "DUPLICATE_TRANSACTION_ID", sampleStore) ∧
    UniqStore (applyOp (.customersDelete (some "1")) sampleStore).2 :=
  ⟨C2_uniqueness_invariant.1 "t1" _ sampleStore "Bob" "Ann@Example.com" "456" "B St"
      rfl (by decide) rfl (by decide) rfl (by decide) rfl (by decide) (by decide),
   C2_uniqueness_invariant.2.1 "t1" _ sampleStore "TKN1" 50 50 "Pickup"
      rfl (by decide) rfl (by decide) rfl (by decide) rfl (by decide)
      (Or.inl rfl) (Or.inl rfl) (by decide),
   C2_uniqueness_invariant.2.2.1 "t1" _ sampleStore "TXN1" "Card" 50 "Completed"
      rfl (by decide) rfl (by decide) rfl (by decide) rfl (by decide) (by decide),
   C2_uniqueness_invariant.2.2.2 (.customersDelete (some "1")) sampleStore (by decide)⟩

/-- An order-items create touches only the order_items table. -/
theorem orderItemsPOST_frame (now : String) (body : Option OrderItemsPostBody) (st : Store) :
    (orderItemsPOST now body st).2.orders = st.orders ∧
    (orderItemsPOST now body st).2.payments = st.payments ∧
    (orderItemsPOST now body st).2.nextPaymentId = st.nextPaymentId := by
  unfold orderItemsPOST dbInsertOrderItems
  dsimp only
  repeat' split
  all_goals exact ⟨rfl, rfl, rfl⟩

/-- The item-creation loop touches only the order_items table. -/
theorem checkoutItemsLoop_frame (now : String) (oid : Option Int) (net : Nat → Bool) :
    ∀ (cart : List CartItem) (i : Nat) (st : Store),
    (checkoutItemsLoop now oid net cart i st).2.orders = st.orders ∧
    (checkoutItemsLoop now oid net cart i st).2.payments = st.payments ∧
    (checkoutItemsLoop now oid net cart i st).2.nextPaymentId = st.nextPaymentId := by
  intro cart
  induction cart with
  | nil => intro i st; exact ⟨rfl, rfl, rfl⟩
  | cons item rest ih =>
    intro i st
    unfold checkoutItemsLoop
    by_cases hn : net i
    · simp only [hn, if_true]
      obtain ⟨f1, f2, f3⟩ := orderItemsPOST_frame now (some (checkoutItemBody oid item)) st
      obtain ⟨g1, g2, g3⟩ := ih (i + 1) (orderItemsPOST now (some (checkoutItemBody oid item)) st).2
      exact ⟨g1.trans f1, g2.trans f2, g3.trans f3⟩
    · simp only [hn, if_false]
      exact ih (i + 1) st

/-- When no item call rejects, the loop reports no rejection. -/
theorem checkoutItemsLoop_all_resolve (now : String) (oid : Option Int) (net : Nat → Bool)
    (hnet : ∀ j, net j = true) :
    ∀ (cart : List CartItem) (i : Nat) (st : Store),
    (checkoutItemsLoop now oid net cart i st).1 = false := by
  intro cart
  induction cart with
  | nil => intro i st; rfl
  | cons item rest ih =>
    intro i st
    unfold checkoutItemsLoop
    simp only [hnet i, if_true]
    exact ih (i + 1) _

/-- When a scheduled item call rejects, Promise.all rejects and the loop
reports the rejection. -/
theorem checkoutItemsLoop_reject (now : String) (oid : Option Int) (net : Nat → Bool)
    (cart : List CartItem) : ∀ (i : Nat) (st : Store),
    (∃ j, j < cart.length ∧ net (i + j) = false) →
    (checkoutItemsLoop now oid net cart i st).1 = true := by
  induction cart with
  | nil =>
    intro i st h
    obtain ⟨j, hj, _⟩ := h
    exact absurd hj (Nat.not_lt_zero j)
  | cons item rest ih =>
    intro i st h
    obtain ⟨j, hj, hjf⟩ := h
    unfold checkoutItemsLoop
    cases hni : net i with
    | false => rfl
    | true =>
      simp only [if_true]
      cases j with
      | zero =>
        rw [Nat.add_zero, hni] at hjf
        cases hjf
      | succ k =>
        refine ih (i + 1) _ ⟨k, ?_, ?_⟩
        · exact Nat.lt_of_succ_lt_succ (by simpa using hj)
        · rw [show i + 1 + k = i + (k + 1) by omega]
          exact hjf

/-- The order row a valid checkout run inserts. -/
def checkoutOrderRow (inp : CheckoutInput) (st : Store) : Order :=
  { id := st.nextOrderId
    customerId := inp.customer.map CustomerLS.id
    tokenNumber := jsTrim inp.tokenNumber
    subtotal := cartSubtotal inp.cart
    discount := 0
    finalAmount := cartSubtotal inp.cart
    status := "Order Received"
    deliveryMode := jsTrim inp.deliveryMode
    paymentStatus := if inp.paymentMode = "Cash" then "Pending" else "Paid"
    estimatedReadyTime := if inp.estimatedReadyTime = "" then none else some inp.estimatedReadyTime
    createdAt := inp.now
    updatedAt := inp.now }

/-- Creating the order that a valid checkout run sends succeeds and appends
checkoutOrderRow, whose status is Order Received and whose paymentStatus is
Pending for cash and Paid otherwise. -/
theorem ordersPOST_checkout (inp : CheckoutInput) (st : Store)
    (htok : jsTrim inp.tokenNumber ≠ "")
    (hsub : 0 < cartSubtotal inp.cart)
    (hdm : jsTrim inp.deliveryMode ≠ "")
    (hcid : ∀ c, inp.customer = some c → 0 < c.id)
    (hnodup : (st.orders.map Order.tokenNumber ++ [jsTrim inp.tokenNumber]).Nodup) :
    ordersPOST inp.now (some (checkoutOrderBody inp)) st =
      ({ status := 201, payload := some (.order (checkoutOrderRow inp st)) },
        { st with orders := st.orders ++ [checkoutOrderRow inp st], nextOrderId := st.nextOrderId + 1 }) := by
  have hsub2 : ¬ cartSubtotal inp.cart ≤ 0 := not_le.mpr hsub
  have hguard : ∀ o : Order, o.tokenNumber = jsTrim inp.tokenNumber →
      ((st.orders ++ [o]).map Order.tokenNumber).Nodup := by
    intro o ho
    rw [List.map_append]
    simpa [ho] using hnodup
  by_cases hcash : inp.paymentMode = "Cash" <;>
    cases hcust : inp.customer with
  | none =>
    simp only [ordersPOST, checkoutOrderBody, hcust, Option.map, sub_zero,
      Option.getD_some, Option.getD_none]
    rw [if_neg htok, if_neg hsub2, if_neg hsub2, if_neg hdm,
      if_neg (lt_irrefl (0 : Rat))]
    unfold dbInsertOrders
    dsimp only
    rw [if_pos (hguard _ rfl)]
    simp [checkoutOrderRow, ordersPostStatusVal, hcash, hcust]
  | some c =>
    simp only [ordersPOST, checkoutOrderBody, hcust, Option.map, sub_zero,
      Option.getD_some, Option.getD_none]
    rw [if_neg htok, if_neg hsub2, if_neg hsub2, if_neg hdm,
      if_neg (lt_irrefl (0 : Rat)), if_neg (not_le.mpr (hcid c hcust))]
    unfold dbInsertOrders
    dsimp only
    rw [if_pos (hguard _ rfl)]
    simp [checkoutOrderRow, ordersPostStatusVal, hcash, hcust]

/-- The payment row a valid checkout run inserts. -/
def checkoutPaymentRow (inp : CheckoutInput) (oid : Option Int) (st : Store) : Payment :=
  { id := st.nextPaymentId
    orderId := oid
    transactionId := jsTrim inp.transactionId
    paymentMode := jsTrim inp.paymentMode
    amountPaid := cartSubtotal inp.cart
    paymentStatus := if inp.paymentMode = "Cash" then "Pending" else "Completed"
    createdAt := inp.now }

/-- Creating the payment that a valid checkout run sends succeeds and appends
checkoutPaymentRow, whose paymentStatus is Pending for cash and Completed
otherwise and whose amountPaid is the computed final amount. -/
theorem paymentsPOST_checkout (inp : CheckoutInput) (oid : Option Int) (st : Store)
    (htid : jsTrim inp.transactionId ≠ "")
    (hpm : jsTrim inp.paymentMode ≠ "")
    (hsub : 0 < cartSubtotal inp.cart)
    (hnodup : (st.payments.map Payment.transactionId ++ [jsTrim inp.transactionId]).Nodup) :
    paymentsPOST inp.now (some (checkoutPaymentBody inp oid)) st =
      ({ status := 201, payload := some (.payment (checkoutPaymentRow inp oid st)) },
        { st with payments := st.payments ++ [checkoutPaymentRow inp oid st], nextPaymentId := st.nextPaymentId + 1 }) := by
  have hsub2 : ¬ cartSubtotal inp.cart ≤ 0 := not_le.mpr hsub
  have hguard : ∀ r : Payment, r.transactionId = jsTrim inp.transactionId →
      ((st.payments ++ [r]).map Payment.transactionId).Nodup := by
    intro r hr
    rw [List.map_append]
    simpa [hr] using hnodup
  by_cases hcash : inp.paymentMode = "Cash"
  · have hbeq : (inp.paymentMode == "Cash") = true := by simp [hcash]
    simp only [paymentsPOST, checkoutPaymentBody, sub_zero, Option.map,
      Option.getD_some, Option.getD_none, hbeq, if_true]
    rw [if_neg htid, if_neg hpm, if_neg hsub2,
      if_neg (show ¬ jsTrim "Pending" = "" by decide)]
    unfold dbInsertPayments
    dsimp only
    rw [if_pos (hguard _ rfl)]
    simp [checkoutPaymentRow, hcash]
    exact ⟨by cases oid <;> rfl, by decide⟩
  · have hbeq : (inp.paymentMode == "Cash") = false := by simp [hcash]
    simp only [paymentsPOST, checkoutPaymentBody, sub_zero, Option.map,
      Option.getD_some, Option.getD_none, hbeq, Bool.false_eq_true, if_false]
    rw [if_neg htid, if_neg hpm, if_neg hsub2,
      if_neg (show ¬ jsTrim "Completed" = "" by decide)]
    unfold dbInsertPayments
    dsimp only
    rw [if_pos (hguard _ rfl)]
    simp [checkoutPaymentRow, hcash]
    exact ⟨by cases oid <;> rfl, by decide⟩

/-- A 201 response is ok in the fetch sense. -/
theorem respOk_201 (p : Option Payload) : respOk { status := 201, payload := p } = true := rfl

/-- C3: a checkout run with a non-empty cart whose calls all resolve creates
exactly one order row seeded with status Order Received and paymentStatus
Pending for cash and Paid otherwise, and one payment row with paymentStatus
Pending for cash and Completed otherwise, whose amountPaid is the computed
final amount. -/
theorem C3_checkout_row_seeding (inp : CheckoutInput) (net : NetSchedule) (st : Store)
    (hcart : inp.cart ≠ [])
    (hguest : inp.customer = none → inp.guestName ≠ "" ∧ inp.guestPhone ≠ "")
    (hcid : ∀ c, inp.customer = some c → 0 < c.id)
    (honet : net.orderCall = true)
    (hinet : ∀ j, net.itemCall j = true)
    (hpnet : net.paymentCall = true)
    (htok : jsTrim inp.tokenNumber ≠ "")
    (hdm : jsTrim inp.deliveryMode ≠ "")
    (hpm : jsTrim inp.paymentMode ≠ "")
    (htid : jsTrim inp.transactionId ≠ "")
    (hsub : 0 < cartSubtotal inp.cart)
    (hnodupO : (st.orders.map Order.tokenNumber ++ [jsTrim inp.tokenNumber]).Nodup)
    (hnodupP : (st.payments.map Payment.transactionId ++ [jsTrim inp.transactionId]).Nodup) :
    ∃ o p,
      (handleCheckout inp net st).2.orders = st.orders ++ [o] ∧
      o.status = "Order Received" ∧
      o.paymentStatus = (if inp.paymentMode = "Cash" then "Pending" else "Paid") ∧
      (handleCheckout inp net st).2.payments = st.payments ++ [p] ∧
      p.paymentStatus = (if inp.paymentMode = "Cash" then "Pending" else "Completed") ∧
      p.amountPaid = cartSubtotal inp.cart := by
  have hce : inp.cart.isEmpty = false := by
    cases hc : inp.cart with
    | nil => exact absurd hc hcart
    | cons a t => rfl
  have hguard2 : (inp.customer.isNone
      && (decide (inp.guestName = "") || decide (inp.guestPhone = ""))) = false := by
    cases hc : inp.customer with
    | some c => rfl
    | none =>
      obtain ⟨hn, hp⟩ := hguest hc
      simp [Option.isNone, hn, hp]
  have horder := ordersPOST_checkout inp st htok hsub hdm hcid hnodupO
  unfold handleCheckout
  rw [hce]
  rw [hguard2]
  rw [honet]
  simp only [Bool.false_eq_true, if_false, Bool.not_true]
  rw [horder]
  dsimp only
  simp only [respOk_201, Bool.not_true, Bool.false_eq_true, if_false]
  have hitems1 := checkoutItemsLoop_all_resolve inp.now
    (some (checkoutOrderRow inp st).id) net.itemCall hinet inp.cart 0
    { st with orders := st.orders ++ [checkoutOrderRow inp st], nextOrderId := st.nextOrderId + 1 }
  have hitems2 := checkoutItemsLoop_frame inp.now
    (some (checkoutOrderRow inp st).id) net.itemCall inp.cart 0
    { st with orders := st.orders ++ [checkoutOrderRow inp st], nextOrderId := st.nextOrderId + 1 }
  obtain ⟨hf1, hf2, hf3⟩ := hitems2
  rw [hitems1, hpnet]
  simp only [Bool.false_eq_true, if_false, Bool.not_true]
  have hnodupP2 : (((checkoutItemsLoop inp.now (some (checkoutOrderRow inp st).id) net.itemCall
      inp.cart 0 { st with orders := st.orders ++ [checkoutOrderRow inp st], nextOrderId := st.nextOrderId + 1 }).2.payments.map
        Payment.transactionId) ++ [jsTrim inp.transactionId]).Nodup := by
    rw [hf2]
    exact hnodupP
  have hpay := paymentsPOST_checkout inp (some (checkoutOrderRow inp st).id) _ htid hpm hsub hnodupP2
  rw [hpay]
  refine ⟨checkoutOrderRow inp st,
    checkoutPaymentRow inp (some (checkoutOrderRow inp st).id)
      (checkoutItemsLoop inp.now (some (checkoutOrderRow inp st).id) net.itemCall inp.cart 0
        { st with orders := st.orders ++ [checkoutOrderRow inp st], nextOrderId := st.nextOrderId + 1 }).2,
    ?_, rfl, ?_, ?_, rfl, rfl⟩
  · dsimp only
    rw [hf1]
  · exact rfl
  · dsimp only
    rw [hf2]

/-- A concrete checkout input: one cart line, a logged-in customer, card
payment, fresh token and transaction ids. -/
def sampleCheckoutInput : CheckoutInput :=
  { cart := [{ id := 1, name := "Burger", price := 100, quantity := 2, imageUrl := none }]
    customer := some { id := 1, name := "Ann", email := "ann@example.com", phone := "123", address := "A St" }
    guestName := ""
    guestPhone := ""
    guestAddress := ""
    deliveryMode := "Pickup"
    paymentMode := "Card"
    tokenNumber := "TKN2"
    transactionId := "TXN2"
    estimatedReadyTime := "t2"
    now := "t1" }

/-- A schedule on which every fetch resolves. -/
def sampleNet : NetSchedule :=
  { orderCall := true, itemCall := fun _ => true, paymentCall := true }

unseal Rat.mul Rat.add in
/-- C3 evaluated on a concrete checkout against sampleStore. -/
theorem C3_checkout_row_seeding_witness :
    ∃ o p,
      (handleCheckout sampleCheckoutInput sampleNet sampleStore).2.orders =
        sampleStore.orders ++ [o] ∧
      o.status = "Order Received" ∧
      o.paymentStatus =
        (if sampleCheckoutInput.paymentMode = "Cash" then "Pending" else "Paid") ∧
      (handleCheckout sampleCheckoutInput sampleNet sampleStore).2.payments =
        sampleStore.payments ++ [p] ∧
      p.paymentStatus =
        (if sampleCheckoutInput.paymentMode = "Cash" then "Pending" else "Completed") ∧
      p.amountPaid = cartSubtotal sampleCheckoutInput.cart :=
  C3_checkout_row_seeding sampleCheckoutInput sampleNet sampleStore
    (by decide) (by decide)
    (by intro c hc; cases hc; decide)
    rfl (fun j => rfl) rfl
    (by decide) (by decide) (by decide) (by decide) (by decide) (by decide) (by decide)

/-- A checkout input whose generated transaction id collides with the
payment already stored in sampleStore, while the token number is fresh. -/
def collidingCheckoutInput : CheckoutInput :=
  { cart := [{ id := 1, name := "Burger", price := 100, quantity := 1, imageUrl := none }]
    customer := some { id := 1, name := "Ann", email := "ann@example.com", phone := "123", address := "A St" }
    guestName := ""
    guestPhone := ""
    guestAddress := ""
    deliveryMode := "Pickup"
    paymentMode := "Cash"
    tokenNumber := "TKN3"
    transactionId := "TXN1"
    estimatedReadyTime := "t2"
    now := "t1" }

unseal Rat.mul Rat.add Rat.sub in
/-- The claim is false on the code: in this run the payment-creation call
fails with a duplicate-transaction-id error, yet no failure is reported and
the cart is cleared, because handleCheckout never inspects the payment
response. -/
theorem C1_checkout_counterexample :
    (handleCheckout collidingCheckoutInput sampleNet sampleStore).1.paymentResp =
      some (errResp 400 "Transaction ID already exists" "DUPLICATE_TRANSACTION_ID") ∧
    (handleCheckout collidingCheckoutInput sampleNet sampleStore).1.cartCleared = true ∧
    (handleCheckout collidingCheckoutInput sampleNet sampleStore).1.errorToast = none ∧
    (handleCheckout collidingCheckoutInput sampleNet sampleStore).1.successToast =
      some "Order placed! Token: TKN3" := by
  decide

/-- C1 as amended: an order-creation failure — a network rejection or a
response that is not ok — and a network-level rejection of an item or payment
fetch all report the generic failure and leave the cart; but the item and
payment responses are never inspected, so whenever every fetch resolves and
the order response is ok, the cart is cleared and success is reported
regardless of the payment outcome. -/
theorem C1_checkout_failure_handling (inp : CheckoutInput) (net : NetSchedule) (st : Store)
    (hcart : inp.cart ≠ [])
    (hguest : inp.customer = none → inp.guestName ≠ "" ∧ inp.guestPhone ≠ "") :
    (net.orderCall = false →
      (handleCheckout inp net st).1.errorToast =
        some "Failed to place order. Please try again." ∧
      (handleCheckout inp net st).1.cartCleared = false) ∧
    (net.orderCall = true →
      respOk (ordersPOST inp.now (some (checkoutOrderBody inp)) st).1 = false →
      (handleCheckout inp net st).1.errorToast =
        some "Failed to place order. Please try again." ∧
      (handleCheckout inp net st).1.cartCleared = false) ∧
    (net.orderCall = true → (∀ j, net.itemCall j = true) → net.paymentCall = true →
      respOk (ordersPOST inp.now (some (checkoutOrderBody inp)) st).1 = true →
      (handleCheckout inp net st).1.cartCleared = true ∧
      (handleCheckout inp net st).1.errorToast = none) ∧
    (net.orderCall = true →
      respOk (ordersPOST inp.now (some (checkoutOrderBody inp)) st).1 = true →
      (∃ j, j < inp.cart.length ∧ net.itemCall j = false) →
      (handleCheckout inp net st).1.errorToast =
        some "Failed to place order. Please try again." ∧
      (handleCheckout inp net st).1.cartCleared = false) ∧
    (net.orderCall = true → (∀ j, net.itemCall j = true) → net.paymentCall = false →
      respOk (ordersPOST inp.now (some (checkoutOrderBody inp)) st).1 = true →
      (handleCheckout inp net st).1.errorToast =
        some "Failed to place order. Please try again." ∧
      (handleCheckout inp net st).1.cartCleared = false) := by
  have hce : inp.cart.isEmpty = false := by
    cases hc : inp.cart with
    | nil => exact absurd hc hcart
    | cons a t => rfl
  have hguard2 : (inp.customer.isNone
      && (decide (inp.guestName = "") || decide (inp.guestPhone = ""))) = false := by
    cases hc : inp.customer with
    | some c => rfl
    | none =>
      obtain ⟨hn, hp⟩ := hguest hc
      simp [Option.isNone, hn, hp]
  refine ⟨?_, ?_, ?_, ?_, ?_⟩
  · intro hdown
    unfold handleCheckout
    rw [hce, hguard2, hdown]
    simp only [Bool.false_eq_true, if_false, Bool.not_false, if_true]
    exact ⟨by trivial, by trivial⟩
  · intro hup hok
    unfold handleCheckout
    rw [hce, hguard2, hup]
    simp only [Bool.false_eq_true, if_false, Bool.not_true]
    try dsimp only
    rw [hok]
    simp only [Bool.not_false, if_true]
    exact ⟨by trivial, by trivial⟩
  · intro hup hitems hpay hok
    unfold handleCheckout
    rw [hce, hguard2, hup]
    simp only [Bool.false_eq_true, if_false, Bool.not_true]
    try dsimp only
    rw [hok]
    simp only [Bool.not_true, Bool.false_eq_true, if_false]
    rw [checkoutItemsLoop_all_resolve inp.now _ net.itemCall hitems inp.cart 0 _, hpay]
    simp only [Bool.false_eq_true, if_false, Bool.not_true]
    exact ⟨by trivial, by trivial⟩
  · intro hup hok hreject
    obtain ⟨j, hj, hjf⟩ := hreject
    unfold handleCheckout
    rw [hce, hguard2, hup]
    simp only [Bool.false_eq_true, if_false, Bool.not_true]
    try dsimp only
    rw [hok]
    simp only [Bool.not_true, Bool.false_eq_true, if_false]
    rw [checkoutItemsLoop_reject inp.now _ net.itemCall inp.cart 0 _
      ⟨j, hj, by rw [Nat.zero_add]; exact hjf⟩]
    simp only [if_true]
    exact ⟨by trivial, by trivial⟩
  · intro hup hitems hpaydown hok
    unfold handleCheckout
    rw [hce, hguard2, hup]
    simp only [Bool.false_eq_true, if_false, Bool.not_true]
    try dsimp only
    rw [hok]
    simp only [Bool.not_true, Bool.false_eq_true, if_false]
    rw [checkoutItemsLoop_all_resolve inp.now _ net.itemCall hitems inp.cart 0 _, hpaydown]
    simp only [Bool.false_eq_true, if_false, Bool.not_false, if_true]
    exact ⟨by trivial, by trivial⟩

/-- A schedule on which the order-creation fetch rejects. -/
def orderDownNet : NetSchedule :=
  { orderCall := false, itemCall := fun _ => true, paymentCall := true }

/-- A schedule on which every item-creation fetch rejects. -/
def itemDownNet : NetSchedule :=
  { orderCall := true, itemCall := fun _ => false, paymentCall := true }

/-- A schedule on which the payment fetch rejects. -/
def paymentDownNet : NetSchedule :=
  { orderCall := true, itemCall := fun _ => true, paymentCall := false }

unseal Rat.mul Rat.add Rat.sub in
/-- The amended C1 evaluated on concrete runs: a rejected order call, a
rejected item call and a rejected payment call each report the failure and
keep the cart, while a fully resolving run with a colliding transaction id
still clears the cart. -/
theorem C1_checkout_failure_handling_witness :
    ((handleCheckout collidingCheckoutInput orderDownNet sampleStore).1.errorToast =
        some "Failed to place order. Please try again." ∧
      (handleCheckout collidingCheckoutInput orderDownNet sampleStore).1.cartCleared = false) ∧
    ((handleCheckout collidingCheckoutInput sampleNet sampleStore).1.cartCleared = true ∧
      (handleCheckout collidingCheckoutInput sampleNet sampleStore).1.errorToast = none) ∧
    ((handleCheckout collidingCheckoutInput itemDownNet sampleStore).1.errorToast =
        some "Failed to place order. Please try again." ∧
      (handleCheckout collidingCheckoutInput itemDownNet sampleStore).1.cartCleared = false) ∧
    ((handleCheckout collidingCheckoutInput paymentDownNet sampleStore).1.errorToast =
        some "Failed to place order. Please try again." ∧
      (handleCheckout collidingCheckoutInput paymentDownNet sampleStore).1.cartCleared = false) :=
  ⟨(C1_checkout_failure_handling collidingCheckoutInput orderDownNet sampleStore
      (by decide) (by decide)).1 rfl,
   (C1_checkout_failure_handling collidingCheckoutInput sampleNet sampleStore
      (by decide) (by decide)).2.2.1 rfl (fun j => rfl) rfl (by decide),
   (C1_checkout_failure_handling collidingCheckoutInput itemDownNet sampleStore
      (by decide) (by decide)).2.2.2.1 rfl (by decide) ⟨0, by decide, rfl⟩,
   (C1_checkout_failure_handling collidingCheckoutInput paymentDownNet sampleStore
      (by decide) (by decide)).2.2.2.2 rfl (fun j => rfl) rfl (by decide)⟩

/-- find? after an id-preserving row update returns the updated row. -/
theorem find?_map_update {α : Type} (l : List α) (idf : α → Int) (n : Int) (f : α → α)
    (a : α) (hpres : ∀ x, idf (f x) = idf x)
    (hfind : l.find? (fun x => idf x == n) = some a) :
    (l.map (fun x => if idf x == n then f x else x)).find? (fun x => idf x == n) =
      some (f a) := by
  induction l with
  | nil => cases hfind
  | cons hd tl ih =>
    by_cases hh : (idf hd == n) = true
    · rw [List.find?_cons_of_pos (p := fun x => idf x == n) tl hh] at hfind
      cases hfind
      simp only [List.map_cons, if_pos hh]
      exact List.find?_cons_of_pos (p := fun x => idf x == n) _ (by simp only [hpres]; exact hh)
    · rw [List.find?_cons_of_neg (p := fun x => idf x == n) tl hh] at hfind
      simp only [List.map_cons, if_neg hh]
      rw [List.find?_cons_of_neg (p := fun x => idf x == n) _ hh]
      exact ih hfind

/-- C8: an orders update supplying a status stores the trimmed string with a
200 response whenever it is non-empty after trimming — no transition
validation constrains the value — and is rejected with 400 INVALID_STATUS
when it trims to empty. -/
theorem C8_arbitrary_status_accepted (now idStr : String) (n : Int) (b : OrdersPutBody)
    (st : Store) (o : Order) (s : String)
    (hidne : idStr ≠ "") (hid : jsParseInt idStr = some n)
    (hfind : st.orders.find? (fun x => x.id == n) = some o)
    (hst : b.status = some (some s))
    (hcid : b.customerId = none) (hdm : b.deliveryMode = none)
    (hps : b.paymentStatus = none) (hert : b.estimatedReadyTime = none)
    (hdisc : b.discount = none) (hfin : b.finalAmount = none) :
    (jsTrim s ≠ "" →
      (ordersPUT now (some idStr) (some b) st).1.status = 200 ∧
      (ordersPUT now (some idStr) (some b) st).1.payload =
        some (.order { o with status := jsTrim s, updatedAt := now }) ∧
      (ordersPUT now (some idStr) (some b) st).2.orders =
        st.orders.map (fun x =>
          if x.id == n then { x with status := jsTrim s, updatedAt := now } else x)) ∧
    (jsTrim s = "" →
      ordersPUT now (some idStr) (some b) st =
        (errResp 400 "Status cannot be empty" "INVALID_STATUS", st)) := by
  have hupd : ∀ x : Order,
      applyOrderUpdate { updatedAt := now, status := some (jsTrim s) } x =
        { x with status := jsTrim s, updatedAt := now } := fun x => rfl
  constructor
  · intro hne
    simp only [ordersPUT, if_neg hidne, hid, hfind, ordersBuildUpdate, hst, hcid, hdm,
      hps, hert, hdisc, hfin, if_neg hne, bind, Except.bind, pure, Except.pure,
      dbUpdateOrders]
    rw [find?_map_update st.orders Order.id n
      (applyOrderUpdate { updatedAt := now, status := some (jsTrim s) }) o (fun x => rfl) hfind]
    simp only [hupd]
    exact ⟨by trivial, by trivial, by trivial⟩
  · intro heq
    simp only [ordersPUT, if_neg hidne, hid, hfind, ordersBuildUpdate, hst, hcid, hdm,
      hps, hert, hdisc, hfin, if_pos heq, bind, Except.bind]

/-- C8 evaluated concretely: status Banana is stored verbatim with 200, and
a whitespace-only status gets 400 INVALID_STATUS. -/
theorem C8_arbitrary_status_accepted_witness :
    ((ordersPUT "t2" (some "1") (some { status := some (some "Banana") }) sampleStore).1.status = 200 ∧
      (ordersPUT "t2" (some "1") (some { status := some (some "Banana") }) sampleStore).1.payload =
        some (.order { sampleOrderRow with status := jsTrim "Banana", updatedAt := "t2" }) ∧
      (ordersPUT "t2" (some "1") (some { status := some (some "Banana") }) sampleStore).2.orders =
        sampleStore.orders.map (fun x =>
          if x.id == 1 then { x with status := jsTrim "Banana", updatedAt := "t2" } else x)) ∧
    ordersPUT "t2" (some "1") (some { status := some (some " ") }) sampleStore =
      (errResp 400 "Status cannot be empty" "INVALID_STATUS", sampleStore) :=
  ⟨(C8_arbitrary_status_accepted "t2" "1" 1 _ sampleStore sampleOrderRow "Banana"
      (by decide) (by decide) (by decide) rfl rfl rfl rfl rfl rfl rfl).1 (by decide),
   (C8_arbitrary_status_accepted "t2" "1" 1 _ sampleStore sampleOrderRow " "
      (by decide) (by decide) (by decide) rfl rfl rfl rfl rfl rfl rfl).2 (by decide)⟩

/-- Destructor for a successful Except bind. -/
theorem except_bind_ok {ε α β : Type} {x : Except ε α} {f : α → Except ε β} {b : β}
    (h : Except.bind x f = .ok b) : ∃ a, x = .ok a ∧ f a = .ok b := by
  cases x with
  | error e => simp [Except.bind] at h
  | ok a => exact ⟨a, rfl, by simpa [Except.bind] using h⟩

/-- C9: a successful orders update never changes tokenNumber, subtotal or
createdAt, changes no field whose body property is absent except updatedAt,
and always refreshes updatedAt to the request time. -/
theorem C9_orders_update_frame (now idStr : String) (n : Int) (b : OrdersPutBody)
    (st : Store) (o : Order) (u : OrderUpdate)
    (hidne : idStr ≠ "") (hid : jsParseInt idStr = some n)
    (hfind : st.orders.find? (fun x => x.id == n) = some o)
    (hbuild : ordersBuildUpdate now b = .ok u) :
    (ordersPUT now (some idStr) (some b) st).1.status = 200 ∧
    (ordersPUT now (some idStr) (some b) st).1.payload =
      some (.order (applyOrderUpdate u o)) ∧
    (applyOrderUpdate u o).tokenNumber = o.tokenNumber ∧
    (applyOrderUpdate u o).subtotal = o.subtotal ∧
    (applyOrderUpdate u o).createdAt = o.createdAt ∧
    (applyOrderUpdate u o).updatedAt = now ∧
    (b.customerId = none → (applyOrderUpdate u o).customerId = o.customerId) ∧
    (b.status = none → (applyOrderUpdate u o).status = o.status) ∧
    (b.deliveryMode = none → (applyOrderUpdate u o).deliveryMode = o.deliveryMode) ∧
    (b.paymentStatus = none → (applyOrderUpdate u o).paymentStatus = o.paymentStatus) ∧
    (b.estimatedReadyTime = none →
      (applyOrderUpdate u o).estimatedReadyTime = o.estimatedReadyTime) ∧
    (b.discount = none → (applyOrderUpdate u o).discount = o.discount) ∧
    (b.finalAmount = none → (applyOrderUpdate u o).finalAmount = o.finalAmount) := by
  have hresp : ordersPUT now (some idStr) (some b) st =
      ({ status := 200, payload := some (.order (applyOrderUpdate u o)) },
        { st with orders := st.orders.map (fun x =>
            if x.id == n then applyOrderUpdate u x else x) }) := by
    simp only [ordersPUT, if_neg hidne, hid, hfind, hbuild, dbUpdateOrders]
    rw [find?_map_update st.orders Order.id n (applyOrderUpdate u) o (fun x => rfl) hfind]
    rfl
  have hu := hbuild
  unfold ordersBuildUpdate at hu
  obtain ⟨cid, hcid, hu⟩ := except_bind_ok hu
  obtain ⟨stat, hstat, hu⟩ := except_bind_ok hu
  obtain ⟨dm, hdm, hu⟩ := except_bind_ok hu
  obtain ⟨ps, hps, hu⟩ := except_bind_ok hu
  obtain ⟨disc, hdisc, hu⟩ := except_bind_ok hu
  obtain ⟨fin, hfin, hu⟩ := except_bind_ok hu
  have hu2 : u = { updatedAt := now, customerId := cid, status := stat, deliveryMode := dm, paymentStatus := ps, estimatedReadyTime := b.estimatedReadyTime, discount := disc, finalAmount := fin } := by
    cases hu
    rfl
  subst hu2
  rw [hresp]
  refine ⟨rfl, rfl, rfl, rfl, rfl, rfl, ?_, ?_, ?_, ?_, ?_, ?_, ?_⟩
  · intro hbc
    rw [hbc] at hcid
    cases hcid
    rfl
  · intro hbs
    rw [hbs] at hstat
    cases hstat
    rfl
  · intro hbd
    rw [hbd] at hdm
    cases hdm
    rfl
  · intro hbp
    rw [hbp] at hps
    cases hps
    rfl
  · intro hbe
    show (Option.getD b.estimatedReadyTime o.estimatedReadyTime) = o.estimatedReadyTime
    rw [hbe]
    rfl
  · intro hbd
    rw [hbd] at hdisc
    cases hdisc
    rfl
  · intro hbf
    rw [hbf] at hfin
    cases hfin
    rfl

/-- The updateData of the concrete C9 run: only paymentStatus supplied. -/
def c9Update : OrderUpdate :=
  { updatedAt := "t2", paymentStatus := some (jsTrim "Paid") }

/-- C9 evaluated concretely: an update supplying only paymentStatus leaves
all other fields of the stored order unchanged and refreshes updatedAt. -/
theorem C9_orders_update_frame_witness :
    (ordersPUT "t2" (some "1") (some { paymentStatus := some (some "Paid") }) sampleStore).1.status = 200 ∧
    (ordersPUT "t2" (some "1") (some { paymentStatus := some (some "Paid") }) sampleStore).1.payload =
      some (.order (applyOrderUpdate c9Update sampleOrderRow)) ∧
    (applyOrderUpdate c9Update sampleOrderRow).tokenNumber = sampleOrderRow.tokenNumber ∧
    (applyOrderUpdate c9Update sampleOrderRow).subtotal = sampleOrderRow.subtotal ∧
    (applyOrderUpdate c9Update sampleOrderRow).createdAt = sampleOrderRow.createdAt ∧
    (applyOrderUpdate c9Update sampleOrderRow).updatedAt = "t2" ∧
    (applyOrderUpdate c9Update sampleOrderRow).customerId = sampleOrderRow.customerId ∧
    (applyOrderUpdate c9Update sampleOrderRow).status = sampleOrderRow.status := by
  have h := C9_orders_update_frame "t2" "1" 1 { paymentStatus := some (some "Paid") }
    sampleStore sampleOrderRow c9Update (by decide) (by decide) (by decide) rfl
  exact ⟨h.1, h.2.1, h.2.2.1, h.2.2.2.1, h.2.2.2.2.1, h.2.2.2.2.2.1,
    h.2.2.2.2.2.2.1 rfl, h.2.2.2.2.2.2.2.1 rfl⟩

/-- C10: a payments update supplying none of orderId, paymentMode and
paymentStatus (nulls included) is rejected with 400 NO_UPDATE_FIELDS and
changes nothing, while a customers update supplying no fields returns 200
with the existing record unchanged. -/
theorem C10_empty_update_divergence :
    (∀ (idStr : String) (n : Int) (b : PaymentsPutBody) (st : Store) (r : Payment),
      idStr ≠ "" → jsParseInt idStr = some n →
      st.payments.find? (fun x => x.id == n) = some r →
      b.orderId = none →
      (b.paymentMode = none ∨ b.paymentMode = some none) →
      (b.paymentStatus = none ∨ b.paymentStatus = some none) →
      paymentsPUT (some idStr) (some b) st =
        (errResp 400 "No valid fields to update" "NO_UPDATE_FIELDS", st)) ∧
    (∀ (idStr : String) (n : Int) (b : CustomersPutBody) (st : Store) (c : Customer),
      idStr ≠ "" → jsParseInt idStr = some n →
      st.customers.find? (fun x => x.id == n) = some c →
      b.name = none → b.email = none → b.phone = none → b.address = none →
      b.latitude = none → b.longitude = none →
      customersPUT (some idStr) (some b) st =
        ({ status := 200, payload := some (.customer c) }, st)) := by
  constructor
  · intro idStr n b st r hidne hid hfind ho hm hs
    rcases hm with hm | hm <;> rcases hs with hs | hs <;>
      simp [paymentsPUT, if_neg hidne, hid, hfind, paymentsBuildUpdate, ho, hm, hs,
        paymentUpdateEmpty, bind, Except.bind, pure, Except.pure]
  · intro idStr n b st c hidne hid hfind h1 h2 h3 h4 h5 h6
    simp [customersPUT, if_neg hidne, hid, hfind, customersBuildUpdate, reqString,
      h1, h2, h3, h4, h5, h6, customerUpdateEmpty, bind, Except.bind, pure, Except.pure]

/-- C10 evaluated concretely on sampleStore: an empty payments update body
gets 400 NO_UPDATE_FIELDS, an empty customers update body gets 200 with the
existing record. -/
theorem C10_empty_update_divergence_witness :
    paymentsPUT (some "1") (some ({} : PaymentsPutBody)) sampleStore =
      (errResp 400 "No valid fields to update" "NO_UPDATE_FIELDS", sampleStore) ∧
    customersPUT (some "1") (some ({} : CustomersPutBody)) sampleStore =
      ({ status := 200, payload := some (.customer sampleCustomerRow) }, sampleStore) :=
  ⟨C10_empty_update_divergence.1 "1" 1 {} sampleStore samplePaymentRow
      (by decide) (by decide) (by decide) rfl (Or.inl rfl) (Or.inl rfl),
   C10_empty_update_divergence.2 "1" 1 {} sampleStore sampleCustomerRow
      (by decide) (by decide) (by decide) rfl rfl rfl rfl rfl rfl⟩

/-- The shape every validation failure has: 400 with error and code. -/
def ValidationErr (r : ApiResponse) : Prop :=
  r.status = 400 ∧ r.error.isSome = true ∧ r.code.isSome = true

/-- Destructor for a failing Except bind. -/
theorem except_bind_error {ε α β : Type} {x : Except ε α} {f : α → Except ε β} {e : ε}
    (h : Except.bind x f = .error e) : x = .error e ∨ ∃ a, x = .ok a ∧ f a = .error e := by
  cases x with
  | error e2 =>
    simp only [Except.bind] at h
    injection h with h2
    exact Or.inl (by rw [h2])
  | ok a =>
    simp only [Except.bind] at h
    exact Or.inr ⟨a, rfl, h⟩

/-- A failing reqString step returns exactly the supplied error response. -/
theorem reqString_error {v : Option String} {e resp : ApiResponse}
    (h : reqString v e = .error resp) : resp = e := by
  unfold reqString at h
  repeat' split at h
  all_goals cases h
  all_goals rfl

/-- Every customers PUT validation failure is a 400 with a code. -/
theorem customersBuildUpdate_error {b : CustomersPutBody} {resp : ApiResponse}
    (h : customersBuildUpdate b = .error resp) : ValidationErr resp := by
  unfold customersBuildUpdate at h
  rcases except_bind_error h with h | ⟨_, _, h⟩
  · rw [reqString_error h]; exact ⟨rfl, rfl, rfl⟩
  rcases except_bind_error h with h | ⟨_, _, h⟩
  · rw [reqString_error h]; exact ⟨rfl, rfl, rfl⟩
  rcases except_bind_error h with h | ⟨_, _, h⟩
  · rw [reqString_error h]; exact ⟨rfl, rfl, rfl⟩
  rcases except_bind_error h with h | ⟨_, _, h⟩
  · rw [reqString_error h]; exact ⟨rfl, rfl, rfl⟩
  cases h

/-- Every payments PUT validation failure is a 400 with a code. -/
theorem paymentsBuildUpdate_error {b : PaymentsPutBody} {resp : ApiResponse}
    (h : paymentsBuildUpdate b = .error resp) : ValidationErr resp := by
  unfold paymentsBuildUpdate at h
  rcases except_bind_error h with h | ⟨_, _, h⟩
  · repeat' split at h
    all_goals cases h
    all_goals exact ⟨rfl, rfl, rfl⟩
  rcases except_bind_error h with h | ⟨_, _, h⟩
  · repeat' split at h
    all_goals cases h
    all_goals exact ⟨rfl, rfl, rfl⟩
  cases h

/-- Every offers PUT validation failure is a 400 with a code. -/
theorem offersBuildUpdate_error {b : OffersPutBody} {resp : ApiResponse}
    (h : offersBuildUpdate b = .error resp) : ValidationErr resp := by
  unfold offersBuildUpdate at h
  rcases except_bind_error h with h | ⟨_, _, h⟩
  · repeat' split at h
    all_goals cases h
    all_goals exact ⟨rfl, rfl, rfl⟩
  rcases except_bind_error h with h | ⟨_, _, h⟩
  · repeat' split at h
    all_goals cases h
    all_goals exact ⟨rfl, rfl, rfl⟩
  rcases except_bind_error h with h | ⟨_, _, h⟩
  · repeat' split at h
    all_goals cases h
    all_goals exact ⟨rfl, rfl, rfl⟩
  rcases except_bind_error h with h | ⟨_, _, h⟩
  · repeat' split at h
    all_goals cases h
    all_goals exact ⟨rfl, rfl, rfl⟩
  cases h

/-- Every orders PUT validation failure is a 400 with a code. -/
theorem ordersBuildUpdate_error {now : String} {b : OrdersPutBody} {resp : ApiResponse}
    (h : ordersBuildUpdate now b = .error resp) : ValidationErr resp := by
  unfold ordersBuildUpdate at h
  rcases except_bind_error h with h | ⟨_, _, h⟩
  · repeat' split at h
    all_goals cases h
    all_goals exact ⟨rfl, rfl, rfl⟩
  rcases except_bind_error h with h | ⟨_, _, h⟩
  · repeat' split at h
    all_goals cases h
    all_goals exact ⟨rfl, rfl, rfl⟩
  rcases except_bind_error h with h | ⟨_, _, h⟩
  · repeat' split at h
    all_goals cases h
    all_goals exact ⟨rfl, rfl, rfl⟩
  rcases except_bind_error h with h | ⟨_, _, h⟩
  · repeat' split at h
    all_goals cases h
    all_goals exact ⟨rfl, rfl, rfl⟩
  rcases except_bind_error h with h | ⟨_, _, h⟩
  · repeat' split at h
    all_goals cases h
    all_goals exact ⟨rfl, rfl, rfl⟩
  rcases except_bind_error h with h | ⟨_, _, h⟩
  · repeat' split at h
    all_goals cases h
    all_goals exact ⟨rfl, rfl, rfl⟩
  cases h

/-- Every menu-items PUT validation failure is a 400 with a code. -/
theorem menuItemsBuildUpdate_error {b : MenuItemsPutBody} {resp : ApiResponse}
    (h : menuItemsBuildUpdate b = .error resp) : ValidationErr resp := by
  unfold menuItemsBuildUpdate at h
  rcases except_bind_error h with h | ⟨_, _, h⟩
  · rw [reqString_error h]; exact ⟨rfl, rfl, rfl⟩
  rcases except_bind_error h with h | ⟨_, _, h⟩
  · rw [reqString_error h]; exact ⟨rfl, rfl, rfl⟩
  rcases except_bind_error h with h | ⟨_, _, h⟩
  · repeat' split at h
    all_goals cases h
    all_goals exact ⟨rfl, rfl, rfl⟩
  cases h

/-- Every order-items PUT validation failure is a 400 with a code. -/
theorem orderItemsBuildUpdate_error {b : OrderItemsPutBody} {resp : ApiResponse}
    (h : orderItemsBuildUpdate b = .error resp) : ValidationErr resp := by
  unfold orderItemsBuildUpdate at h
  rcases except_bind_error h with h | ⟨_, _, h⟩
  · repeat' split at h
    all_goals cases h
    all_goals exact ⟨rfl, rfl, rfl⟩
  rcases except_bind_error h with h | ⟨_, _, h⟩
  · repeat' split at h
    all_goals cases h
    all_goals exact ⟨rfl, rfl, rfl⟩
  rcases except_bind_error h with h | ⟨_, _, h⟩
  · repeat' split at h
    all_goals cases h
    all_goals exact ⟨rfl, rfl, rfl⟩
  rcases except_bind_error h with h | ⟨_, _, h⟩
  · repeat' split at h
    all_goals cases h
    all_goals exact ⟨rfl, rfl, rfl⟩
  cases h

/-- Every shops PUT validation failure is a 400 with a code. -/
theorem shopsBuildUpdate_error {b : ShopsPutBody} {resp : ApiResponse}
    (h : shopsBuildUpdate b = .error resp) : ValidationErr resp := by
  unfold shopsBuildUpdate at h
  rcases except_bind_error h with h | ⟨_, _, h⟩
  · rw [reqString_error h]; exact ⟨rfl, rfl, rfl⟩
  rcases except_bind_error h with h | ⟨_, _, h⟩
  · rw [reqString_error h]; exact ⟨rfl, rfl, rfl⟩
  rcases except_bind_error h with h | ⟨_, _, h⟩
  · rw [reqString_error h]; exact ⟨rfl, rfl, rfl⟩
  rcases except_bind_error h with h | ⟨_, _, h⟩
  · rw [reqString_error h]; exact ⟨rfl, rfl, rfl⟩
  cases h

/-- An offers update supplying an out-of-range discount cannot validate. -/
theorem offersBuildUpdate_bad_discount {b : OffersPutBody} {d : Rat} {u : OfferUpdate}
    (hd : b.discountPercent = some d) (hout : d < 0 ∨ 100 < d) :
    offersBuildUpdate b ≠ .ok u := by
  intro h
  unfold offersBuildUpdate at h
  obtain ⟨_, _, h⟩ := except_bind_ok h
  obtain ⟨_, hd2, h⟩ := except_bind_ok h
  simp only [hd] at hd2
  have hbool : (decide (d < 0) || decide (100 < d)) = true := by
    rcases hout with h1 | h1 <;> simp [h1]
  rw [if_pos hbool] at hd2
  cases hd2

/-- An orders update supplying a nonpositive final amount cannot validate. -/
theorem ordersBuildUpdate_bad_finalAmount {now : String} {b : OrdersPutBody} {f : Rat}
    {u : OrderUpdate} (hf : b.finalAmount = some (some f)) (hle : f ≤ 0) :
    ordersBuildUpdate now b ≠ .ok u := by
  intro h
  unfold ordersBuildUpdate at h
  obtain ⟨_, _, h⟩ := except_bind_ok h
  obtain ⟨_, _, h⟩ := except_bind_ok h
  obtain ⟨_, _, h⟩ := except_bind_ok h
  obtain ⟨_, _, h⟩ := except_bind_ok h
  obtain ⟨_, _, h⟩ := except_bind_ok h
  obtain ⟨_, hf2, h⟩ := except_bind_ok h
  simp only [hf] at hf2
  rw [if_pos hle] at hf2
  cases hf2

/-- A menu-items update supplying a nonpositive price cannot validate. -/
theorem menuItemsBuildUpdate_bad_price {b : MenuItemsPutBody} {p : Rat}
    {u : MenuItemUpdate} (hp : b.price = some (some p)) (hle : p ≤ 0) :
    menuItemsBuildUpdate b ≠ .ok u := by
  intro h
  unfold menuItemsBuildUpdate at h
  obtain ⟨_, _, h⟩ := except_bind_ok h
  obtain ⟨_, _, h⟩ := except_bind_ok h
  obtain ⟨_, hp2, h⟩ := except_bind_ok h
  simp only [hp] at hp2
  rw [if_pos hle] at hp2
  cases hp2

/-- An order-items update supplying a nonpositive price cannot validate. -/
theorem orderItemsBuildUpdate_bad_price {b : OrderItemsPutBody} {p : Rat}
    {u : OrderItemUpdate} (hp : b.price = some (some p)) (hle : p ≤ 0) :
    orderItemsBuildUpdate b ≠ .ok u := by
  intro h
  unfold orderItemsBuildUpdate at h
  obtain ⟨_, _, h⟩ := except_bind_ok h
  obtain ⟨_, hp2, h⟩ := except_bind_ok h
  simp only [hp] at hp2
  rw [if_pos hle] at hp2
  cases hp2

/-- C5: out-of-range numeric fields are rejected with a 400 and nothing is
written: discountPercent outside [0,100] on offers create and update,
finalAmount at most 0 on orders create and update, price at most 0 on
menu-items and order-items create and update, and amountPaid at most 0 on
payments create. -/
theorem C5_range_validation :
    (∀ (now : String) (b : OffersPostBody) (st : Store) (d : Rat),
      b.discountPercent = some (some d) → d < 0 ∨ 100 < d →
      (offersPOST now (some b) st).1.status = 400 ∧ (offersPOST now (some b) st).2 = st) ∧
    (∀ (idStr : String) (n : Int) (b : OffersPutBody) (st : Store) (o : Offer) (d : Rat),
      idStr ≠ "" → jsParseInt idStr = some n →
      st.offers.find? (fun x => x.id == n) = some o →
      b.discountPercent = some d → d < 0 ∨ 100 < d →
      (offersPUT (some idStr) (some b) st).1.status = 400 ∧
      (offersPUT (some idStr) (some b) st).2 = st) ∧
    (∀ (now : String) (b : OrdersPostBody) (st : Store) (f : Rat),
      b.finalAmount = some f → f ≤ 0 →
      (ordersPOST now (some b) st).1.status = 400 ∧ (ordersPOST now (some b) st).2 = st) ∧
    (∀ (now idStr : String) (n : Int) (b : OrdersPutBody) (st : Store) (o : Order) (f : Rat),
      idStr ≠ "" → jsParseInt idStr = some n →
      st.orders.find? (fun x => x.id == n) = some o →
      b.finalAmount = some (some f) → f ≤ 0 →
      (ordersPUT now (some idStr) (some b) st).1.status = 400 ∧
      (ordersPUT now (some idStr) (some b) st).2 = st) ∧
    (∀ (now : String) (b : MenuItemsPostBody) (st : Store) (p : Rat),
      b.price = some (some p) → p ≤ 0 →
      (menuItemsPOST now (some b) st).1.status = 400 ∧
      (menuItemsPOST now (some b) st).2 = st) ∧
    (∀ (idStr : String) (n : Int) (b : MenuItemsPutBody) (st : Store) (m : MenuItem) (p : Rat),
      idStr ≠ "" → jsParseInt idStr = some n →
      st.menuItems.find? (fun x => x.id == n) = some m →
      b.price = some (some p) → p ≤ 0 →
      (menuItemsPUT (some idStr) (some b) st).1.status = 400 ∧
      (menuItemsPUT (some idStr) (some b) st).2 = st) ∧
    (∀ (now : String) (b : OrderItemsPostBody) (st : Store) (p : Rat),
      b.price = some (some p) → p ≤ 0 →
      (orderItemsPOST now (some b) st).1.status = 400 ∧
      (orderItemsPOST now (some b) st).2 = st) ∧
    (∀ (idStr : String) (n : Int) (b : OrderItemsPutBody) (st : Store) (r : OrderItem) (p : Rat),
      idStr ≠ "" → jsParseInt idStr = some n →
      st.orderItems.find? (fun x => x.id == n) = some r →
      b.price = some (some p) → p ≤ 0 →
      (orderItemsPUT (some idStr) (some b) st).1.status = 400 ∧
      (orderItemsPUT (some idStr) (some b) st).2 = st) ∧
    (∀ (now : String) (b : PaymentsPostBody) (st : Store) (a : Rat),
      b.amountPaid = some (some a) → a ≤ 0 →
      (paymentsPOST now (some b) st).1.status = 400 ∧
      (paymentsPOST now (some b) st).2 = st) := by
  refine ⟨?_, ?_, ?_, ?_, ?_, ?_, ?_, ?_, ?_⟩
  · intro now b st d hd hout
    have hbool : (decide (d < 0) || decide (100 < d)) = true := by
      rcases hout with h1 | h1 <;> simp [h1]
    simp only [offersPOST, hd]
    simp only [hbool, eq_self_iff_true, if_true]
    repeat' split
    all_goals exact ⟨rfl, rfl⟩
  · intro idStr n b st o d hidne hid hfind hd hout
    simp only [offersPUT, if_neg hidne, hid, hfind]
    cases hb : offersBuildUpdate b with
    | error resp =>
      exact ⟨(offersBuildUpdate_error hb).1, rfl⟩
    | ok u => exact absurd hb (offersBuildUpdate_bad_discount hd hout)
  · intro now b st f hf hle
    simp only [ordersPOST, hf]
    simp only [eq_true hle, if_true]
    repeat' split
    all_goals exact ⟨rfl, rfl⟩
  · intro now idStr n b st o f hidne hid hfind hf hle
    simp only [ordersPUT, if_neg hidne, hid, hfind]
    cases hb : ordersBuildUpdate now b with
    | error resp =>
      exact ⟨(ordersBuildUpdate_error hb).1, rfl⟩
    | ok u => exact absurd hb (ordersBuildUpdate_bad_finalAmount hf hle)
  · intro now b st p hp hle
    simp only [menuItemsPOST, hp]
    simp only [eq_true hle, if_true]
    repeat' split
    all_goals exact ⟨rfl, rfl⟩
  · intro idStr n b st m p hidne hid hfind hp hle
    simp only [menuItemsPUT, if_neg hidne, hid, hfind]
    cases hb : menuItemsBuildUpdate b with
    | error resp =>
      exact ⟨(menuItemsBuildUpdate_error hb).1, rfl⟩
    | ok u => exact absurd hb (menuItemsBuildUpdate_bad_price hp hle)
  · intro now b st p hp hle
    simp only [orderItemsPOST, hp]
    simp only [eq_true hle, if_true]
    repeat' split
    all_goals exact ⟨rfl, rfl⟩
  · intro idStr n b st r p hidne hid hfind hp hle
    simp only [orderItemsPUT, if_neg hidne, hid, hfind]
    cases hb : orderItemsBuildUpdate b with
    | error resp =>
      exact ⟨(orderItemsBuildUpdate_error hb).1, rfl⟩
    | ok u => exact absurd hb (orderItemsBuildUpdate_bad_price hp hle)
  · intro now b st a ha hle
    simp only [paymentsPOST, ha]
    simp only [eq_true hle, if_true]
    repeat' split
    all_goals exact ⟨rfl, rfl⟩

/-- A store that also holds one offer, one menu item and one order item. -/
def sampleStoreFull : Store :=
  { sampleStore with
    offers := [{ id := 1, title := "Deal", description := none, discountPercent := 10, validFrom := "t0", validUntil := "t9", createdAt := "t0" }]
    menuItems := [{ id := 1, name := "Burger", category := "Food", price := 100, availability := true, description := none, imageUrl := none, createdAt := "t0" }]
    orderItems := [{ id := 1, orderId := some 1, menuItemId := some 1, quantity := 1, price := 100, createdAt := "t0" }] }

/-- C5 evaluated on concrete out-of-range requests. -/
theorem C5_range_validation_witness :
    ((offersPOST "t1" (some { title := some "Deal", discountPercent := some (some 150), validFrom := some "t0", validUntil := some "t9" }) sampleStoreFull).1.status = 400 ∧
      (offersPOST "t1" (some { title := some "Deal", discountPercent := some (some 150), validFrom := some "t0", validUntil := some "t9" }) sampleStoreFull).2 = sampleStoreFull) ∧
    ((offersPUT (some "1") (some { discountPercent := some 150 }) sampleStoreFull).1.status = 400 ∧
      (offersPUT (some "1") (some { discountPercent := some 150 }) sampleStoreFull).2 = sampleStoreFull) ∧
    ((ordersPOST "t1" (some { tokenNumber := some "TKN9", subtotal := some 10, finalAmount := some (-5), deliveryMode := some "Pickup" }) sampleStoreFull).1.status = 400 ∧
      (ordersPOST "t1" (some { tokenNumber := some "TKN9", subtotal := some 10, finalAmount := some (-5), deliveryMode := some "Pickup" }) sampleStoreFull).2 = sampleStoreFull) ∧
    ((ordersPUT "t1" (some "1") (some { finalAmount := some (some 0) }) sampleStoreFull).1.status = 400 ∧
      (ordersPUT "t1" (some "1") (some { finalAmount := some (some 0) }) sampleStoreFull).2 = sampleStoreFull) ∧
    ((menuItemsPOST "t1" (some { name := some "Pizza", category := some "Food", price := some (some 0) }) sampleStoreFull).1.status = 400 ∧
      (menuItemsPOST "t1" (some { name := some "Pizza", category := some "Food", price := some (some 0) }) sampleStoreFull).2 = sampleStoreFull) ∧
    ((menuItemsPUT (some "1") (some { price := some (some (-2)) }) sampleStoreFull).1.status = 400 ∧
      (menuItemsPUT (some "1") (some { price := some (some (-2)) }) sampleStoreFull).2 = sampleStoreFull) ∧
    ((orderItemsPOST "t1" (some { quantity := some (some 1), price := some (some (-1)) }) sampleStoreFull).1.status = 400 ∧
      (orderItemsPOST "t1" (some { quantity := some (some 1), price := some (some (-1)) }) sampleStoreFull).2 = sampleStoreFull) ∧
    ((orderItemsPUT (some "1") (some { price := some (some 0) }) sampleStoreFull).1.status = 400 ∧
      (orderItemsPUT (some "1") (some { price := some (some 0) }) sampleStoreFull).2 = sampleStoreFull) ∧
    ((paymentsPOST "t1" (some { transactionId := some "TXN9", paymentMode := some "Cash", amountPaid := some (some 0), paymentStatus := some "Pending" }) sampleStoreFull).1.status = 400 ∧
      (paymentsPOST "t1" (some { transactionId := some "TXN9", paymentMode := some "Cash", amountPaid := some (some 0), paymentStatus := some "Pending" }) sampleStoreFull).2 = sampleStoreFull) :=
  ⟨C5_range_validation.1 "t1" _ sampleStoreFull 150 rfl (by decide),
   C5_range_validation.2.1 "1" 1 _ sampleStoreFull _ 150 (by decide) (by decide) rfl rfl (by decide),
   C5_range_validation.2.2.1 "t1" _ sampleStoreFull (-5) rfl (by decide),
   C5_range_validation.2.2.2.1 "t1" "1" 1 _ sampleStoreFull sampleOrderRow 0 (by decide) (by decide) (by decide) rfl (by decide),
   C5_range_validation.2.2.2.2.1 "t1" _ sampleStoreFull 0 rfl (by decide),
   C5_range_validation.2.2.2.2.2.1 "1" 1 _ sampleStoreFull _ (-2) (by decide) (by decide) rfl rfl (by decide),
   C5_range_validation.2.2.2.2.2.2.1 "t1" _ sampleStoreFull (-1) rfl (by decide),
   C5_range_validation.2.2.2.2.2.2.2.1 "1" 1 _ sampleStoreFull _ 0 (by decide) (by decide) rfl rfl (by decide),
   C5_range_validation.2.2.2.2.2.2.2.2 "t1" _ sampleStoreFull 0 rfl (by decide)⟩

/-- A limit parameter that parses above 100 is clamped to 100 by the
Math.min computation. -/
lemma listLimit_clamp (lp : String) (n : Int) (h : jsParseInt lp = some n)
    (hn : 100 < n) : listLimit (some lp) = some 100 := by
  simp only [listLimit, Option.getD, h]
  congr 1
  omega

/-- The customers list result depends on the limit parameter only through
listLimit. -/
lemma customersGET_limit_congr (p : CustomersGetParams) (l : Option String) (st : Store)
    (hid : p.id = none) (h : listLimit p.limit = listLimit l) :
    customersGET p st = customersGET { p with limit := l } st := by
  simp only [customersGET, hid, customersList]
  rw [h]

/-- The customers list result depends on the offset parameter only through
listOffset. -/
lemma customersGET_offset_congr (p : CustomersGetParams) (o : Option String) (st : Store)
    (hid : p.id = none) (h : listOffset p.offset = listOffset o) :
    customersGET p st = customersGET { p with offset := o } st := by
  simp only [customersGET, hid, customersList]
  rw [h]

/-- The offers list result depends on the limit parameter only through
listLimit. -/
lemma offersGET_limit_congr (now : String) (p : OffersGetParams) (l : Option String) (st : Store)
    (hid : p.id = none) (h : listLimit p.limit = listLimit l) :
    offersGET now p st = offersGET now { p with limit := l } st := by
  obtain ⟨pid, pl, po, ps, pa⟩ := p
  simp only at hid h
  subst hid
  have hrm : offersRowMatch now ⟨none, l, po, ps, pa⟩ = offersRowMatch now ⟨none, pl, po, ps, pa⟩ :=
    funext fun o => by simp only [offersRowMatch]
  simp only [offersGET, offersList]
  rw [hrm, h]

/-- The offers list result depends on the offset parameter only through
listOffset. -/
lemma offersGET_offset_congr (now : String) (p : OffersGetParams) (o : Option String) (st : Store)
    (hid : p.id = none) (h : listOffset p.offset = listOffset o) :
    offersGET now p st = offersGET now { p with offset := o } st := by
  obtain ⟨pid, pl, po, ps, pa⟩ := p
  simp only at hid h
  subst hid
  have hrm : offersRowMatch now ⟨none, pl, o, ps, pa⟩ = offersRowMatch now ⟨none, pl, po, ps, pa⟩ :=
    funext fun x => by simp only [offersRowMatch]
  simp only [offersGET, offersList]
  rw [hrm, h]

/-- The payments list result depends on the limit parameter only through
listLimit. -/
lemma paymentsGET_limit_congr (p : PaymentsGetParams) (l : Option String) (st : Store)
    (hid : p.id = none) (h : listLimit p.limit = listLimit l) :
    paymentsGET p st = paymentsGET { p with limit := l } st := by
  obtain ⟨pid, pl, po, ps, poid, pst, pm⟩ := p
  simp only at hid h
  subst hid
  have hrm : paymentsRowMatch ⟨none, l, po, ps, poid, pst, pm⟩ = paymentsRowMatch ⟨none, pl, po, ps, poid, pst, pm⟩ :=
    funext fun x => by simp only [paymentsRowMatch]
  simp only [paymentsGET, paymentsList]
  rw [hrm, h]

/-- The payments list result depends on the offset parameter only through
listOffset. -/
lemma paymentsGET_offset_congr (p : PaymentsGetParams) (o : Option String) (st : Store)
    (hid : p.id = none) (h : listOffset p.offset = listOffset o) :
    paymentsGET p st = paymentsGET { p with offset := o } st := by
  obtain ⟨pid, pl, po, ps, poid, pst, pm⟩ := p
  simp only at hid h
  subst hid
  have hrm : paymentsRowMatch ⟨none, pl, o, ps, poid, pst, pm⟩ = paymentsRowMatch ⟨none, pl, po, ps, poid, pst, pm⟩ :=
    funext fun x => by simp only [paymentsRowMatch]
  simp only [paymentsGET, paymentsList]
  rw [hrm, h]

/-- The orders list result depends on the limit parameter only through
listLimit. -/
lemma ordersGET_limit_congr (p : OrdersGetParams) (l : Option String) (st : Store)
    (hid : p.id = none) (h : listLimit p.limit = listLimit l) :
    ordersGET p st = ordersGET { p with limit := l } st := by
  obtain ⟨pid, pl, po, ps, pst, pps, pc⟩ := p
  simp only at hid h
  subst hid
  have hrm : ordersRowMatch ⟨none, l, po, ps, pst, pps, pc⟩ = ordersRowMatch ⟨none, pl, po, ps, pst, pps, pc⟩ :=
    funext fun x => by simp only [ordersRowMatch]
  simp only [ordersGET, ordersListQ]
  rw [hrm, h]

/-- The orders list result depends on the offset parameter only through
listOffset. -/
lemma ordersGET_offset_congr (p : OrdersGetParams) (o : Option String) (st : Store)
    (hid : p.id = none) (h : listOffset p.offset = listOffset o) :
    ordersGET p st = ordersGET { p with offset := o } st := by
  obtain ⟨pid, pl, po, ps, pst, pps, pc⟩ := p
  simp only at hid h
  subst hid
  have hrm : ordersRowMatch ⟨none, pl, o, ps, pst, pps, pc⟩ = ordersRowMatch ⟨none, pl, po, ps, pst, pps, pc⟩ :=
    funext fun x => by simp only [ordersRowMatch]
  simp only [ordersGET, ordersListQ]
  rw [hrm, h]

/-- The shops list result depends on the limit parameter only through
listLimit. -/
lemma shopsGET_limit_congr (p : ShopsGetParams) (l : Option String) (st : Store)
    (hid : p.id = none) (h : listLimit p.limit = listLimit l) :
    shopsGET p st = shopsGET { p with limit := l } st := by
  simp only [shopsGET, hid, shopsList]
  rw [h]

/-- The shops list result depends on the offset parameter only through
listOffset. -/
lemma shopsGET_offset_congr (p : ShopsGetParams) (o : Option String) (st : Store)
    (hid : p.id = none) (h : listOffset p.offset = listOffset o) :
    shopsGET p st = shopsGET { p with offset := o } st := by
  simp only [shopsGET, hid, shopsList]
  rw [h]

/-- The menu-items list result depends on the limit parameter only through
listLimit. -/
lemma menuItemsGET_limit_congr (p : MenuItemsGetParams) (l : Option String) (st : Store)
    (hid : p.id = none) (h : listLimit p.limit = listLimit l) :
    menuItemsGET p st = menuItemsGET { p with limit := l } st := by
  obtain ⟨pid, pl, po, ps, pc, pa⟩ := p
  simp only at hid h
  subst hid
  have hrm : menuItemsRowMatch ⟨none, l, po, ps, pc, pa⟩ = menuItemsRowMatch ⟨none, pl, po, ps, pc, pa⟩ :=
    funext fun x => by simp only [menuItemsRowMatch]
  simp only [menuItemsGET, menuItemsList]
  rw [hrm, h]

/-- The menu-items list result depends on the offset parameter only through
listOffset. -/
lemma menuItemsGET_offset_congr (p : MenuItemsGetParams) (o : Option String) (st : Store)
    (hid : p.id = none) (h : listOffset p.offset = listOffset o) :
    menuItemsGET p st = menuItemsGET { p with offset := o } st := by
  obtain ⟨pid, pl, po, ps, pc, pa⟩ := p
  simp only at hid h
  subst hid
  have hrm : menuItemsRowMatch ⟨none, pl, o, ps, pc, pa⟩ = menuItemsRowMatch ⟨none, pl, po, ps, pc, pa⟩ :=
    funext fun x => by simp only [menuItemsRowMatch]
  simp only [menuItemsGET, menuItemsList]
  rw [hrm, h]

/-- The order-items list result depends on the limit parameter only through
listLimit. -/
lemma orderItemsGET_limit_congr (p : OrderItemsGetParams) (l : Option String) (st : Store)
    (hid : p.id = none) (h : listLimit p.limit = listLimit l) :
    orderItemsGET p st = orderItemsGET { p with limit := l } st := by
  obtain ⟨pid, pl, po, poid, pm⟩ := p
  simp only at hid h
  subst hid
  have hrm : orderItemsRowMatch ⟨none, l, po, poid, pm⟩ = orderItemsRowMatch ⟨none, pl, po, poid, pm⟩ :=
    funext fun x => by simp only [orderItemsRowMatch]
  simp only [orderItemsGET, orderItemsList]
  rw [hrm, h]

/-- The order-items list result depends on the offset parameter only through
listOffset. -/
lemma orderItemsGET_offset_congr (p : OrderItemsGetParams) (o : Option String) (st : Store)
    (hid : p.id = none) (h : listOffset p.offset = listOffset o) :
    orderItemsGET p st = orderItemsGET { p with offset := o } st := by
  obtain ⟨pid, pl, po, poid, pm⟩ := p
  simp only at hid h
  subst hid
  have hrm : orderItemsRowMatch ⟨none, pl, o, poid, pm⟩ = orderItemsRowMatch ⟨none, pl, po, poid, pm⟩ :=
    funext fun x => by simp only [orderItemsRowMatch]
  simp only [orderItemsGET, orderItemsList]
  rw [hrm, h]

/-- The receipts list result depends on the limit parameter only through
listLimit. -/
lemma receiptsGET_limit_congr (p : ReceiptsGetParams) (l : Option String) (st : Store)
    (hid : p.id = none) (h : listLimit p.limit = listLimit l) :
    receiptsGET p st = receiptsGET { p with limit := l } st := by
  obtain ⟨pid, pl, po, poid⟩ := p
  simp only at hid h
  subst hid
  have hrm : receiptsRowMatch ⟨none, l, po, poid⟩ = receiptsRowMatch ⟨none, pl, po, poid⟩ :=
    funext fun x => by simp only [receiptsRowMatch]
  simp only [receiptsGET, receiptsList]
  rw [hrm, h]

/-- The receipts list result depends on the offset parameter only through
listOffset. -/
lemma receiptsGET_offset_congr (p : ReceiptsGetParams) (o : Option String) (st : Store)
    (hid : p.id = none) (h : listOffset p.offset = listOffset o) :
    receiptsGET p st = receiptsGET { p with offset := o } st := by
  obtain ⟨pid, pl, po, poid⟩ := p
  simp only at hid h
  subst hid
  have hrm : receiptsRowMatch ⟨none, pl, o, poid⟩ = receiptsRowMatch ⟨none, pl, po, poid⟩ :=
    funext fun x => by simp only [receiptsRowMatch]
  simp only [receiptsGET, receiptsList]
  rw [hrm, h]

/-- C6: on every entity list endpoint a supplied limit that parses above 100
behaves exactly like limit=100 (Math.min clamps it), an omitted limit behaves
exactly like limit=10, and an omitted offset behaves exactly like offset=0;
the underlying computed values are min(parsed,100), 10 and 0. -/
theorem C6_pagination :
    (∀ (lp : String) (n : Int), jsParseInt lp = some n → 100 < n →
      listLimit (some lp) = some 100) ∧
    listLimit none = some 10 ∧
    listOffset none = some 0 ∧
    (∀ (p : CustomersGetParams) (st : Store) (lp : String) (n : Int),
      p.id = none → p.limit = some lp → jsParseInt lp = some n → 100 < n →
      customersGET p st = customersGET { p with limit := some "100" } st) ∧
    (∀ (p : CustomersGetParams) (st : Store), p.id = none → p.limit = none →
      customersGET p st = customersGET { p with limit := some "10" } st) ∧
    (∀ (p : CustomersGetParams) (st : Store), p.id = none → p.offset = none →
      customersGET p st = customersGET { p with offset := some "0" } st) ∧
    (∀ (p : PaymentsGetParams) (st : Store) (lp : String) (n : Int),
      p.id = none → p.limit = some lp → jsParseInt lp = some n → 100 < n →
      paymentsGET p st = paymentsGET { p with limit := some "100" } st) ∧
    (∀ (p : PaymentsGetParams) (st : Store), p.id = none → p.limit = none →
      paymentsGET p st = paymentsGET { p with limit := some "10" } st) ∧
    (∀ (p : PaymentsGetParams) (st : Store), p.id = none → p.offset = none →
      paymentsGET p st = paymentsGET { p with offset := some "0" } st) ∧
    (∀ (p : OrdersGetParams) (st : Store) (lp : String) (n : Int),
      p.id = none → p.limit = some lp → jsParseInt lp = some n → 100 < n →
      ordersGET p st = ordersGET { p with limit := some "100" } st) ∧
    (∀ (p : OrdersGetParams) (st : Store), p.id = none → p.limit = none →
      ordersGET p st = ordersGET { p with limit := some "10" } st) ∧
    (∀ (p : OrdersGetParams) (st : Store), p.id = none → p.offset = none →
      ordersGET p st = ordersGET { p with offset := some "0" } st) ∧
    (∀ (now : String) (p : OffersGetParams) (st : Store) (lp : String) (n : Int),
      p.id = none → p.limit = some lp → jsParseInt lp = some n → 100 < n →
      offersGET now p st = offersGET now { p with limit := some "100" } st) ∧
    (∀ (now : String) (p : OffersGetParams) (st : Store), p.id = none → p.limit = none →
      offersGET now p st = offersGET now { p with limit := some "10" } st) ∧
    (∀ (now : String) (p : OffersGetParams) (st : Store), p.id = none → p.offset = none →
      offersGET now p st = offersGET now { p with offset := some "0" } st) ∧
    (∀ (p : ShopsGetParams) (st : Store) (lp : String) (n : Int),
      p.id = none → p.limit = some lp → jsParseInt lp = some n → 100 < n →
      shopsGET p st = shopsGET { p with limit := some "100" } st) ∧
    (∀ (p : ShopsGetParams) (st : Store), p.id = none → p.limit = none →
      shopsGET p st = shopsGET { p with limit := some "10" } st) ∧
    (∀ (p : ShopsGetParams) (st : Store), p.id = none → p.offset = none →
      shopsGET p st = shopsGET { p with offset := some "0" } st) ∧
    (∀ (p : MenuItemsGetParams) (st : Store) (lp : String) (n : Int),
      p.id = none → p.limit = some lp → jsParseInt lp = some n → 100 < n →
      menuItemsGET p st = menuItemsGET { p with limit := some "100" } st) ∧
    (∀ (p : MenuItemsGetParams) (st : Store), p.id = none → p.limit = none →
      menuItemsGET p st = menuItemsGET { p with limit := some "10" } st) ∧
    (∀ (p : MenuItemsGetParams) (st : Store), p.id = none → p.offset = none →
      menuItemsGET p st = menuItemsGET { p with offset := some "0" } st) ∧
    (∀ (p : OrderItemsGetParams) (st : Store) (lp : String) (n : Int),
      p.id = none → p.limit = some lp → jsParseInt lp = some n → 100 < n →
      orderItemsGET p st = orderItemsGET { p with limit := some "100" } st) ∧
    (∀ (p : OrderItemsGetParams) (st : Store), p.id = none → p.limit = none →
      orderItemsGET p st = orderItemsGET { p with limit := some "10" } st) ∧
    (∀ (p : OrderItemsGetParams) (st : Store), p.id = none → p.offset = none →
      orderItemsGET p st = orderItemsGET { p with offset := some "0" } st) ∧
    (∀ (p : ReceiptsGetParams) (st : Store) (lp : String) (n : Int),
      p.id = none → p.limit = some lp → jsParseInt lp = some n → 100 < n →
      receiptsGET p st = receiptsGET { p with limit := some "100" } st) ∧
    (∀ (p : ReceiptsGetParams) (st : Store), p.id = none → p.limit = none →
      receiptsGET p st = receiptsGET { p with limit := some "10" } st) ∧
    (∀ (p : ReceiptsGetParams) (st : Store), p.id = none → p.offset = none →
      receiptsGET p st = receiptsGET { p with offset := some "0" } st) :=
  ⟨fun lp n h hn => listLimit_clamp lp n h hn,
   by decide,
   by decide,
   fun p st lp n hid hl hp hn =>
     customersGET_limit_congr p (some "100") st hid
       (by rw [hl, listLimit_clamp lp n hp hn]; decide),
   fun p st hid hl =>
     customersGET_limit_congr p (some "10") st hid (by rw [hl]; decide),
   fun p st hid ho =>
     customersGET_offset_congr p (some "0") st hid (by rw [ho]; decide),
   fun p st lp n hid hl hp hn =>
     paymentsGET_limit_congr p (some "100") st hid
       (by rw [hl, listLimit_clamp lp n hp hn]; decide),
   fun p st hid hl =>
     paymentsGET_limit_congr p (some "10") st hid (by rw [hl]; decide),
   fun p st hid ho =>
     paymentsGET_offset_congr p (some "0") st hid (by rw [ho]; decide),
   fun p st lp n hid hl hp hn =>
     ordersGET_limit_congr p (some "100") st hid
       (by rw [hl, listLimit_clamp lp n hp hn]; decide),
   fun p st hid hl =>
     ordersGET_limit_congr p (some "10") st hid (by rw [hl]; decide),
   fun p st hid ho =>
     ordersGET_offset_congr p (some "0") st hid (by rw [ho]; decide),
   fun now p st lp n hid hl hp hn =>
     offersGET_limit_congr now p (some "100") st hid
       (by rw [hl, listLimit_clamp lp n hp hn]; decide),
   fun now p st hid hl =>
     offersGET_limit_congr now p (some "10") st hid (by rw [hl]; decide),
   fun now p st hid ho =>
     offersGET_offset_congr now p (some "0") st hid (by rw [ho]; decide),
   fun p st lp n hid hl hp hn =>
     shopsGET_limit_congr p (some "100") st hid
       (by rw [hl, listLimit_clamp lp n hp hn]; decide),
   fun p st hid hl =>
     shopsGET_limit_congr p (some "10") st hid (by rw [hl]; decide),
   fun p st hid ho =>
     shopsGET_offset_congr p (some "0") st hid (by rw [ho]; decide),
   fun p st lp n hid hl hp hn =>
     menuItemsGET_limit_congr p (some "100") st hid
       (by rw [hl, listLimit_clamp lp n hp hn]; decide),
   fun p st hid hl =>
     menuItemsGET_limit_congr p (some "10") st hid (by rw [hl]; decide),
   fun p st hid ho =>
     menuItemsGET_offset_congr p (some "0") st hid (by rw [ho]; decide),
   fun p st lp n hid hl hp hn =>
     orderItemsGET_limit_congr p (some "100") st hid
       (by rw [hl, listLimit_clamp lp n hp hn]; decide),
   fun p st hid hl =>
     orderItemsGET_limit_congr p (some "10") st hid (by rw [hl]; decide),
   fun p st hid ho =>
     orderItemsGET_offset_congr p (some "0") st hid (by rw [ho]; decide),
   fun p st lp n hid hl hp hn =>
     receiptsGET_limit_congr p (some "100") st hid
       (by rw [hl, listLimit_clamp lp n hp hn]; decide),
   fun p st hid hl =>
     receiptsGET_limit_congr p (some "10") st hid (by rw [hl]; decide),
   fun p st hid ho =>
     receiptsGET_offset_congr p (some "0") st hid (by rw [ho]; decide)⟩

/-- C6 evaluated on concrete list requests: limit 500 behaves like limit 100 on every entity, and omitted limit and offset behave like 10 and 0. -/
theorem C6_pagination_witness :
    listLimit (some "500") = some 100 ∧
    listLimit none = some 10 ∧
    listOffset none = some 0 ∧
    customersGET { limit := some "500" } sampleStore = customersGET { limit := some "100" } sampleStore ∧
    customersGET {} sampleStore = customersGET { limit := some "10" } sampleStore ∧
    customersGET {} sampleStore = customersGET { offset := some "0" } sampleStore ∧
    paymentsGET { limit := some "500" } sampleStore = paymentsGET { limit := some "100" } sampleStore ∧
    ordersGET { limit := some "500" } sampleStore = ordersGET { limit := some "100" } sampleStore ∧
    offersGET "t" { limit := some "500" } sampleStore = offersGET "t" { limit := some "100" } sampleStore ∧
    shopsGET { limit := some "500" } sampleStore = shopsGET { limit := some "100" } sampleStore ∧
    menuItemsGET { limit := some "500" } sampleStore = menuItemsGET { limit := some "100" } sampleStore ∧
    orderItemsGET { limit := some "500" } sampleStore = orderItemsGET { limit := some "100" } sampleStore ∧
    receiptsGET { limit := some "500" } sampleStore = receiptsGET { limit := some "100" } sampleStore :=
  ⟨C6_pagination.1 "500" 500 (by decide) (by decide),
   C6_pagination.2.1,
   C6_pagination.2.2.1,
   C6_pagination.2.2.2.1 _ sampleStore "500" 500 rfl rfl (by decide) (by decide),
   C6_pagination.2.2.2.2.1 _ sampleStore rfl rfl,
   C6_pagination.2.2.2.2.2.1 _ sampleStore rfl rfl,
   C6_pagination.2.2.2.2.2.2.1 _ sampleStore "500" 500 rfl rfl (by decide) (by decide),
   C6_pagination.2.2.2.2.2.2.2.2.2.1 _ sampleStore "500" 500 rfl rfl (by decide) (by decide),
   C6_pagination.2.2.2.2.2.2.2.2.2.2.2.2.1 "t" _ sampleStore "500" 500 rfl rfl (by decide) (by decide),
   C6_pagination.2.2.2.2.2.2.2.2.2.2.2.2.2.2.2.1 _ sampleStore "500" 500 rfl rfl (by decide) (by decide),
   C6_pagination.2.2.2.2.2.2.2.2.2.2.2.2.2.2.2.2.2.2.1 _ sampleStore "500" 500 rfl rfl (by decide) (by decide),
   C6_pagination.2.2.2.2.2.2.2.2.2.2.2.2.2.2.2.2.2.2.2.2.2.1 _ sampleStore "500" 500 rfl rfl (by decide) (by decide),
   C6_pagination.2.2.2.2.2.2.2.2.2.2.2.2.2.2.2.2.2.2.2.2.2.2.2.2.1 _ sampleStore "500" 500 rfl rfl (by decide) (by decide)⟩

/-- C7 counterexample: updating, fetching or deleting a missing offer id does
return 404, but the offers route sends the body without any code field, so the
not-found code promised by the spec is absent. -/
theorem C7_offers_404_no_code :
    (offersPUT (some "2") (some {}) sampleStoreFull).1.status = 404 ∧
    (offersPUT (some "2") (some {}) sampleStoreFull).1.code = none ∧
    (offersGET "t" { id := some "2" } sampleStoreFull).status = 404 ∧
    (offersGET "t" { id := some "2" } sampleStoreFull).code = none ∧
    (offersDELETE (some "2") sampleStoreFull).1.status = 404 ∧
    (offersDELETE (some "2") sampleStoreFull).1.code = none := by
  decide

/-- C7 (amended): for every entity, a parseable id that resolves to no record
makes get-by-id, update and delete return 404 with the store unchanged, with
an entity-specific not-found code on every route except offers, whose 404
body carries no code field; on the payments, orders and shops routes the
update body is read before the existence check, so the 404 there requires a
parseable JSON body. -/
theorem C7_missing_id_404 :
    (∀ (p : CustomersGetParams) (st : Store) (idStr : String) (n : Int),
      p.id = some idStr → idStr ≠ "" → jsParseInt idStr = some n →
      st.customers.find? (fun r => r.id == n) = none →
      customersGET p st = errResp 404 "Customer not found" "NOT_FOUND") ∧
    (∀ (st : Store) (idStr : String) (n : Int) (body : Option CustomersPutBody),
      idStr ≠ "" → jsParseInt idStr = some n →
      st.customers.find? (fun r => r.id == n) = none →
      customersPUT (some idStr) body st = (errResp 404 "Customer not found" "NOT_FOUND", st)) ∧
    (∀ (st : Store) (idStr : String) (n : Int),
      idStr ≠ "" → jsParseInt idStr = some n →
      st.customers.find? (fun r => r.id == n) = none →
      customersDELETE (some idStr) st = (errResp 404 "Customer not found" "NOT_FOUND", st)) ∧
    (∀ (p : PaymentsGetParams) (st : Store) (idStr : String) (n : Int),
      p.id = some idStr → idStr ≠ "" → jsParseInt idStr = some n →
      st.payments.find? (fun r => r.id == n) = none →
      paymentsGET p st = errResp 404 "Payment not found" "PAYMENT_NOT_FOUND") ∧
    (∀ (st : Store) (idStr : String) (n : Int) (b : PaymentsPutBody),
      idStr ≠ "" → jsParseInt idStr = some n →
      st.payments.find? (fun r => r.id == n) = none →
      paymentsPUT (some idStr) (some b) st = (errResp 404 "Payment not found" "PAYMENT_NOT_FOUND", st)) ∧
    (∀ (st : Store) (idStr : String) (n : Int),
      idStr ≠ "" → jsParseInt idStr = some n →
      st.payments.find? (fun r => r.id == n) = none →
      paymentsDELETE (some idStr) st = (errResp 404 "Payment not found" "PAYMENT_NOT_FOUND", st)) ∧
    (∀ (p : OrdersGetParams) (st : Store) (idStr : String) (n : Int),
      p.id = some idStr → idStr ≠ "" → jsParseInt idStr = some n →
      st.orders.find? (fun r => r.id == n) = none →
      ordersGET p st = errResp 404 "Order not found" "ORDER_NOT_FOUND") ∧
    (∀ (now : String) (st : Store) (idStr : String) (n : Int) (b : OrdersPutBody),
      idStr ≠ "" → jsParseInt idStr = some n →
      st.orders.find? (fun r => r.id == n) = none →
      ordersPUT now (some idStr) (some b) st = (errResp 404 "Order not found" "ORDER_NOT_FOUND", st)) ∧
    (∀ (st : Store) (idStr : String) (n : Int),
      idStr ≠ "" → jsParseInt idStr = some n →
      st.orders.find? (fun r => r.id == n) = none →
      ordersDELETE (some idStr) st = (errResp 404 "Order not found" "ORDER_NOT_FOUND", st)) ∧
    (∀ (now : String) (p : OffersGetParams) (st : Store) (idStr : String) (n : Int),
      p.id = some idStr → idStr ≠ "" → jsParseInt idStr = some n →
      st.offers.find? (fun r => r.id == n) = none →
      offersGET now p st = errRespNoCode 404 "Offer not found") ∧
    (∀ (st : Store) (idStr : String) (n : Int) (body : Option OffersPutBody),
      idStr ≠ "" → jsParseInt idStr = some n →
      st.offers.find? (fun r => r.id == n) = none →
      offersPUT (some idStr) body st = (errRespNoCode 404 "Offer not found", st)) ∧
    (∀ (st : Store) (idStr : String) (n : Int),
      idStr ≠ "" → jsParseInt idStr = some n →
      st.offers.find? (fun r => r.id == n) = none →
      offersDELETE (some idStr) st = (errRespNoCode 404 "Offer not found", st)) ∧
    (∀ (p : ShopsGetParams) (st : Store) (idStr : String) (n : Int),
      p.id = some idStr → idStr ≠ "" → jsParseInt idStr = some n →
      st.shops.find? (fun r => r.id == n) = none →
      shopsGET p st = errResp 404 "Shop not found" "SHOP_NOT_FOUND") ∧
    (∀ (st : Store) (idStr : String) (n : Int) (b : ShopsPutBody),
      idStr ≠ "" → jsParseInt idStr = some n →
      st.shops.find? (fun r => r.id == n) = none →
      shopsPUT (some idStr) (some b) st = (errResp 404 "Shop not found" "SHOP_NOT_FOUND", st)) ∧
    (∀ (st : Store) (idStr : String) (n : Int),
      idStr ≠ "" → jsParseInt idStr = some n →
      st.shops.find? (fun r => r.id == n) = none →
      shopsDELETE (some idStr) st = (errResp 404 "Shop not found" "SHOP_NOT_FOUND", st)) ∧
    (∀ (p : MenuItemsGetParams) (st : Store) (idStr : String) (n : Int),
      p.id = some idStr → idStr ≠ "" → jsParseInt idStr = some n →
      st.menuItems.find? (fun r => r.id == n) = none →
      menuItemsGET p st = errResp 404 "Menu item not found" "NOT_FOUND") ∧
    (∀ (st : Store) (idStr : String) (n : Int) (body : Option MenuItemsPutBody),
      idStr ≠ "" → jsParseInt idStr = some n →
      st.menuItems.find? (fun r => r.id == n) = none →
      menuItemsPUT (some idStr) body st = (errResp 404 "Menu item not found" "NOT_FOUND", st)) ∧
    (∀ (st : Store) (idStr : String) (n : Int),
      idStr ≠ "" → jsParseInt idStr = some n →
      st.menuItems.find? (fun r => r.id == n) = none →
      menuItemsDELETE (some idStr) st = (errResp 404 "Menu item not found" "NOT_FOUND", st)) ∧
    (∀ (p : OrderItemsGetParams) (st : Store) (idStr : String) (n : Int),
      p.id = some idStr → idStr ≠ "" → jsParseInt idStr = some n →
      st.orderItems.find? (fun r => r.id == n) = none →
      orderItemsGET p st = errResp 404 "Order item not found" "NOT_FOUND") ∧
    (∀ (st : Store) (idStr : String) (n : Int) (body : Option OrderItemsPutBody),
      idStr ≠ "" → jsParseInt idStr = some n →
      st.orderItems.find? (fun r => r.id == n) = none →
      orderItemsPUT (some idStr) body st = (errResp 404 "Order item not found" "NOT_FOUND", st)) ∧
    (∀ (st : Store) (idStr : String) (n : Int),
      idStr ≠ "" → jsParseInt idStr = some n →
      st.orderItems.find? (fun r => r.id == n) = none →
      orderItemsDELETE (some idStr) st = (errResp 404 "Order item not found" "NOT_FOUND", st)) ∧
    (∀ (p : ReceiptsGetParams) (st : Store) (idStr : String) (n : Int),
      p.id = some idStr → idStr ≠ "" → jsParseInt idStr = some n →
      st.receipts.find? (fun r => r.id == n) = none →
      receiptsGET p st = errResp 404 "Receipt not found" "RECEIPT_NOT_FOUND") ∧
    (∀ (st : Store) (idStr : String) (n : Int) (body : Option ReceiptsPutBody),
      idStr ≠ "" → jsParseInt idStr = some n →
      st.receipts.find? (fun r => r.id == n) = none →
      receiptsPUT (some idStr) body st = (errResp 404 "Receipt not found" "RECEIPT_NOT_FOUND", st)) ∧
    (∀ (st : Store) (idStr : String) (n : Int),
      idStr ≠ "" → jsParseInt idStr = some n →
      st.receipts.find? (fun r => r.id == n) = none →
      receiptsDELETE (some idStr) st = (errResp 404 "Receipt not found" "RECEIPT_NOT_FOUND", st)) :=
  ⟨fun p st idStr n hp hne hparse hfind => by
     simp only [customersGET, hp]
     rw [if_neg hne]
     simp only [hparse, hfind],
   fun st idStr n body hne hparse hfind => by
     simp only [customersPUT]
     rw [if_neg hne]
     simp only [hparse, hfind],
   fun st idStr n hne hparse hfind => by
     simp only [customersDELETE]
     rw [if_neg hne]
     simp only [hparse, hfind],
   fun p st idStr n hp hne hparse hfind => by
     simp only [paymentsGET, hp]
     rw [if_neg hne]
     simp only [hparse, hfind],
   fun st idStr n b hne hparse hfind => by
     simp only [paymentsPUT]
     rw [if_neg hne]
     simp only [hparse, hfind],
   fun st idStr n hne hparse hfind => by
     simp only [paymentsDELETE]
     rw [if_neg hne]
     simp only [hparse, hfind],
   fun p st idStr n hp hne hparse hfind => by
     simp only [ordersGET, hp]
     rw [if_neg hne]
     simp only [hparse, hfind],
   fun now st idStr n b hne hparse hfind => by
     simp only [ordersPUT]
     rw [if_neg hne]
     simp only [hparse, hfind],
   fun st idStr n hne hparse hfind => by
     simp only [ordersDELETE]
     rw [if_neg hne]
     simp only [hparse, hfind],
   fun now p st idStr n hp hne hparse hfind => by
     simp only [offersGET, hp]
     rw [if_neg hne]
     simp only [hparse, hfind],
   fun st idStr n body hne hparse hfind => by
     simp only [offersPUT]
     rw [if_neg hne]
     simp only [hparse, hfind],
   fun st idStr n hne hparse hfind => by
     simp only [offersDELETE]
     rw [if_neg hne]
     simp only [hparse, hfind],
   fun p st idStr n hp hne hparse hfind => by
     simp only [shopsGET, hp]
     rw [if_neg hne]
     simp only [hparse, hfind],
   fun st idStr n b hne hparse hfind => by
     simp only [shopsPUT]
     rw [if_neg hne]
     simp only [hparse, hfind],
   fun st idStr n hne hparse hfind => by
     simp only [shopsDELETE]
     rw [if_neg hne]
     simp only [hparse, hfind],
   fun p st idStr n hp hne hparse hfind => by
     simp only [menuItemsGET, hp]
     rw [if_neg hne]
     simp only [hparse, hfind],
   fun st idStr n body hne hparse hfind => by
     simp only [menuItemsPUT]
     rw [if_neg hne]
     simp only [hparse, hfind],
   fun st idStr n hne hparse hfind => by
     simp only [menuItemsDELETE]
     rw [if_neg hne]
     simp only [hparse, hfind],
   fun p st idStr n hp hne hparse hfind => by
     simp only [orderItemsGET, hp]
     rw [if_neg hne]
     simp only [hparse, hfind],
   fun st idStr n body hne hparse hfind => by
     simp only [orderItemsPUT]
     rw [if_neg hne]
     simp only [hparse, hfind],
   fun st idStr n hne hparse hfind => by
     simp only [orderItemsDELETE]
     rw [if_neg hne]
     simp only [hparse, hfind],
   fun p st idStr n hp hne hparse hfind => by
     simp only [receiptsGET, hp]
     rw [if_neg hne]
     simp only [hparse, hfind],
   fun st idStr n body hne hparse hfind => by
     simp only [receiptsPUT]
     rw [if_neg hne]
     simp only [hparse, hfind],
   fun st idStr n hne hparse hfind => by
     simp only [receiptsDELETE]
     rw [if_neg hne]
     simp only [hparse, hfind]⟩

/-- C7 evaluated on id 9, which resolves to no record of any entity in the sample store. -/
theorem C7_missing_id_404_witness :
    customersGET { id := some "9" } sampleStore = errResp 404 "Customer not found" "NOT_FOUND" ∧
    customersPUT (some "9") (some {}) sampleStore = (errResp 404 "Customer not found" "NOT_FOUND", sampleStore) ∧
    customersDELETE (some "9") sampleStore = (errResp 404 "Customer not found" "NOT_FOUND", sampleStore) ∧
    paymentsGET { id := some "9" } sampleStore = errResp 404 "Payment not found" "PAYMENT_NOT_FOUND" ∧
    paymentsPUT (some "9") (some {}) sampleStore = (errResp 404 "Payment not found" "PAYMENT_NOT_FOUND", sampleStore) ∧
    paymentsDELETE (some "9") sampleStore = (errResp 404 "Payment not found" "PAYMENT_NOT_FOUND", sampleStore) ∧
    ordersGET { id := some "9" } sampleStore = errResp 404 "Order not found" "ORDER_NOT_FOUND" ∧
    ordersPUT "t1" (some "9") (some {}) sampleStore = (errResp 404 "Order not found" "ORDER_NOT_FOUND", sampleStore) ∧
    ordersDELETE (some "9") sampleStore = (errResp 404 "Order not found" "ORDER_NOT_FOUND", sampleStore) ∧
    offersGET "t1" { id := some "9" } sampleStore = errRespNoCode 404 "Offer not found" ∧
    offersPUT (some "9") (some {}) sampleStore = (errRespNoCode 404 "Offer not found", sampleStore) ∧
    offersDELETE (some "9") sampleStore = (errRespNoCode 404 "Offer not found", sampleStore) ∧
    shopsGET { id := some "9" } sampleStore = errResp 404 "Shop not found" "SHOP_NOT_FOUND" ∧
    shopsPUT (some "9") (some {}) sampleStore = (errResp 404 "Shop not found" "SHOP_NOT_FOUND", sampleStore) ∧
    shopsDELETE (some "9") sampleStore = (errResp 404 "Shop not found" "SHOP_NOT_FOUND", sampleStore) ∧
    menuItemsGET { id := some "9" } sampleStore = errResp 404 "Menu item not found" "NOT_FOUND" ∧
    menuItemsPUT (some "9") (some {}) sampleStore = (errResp 404 "Menu item not found" "NOT_FOUND", sampleStore) ∧
    menuItemsDELETE (some "9") sampleStore = (errResp 404 "Menu item not found" "NOT_FOUND", sampleStore) ∧
    orderItemsGET { id := some "9" } sampleStore = errResp 404 "Order item not found" "NOT_FOUND" ∧
    orderItemsPUT (some "9") (some {}) sampleStore = (errResp 404 "Order item not found" "NOT_FOUND", sampleStore) ∧
    orderItemsDELETE (some "9") sampleStore = (errResp 404 "Order item not found" "NOT_FOUND", sampleStore) ∧
    receiptsGET { id := some "9" } sampleStore = errResp 404 "Receipt not found" "RECEIPT_NOT_FOUND" ∧
    receiptsPUT (some "9") (some {}) sampleStore = (errResp 404 "Receipt not found" "RECEIPT_NOT_FOUND", sampleStore) ∧
    receiptsDELETE (some "9") sampleStore = (errResp 404 "Receipt not found" "RECEIPT_NOT_FOUND", sampleStore) :=
  ⟨C7_missing_id_404.1 { id := some "9" } sampleStore "9" 9 rfl (by decide) (by decide) (by decide),
   C7_missing_id_404.2.1 sampleStore "9" 9 (some {}) (by decide) (by decide) (by decide),
   C7_missing_id_404.2.2.1 sampleStore "9" 9 (by decide) (by decide) (by decide),
   C7_missing_id_404.2.2.2.1 { id := some "9" } sampleStore "9" 9 rfl (by decide) (by decide) (by decide),
   C7_missing_id_404.2.2.2.2.1 sampleStore "9" 9 {} (by decide) (by decide) (by decide),
   C7_missing_id_404.2.2.2.2.2.1 sampleStore "9" 9 (by decide) (by decide) (by decide),
   C7_missing_id_404.2.2.2.2.2.2.1 { id := some "9" } sampleStore "9" 9 rfl (by decide) (by decide) (by decide),
   C7_missing_id_404.2.2.2.2.2.2.2.1 "t1" sampleStore "9" 9 {} (by decide) (by decide) (by decide),
   C7_missing_id_404.2.2.2.2.2.2.2.2.1 sampleStore "9" 9 (by decide) (by decide) (by decide),
   C7_missing_id_404.2.2.2.2.2.2.2.2.2.1 "t1" { id := some "9" } sampleStore "9" 9 rfl (by decide) (by decide) (by decide),
   C7_missing_id_404.2.2.2.2.2.2.2.2.2.2.1 sampleStore "9" 9 (some {}) (by decide) (by decide) (by decide),
   C7_missing_id_404.2.2.2.2.2.2.2.2.2.2.2.1 sampleStore "9" 9 (by decide) (by decide) (by decide),
   C7_missing_id_404.2.2.2.2.2.2.2.2.2.2.2.2.1 { id := some "9" } sampleStore "9" 9 rfl (by decide) (by decide) (by decide),
   C7_missing_id_404.2.2.2.2.2.2.2.2.2.2.2.2.2.1 sampleStore "9" 9 {} (by decide) (by decide) (by decide),
   C7_missing_id_404.2.2.2.2.2.2.2.2.2.2.2.2.2.2.1 sampleStore "9" 9 (by decide) (by decide) (by decide),
   C7_missing_id_404.2.2.2.2.2.2.2.2.2.2.2.2.2.2.2.1 { id := some "9" } sampleStore "9" 9 rfl (by decide) (by decide) (by decide),
   C7_missing_id_404.2.2.2.2.2.2.2.2.2.2.2.2.2.2.2.2.1 sampleStore "9" 9 (some {}) (by decide) (by decide) (by decide),
   C7_missing_id_404.2.2.2.2.2.2.2.2.2.2.2.2.2.2.2.2.2.1 sampleStore "9" 9 (by decide) (by decide) (by decide),
   C7_missing_id_404.2.2.2.2.2.2.2.2.2.2.2.2.2.2.2.2.2.2.1 { id := some "9" } sampleStore "9" 9 rfl (by decide) (by decide) (by decide),
   C7_missing_id_404.2.2.2.2.2.2.2.2.2.2.2.2.2.2.2.2.2.2.2.1 sampleStore "9" 9 (some {}) (by decide) (by decide) (by decide),
   C7_missing_id_404.2.2.2.2.2.2.2.2.2.2.2.2.2.2.2.2.2.2.2.2.1 sampleStore "9" 9 (by decide) (by decide) (by decide),
   C7_missing_id_404.2.2.2.2.2.2.2.2.2.2.2.2.2.2.2.2.2.2.2.2.2.1 { id := some "9" } sampleStore "9" 9 rfl (by decide) (by decide) (by decide),
   C7_missing_id_404.2.2.2.2.2.2.2.2.2.2.2.2.2.2.2.2.2.2.2.2.2.2.1 sampleStore "9" 9 (some {}) (by decide) (by decide) (by decide),
   C7_missing_id_404.2.2.2.2.2.2.2.2.2.2.2.2.2.2.2.2.2.2.2.2.2.2.2 sampleStore "9" 9 (by decide) (by decide) (by decide)⟩

/-- The response-shape invariant the routes actually maintain: statuses come
from {200, 201, 400, 404, 500}; a 400 carries an error message and a symbolic
code; a 404 carries an error message; a 500 carries an error message but never
a code; and an error message appears only on an error status. -/
def GoodResp (r : ApiResponse) : Prop :=
  (r.status = 200 ∨ r.status = 201 ∨ r.status = 400 ∨ r.status = 404 ∨ r.status = 500) ∧
  (r.status = 400 → r.error.isSome = true ∧ r.code.isSome = true) ∧
  (r.status = 404 → r.error.isSome = true) ∧
  (r.status = 500 → r.error.isSome = true ∧ r.code = none) ∧
  (r.error.isSome = true → r.status = 400 ∨ r.status = 404 ∨ r.status = 500)

/-- GoodResp for an explicit field assignment. -/
lemma goodResp_fields (s : Nat) (e c msg : Option String) (p : Option Payload)
    (h1 : s = 200 ∨ s = 201 ∨ s = 400 ∨ s = 404 ∨ s = 500)
    (h2 : s = 400 → e.isSome = true ∧ c.isSome = true)
    (h3 : s = 404 → e.isSome = true)
    (h4 : s = 500 → e.isSome = true ∧ c = none)
    (h5 : e.isSome = true → s = 400 ∨ s = 404 ∨ s = 500) :
    GoodResp { status := s, error := e, code := c, message := msg, payload := p } :=
  ⟨h1, h2, h3, h4, h5⟩

/-- A validation failure satisfies the response-shape invariant. -/
lemma goodResp_validation {r : ApiResponse} (h : ValidationErr r) : GoodResp r := by
  obtain ⟨h1, h2, h3⟩ := h
  refine ⟨Or.inr (Or.inr (Or.inl h1)), fun _ => ⟨h2, h3⟩, ?_, ?_, fun _ => Or.inl h1⟩
  · intro h4; exact absurd (h1.symm.trans h4) (by decide)
  · intro h4; exact absurd (h1.symm.trans h4) (by decide)

/-- A 400 error response satisfies the response-shape invariant. -/
lemma goodResp_errResp400 (m c : String) : GoodResp (errResp 400 m c) :=
  goodResp_fields 400 (some m) (some c) none none
    (Or.inr (Or.inr (Or.inl rfl))) (fun _ => ⟨rfl, rfl⟩)
    (fun h => absurd h (by decide)) (fun h => absurd h (by decide))
    (fun _ => Or.inl rfl)

/-- A 404 error response with a code satisfies the response-shape invariant. -/
lemma goodResp_errResp404 (m c : String) : GoodResp (errResp 404 m c) :=
  goodResp_fields 404 (some m) (some c) none none
    (Or.inr (Or.inr (Or.inr (Or.inl rfl)))) (fun h => absurd h (by decide))
    (fun _ => rfl) (fun h => absurd h (by decide))
    (fun _ => Or.inr (Or.inl rfl))

/-- The offers code-less 404 response satisfies the response-shape invariant. -/
lemma goodResp_noCode404 (m : String) : GoodResp (errRespNoCode 404 m) :=
  goodResp_fields 404 (some m) none none none
    (Or.inr (Or.inr (Or.inr (Or.inl rfl)))) (fun h => absurd h (by decide))
    (fun _ => rfl) (fun h => absurd h (by decide))
    (fun _ => Or.inr (Or.inl rfl))

/-- The catch-all 500 response satisfies the response-shape invariant. -/
lemma goodResp_serverError (m : String) : GoodResp (serverError m) :=
  goodResp_fields 500 (some ("Internal server error: " ++ m)) none none none
    (Or.inr (Or.inr (Or.inr (Or.inr rfl)))) (fun h => absurd h (by decide))
    (fun h => absurd h (by decide)) (fun _ => ⟨rfl, rfl⟩)
    (fun _ => Or.inr (Or.inr rfl))

/-- A 200 success response satisfies the response-shape invariant. -/
lemma goodResp_200 (msg : Option String) (p : Option Payload) :
    GoodResp { status := 200, message := msg, payload := p } :=
  goodResp_fields 200 none none msg p
    (Or.inl rfl) (fun h => absurd h (by decide)) (fun h => absurd h (by decide))
    (fun h => absurd h (by decide)) (fun h => absurd h (by decide))

/-- A 201 created response satisfies the response-shape invariant. -/
lemma goodResp_201 (p : Option Payload) : GoodResp { status := 201, payload := p } :=
  goodResp_fields 201 none none none p
    (Or.inr (Or.inl rfl)) (fun h => absurd h (by decide)) (fun h => absurd h (by decide))
    (fun h => absurd h (by decide)) (fun h => absurd h (by decide))

/-- Every customers GET response is well shaped. -/
lemma goodResp_customersGET (p : CustomersGetParams) (st : Store) :
    GoodResp (customersGET p st) := by
  unfold customersGET customersList
  try dsimp only
  repeat' split
  all_goals try dsimp only
  all_goals first
    | apply goodResp_200
    | apply goodResp_errResp400
    | apply goodResp_errResp404
    | apply goodResp_serverError

/-- Every customers POST response is well shaped. -/
lemma goodResp_customersPOST (now : String) (body : Option CustomersPostBody) (st : Store) :
    GoodResp (customersPOST now body st).1 := by
  unfold customersPOST
  try dsimp only
  repeat' split
  all_goals try dsimp only
  all_goals first
    | apply goodResp_200
    | apply goodResp_201
    | apply goodResp_errResp400
    | apply goodResp_serverError

/-- Every customers PUT response is well shaped. -/
lemma goodResp_customersPUT (idp : Option String) (body : Option CustomersPutBody) (st : Store) :
    GoodResp (customersPUT idp body st).1 := by
  unfold customersPUT
  try dsimp only
  repeat' split
  all_goals try dsimp only
  all_goals first
    | apply goodResp_200
    | apply goodResp_errResp400
    | apply goodResp_errResp404
    | apply goodResp_serverError
    | exact goodResp_validation (customersBuildUpdate_error (by assumption))

/-- Every customers DELETE response is well shaped. -/
lemma goodResp_customersDELETE (idp : Option String) (st : Store) :
    GoodResp (customersDELETE idp st).1 := by
  unfold customersDELETE
  try dsimp only
  repeat' split
  all_goals try dsimp only
  all_goals first
    | apply goodResp_200
    | apply goodResp_errResp400
    | apply goodResp_errResp404

/-- Every payments GET response is well shaped. -/
lemma goodResp_paymentsGET (p : PaymentsGetParams) (st : Store) :
    GoodResp (paymentsGET p st) := by
  unfold paymentsGET paymentsList
  try dsimp only
  repeat' split
  all_goals try dsimp only
  all_goals first
    | apply goodResp_200
    | apply goodResp_errResp400
    | apply goodResp_errResp404
    | apply goodResp_serverError

/-- Every payments POST response is well shaped. -/
lemma goodResp_paymentsPOST (now : String) (body : Option PaymentsPostBody) (st : Store) :
    GoodResp (paymentsPOST now body st).1 := by
  unfold paymentsPOST
  try dsimp only
  repeat' split
  all_goals try dsimp only
  all_goals first
    | apply goodResp_200
    | apply goodResp_201
    | apply goodResp_errResp400
    | apply goodResp_serverError

/-- Every payments PUT response is well shaped. -/
lemma goodResp_paymentsPUT (idp : Option String) (body : Option PaymentsPutBody) (st : Store) :
    GoodResp (paymentsPUT idp body st).1 := by
  unfold paymentsPUT
  try dsimp only
  repeat' split
  all_goals try dsimp only
  all_goals first
    | apply goodResp_200
    | apply goodResp_errResp400
    | apply goodResp_errResp404
    | apply goodResp_serverError
    | exact goodResp_validation (paymentsBuildUpdate_error (by assumption))

/-- Every payments DELETE response is well shaped. -/
lemma goodResp_paymentsDELETE (idp : Option String) (st : Store) :
    GoodResp (paymentsDELETE idp st).1 := by
  unfold paymentsDELETE
  try dsimp only
  repeat' split
  all_goals try dsimp only
  all_goals first
    | apply goodResp_200
    | apply goodResp_errResp400
    | apply goodResp_errResp404

/-- Every orders GET response is well shaped. -/
lemma goodResp_ordersGET (p : OrdersGetParams) (st : Store) :
    GoodResp (ordersGET p st) := by
  unfold ordersGET ordersListQ
  try dsimp only
  repeat' split
  all_goals try dsimp only
  all_goals first
    | apply goodResp_200
    | apply goodResp_errResp400
    | apply goodResp_errResp404
    | apply goodResp_serverError

/-- Every orders POST response is well shaped. -/
lemma goodResp_ordersPOST (now : String) (body : Option OrdersPostBody) (st : Store) :
    GoodResp (ordersPOST now body st).1 := by
  unfold ordersPOST
  try dsimp only
  repeat' split
  all_goals try dsimp only
  all_goals first
    | apply goodResp_200
    | apply goodResp_201
    | apply goodResp_errResp400
    | apply goodResp_serverError

/-- Every orders PUT response is well shaped. -/
lemma goodResp_ordersPUT (now : String) (idp : Option String) (body : Option OrdersPutBody) (st : Store) :
    GoodResp (ordersPUT now idp body st).1 := by
  unfold ordersPUT
  try dsimp only
  repeat' split
  all_goals try dsimp only
  all_goals first
    | apply goodResp_200
    | apply goodResp_errResp400
    | apply goodResp_errResp404
    | apply goodResp_serverError
    | exact goodResp_validation (ordersBuildUpdate_error (by assumption))

/-- Every orders DELETE response is well shaped. -/
lemma goodResp_ordersDELETE (idp : Option String) (st : Store) :
    GoodResp (ordersDELETE idp st).1 := by
  unfold ordersDELETE
  try dsimp only
  repeat' split
  all_goals try dsimp only
  all_goals first
    | apply goodResp_200
    | apply goodResp_errResp400
    | apply goodResp_errResp404

/-- Every offers GET response is well shaped. -/
lemma goodResp_offersGET (now : String) (p : OffersGetParams) (st : Store) :
    GoodResp (offersGET now p st) := by
  unfold offersGET offersList
  try dsimp only
  repeat' split
  all_goals try dsimp only
  all_goals first
    | apply goodResp_200
    | apply goodResp_errResp400
    | apply goodResp_noCode404
    | apply goodResp_serverError

/-- Every offers POST response is well shaped. -/
lemma goodResp_offersPOST (now : String) (body : Option OffersPostBody) (st : Store) :
    GoodResp (offersPOST now body st).1 := by
  unfold offersPOST
  try dsimp only
  repeat' split
  all_goals try dsimp only
  all_goals first
    | apply goodResp_200
    | apply goodResp_201
    | apply goodResp_errResp400
    | apply goodResp_serverError

/-- Every offers PUT response is well shaped. -/
lemma goodResp_offersPUT (idp : Option String) (body : Option OffersPutBody) (st : Store) :
    GoodResp (offersPUT idp body st).1 := by
  unfold offersPUT
  try dsimp only
  repeat' split
  all_goals try dsimp only
  all_goals first
    | apply goodResp_200
    | apply goodResp_errResp400
    | apply goodResp_noCode404
    | apply goodResp_serverError
    | exact goodResp_validation (offersBuildUpdate_error (by assumption))

/-- Every offers DELETE response is well shaped. -/
lemma goodResp_offersDELETE (idp : Option String) (st : Store) :
    GoodResp (offersDELETE idp st).1 := by
  unfold offersDELETE
  try dsimp only
  repeat' split
  all_goals try dsimp only
  all_goals first
    | apply goodResp_200
    | apply goodResp_errResp400
    | apply goodResp_noCode404

/-- Every shops GET response is well shaped. -/
lemma goodResp_shopsGET (p : ShopsGetParams) (st : Store) :
    GoodResp (shopsGET p st) := by
  unfold shopsGET shopsList
  try dsimp only
  repeat' split
  all_goals try dsimp only
  all_goals first
    | apply goodResp_200
    | apply goodResp_errResp400
    | apply goodResp_errResp404
    | apply goodResp_serverError

/-- Every shops POST response is well shaped. -/
lemma goodResp_shopsPOST (now : String) (body : Option ShopsPostBody) (st : Store) :
    GoodResp (shopsPOST now body st).1 := by
  unfold shopsPOST
  try dsimp only
  repeat' split
  all_goals try dsimp only
  all_goals first
    | apply goodResp_200
    | apply goodResp_201
    | apply goodResp_errResp400
    | apply goodResp_serverError

/-- Every shops PUT response is well shaped. -/
lemma goodResp_shopsPUT (idp : Option String) (body : Option ShopsPutBody) (st : Store) :
    GoodResp (shopsPUT idp body st).1 := by
  unfold shopsPUT
  try dsimp only
  repeat' split
  all_goals try dsimp only
  all_goals first
    | apply goodResp_200
    | apply goodResp_errResp400
    | apply goodResp_errResp404
    | apply goodResp_serverError
    | exact goodResp_validation (shopsBuildUpdate_error (by assumption))

/-- Every shops DELETE response is well shaped. -/
lemma goodResp_shopsDELETE (idp : Option String) (st : Store) :
    GoodResp (shopsDELETE idp st).1 := by
  unfold shopsDELETE
  try dsimp only
  repeat' split
  all_goals try dsimp only
  all_goals first
    | apply goodResp_200
    | apply goodResp_errResp400
    | apply goodResp_errResp404

/-- Every menuItems GET response is well shaped. -/
lemma goodResp_menuItemsGET (p : MenuItemsGetParams) (st : Store) :
    GoodResp (menuItemsGET p st) := by
  unfold menuItemsGET menuItemsList
  try dsimp only
  repeat' split
  all_goals try dsimp only
  all_goals first
    | apply goodResp_200
    | apply goodResp_errResp400
    | apply goodResp_errResp404
    | apply goodResp_serverError

/-- Every menuItems POST response is well shaped. -/
lemma goodResp_menuItemsPOST (now : String) (body : Option MenuItemsPostBody) (st : Store) :
    GoodResp (menuItemsPOST now body st).1 := by
  unfold menuItemsPOST
  try dsimp only
  repeat' split
  all_goals try dsimp only
  all_goals first
    | apply goodResp_200
    | apply goodResp_201
    | apply goodResp_errResp400
    | apply goodResp_serverError

/-- Every menuItems PUT response is well shaped. -/
lemma goodResp_menuItemsPUT (idp : Option String) (body : Option MenuItemsPutBody) (st : Store) :
    GoodResp (menuItemsPUT idp body st).1 := by
  unfold menuItemsPUT
  try dsimp only
  repeat' split
  all_goals try dsimp only
  all_goals first
    | apply goodResp_200
    | apply goodResp_errResp400
    | apply goodResp_errResp404
    | apply goodResp_serverError
    | exact goodResp_validation (menuItemsBuildUpdate_error (by assumption))

/-- Every menuItems DELETE response is well shaped. -/
lemma goodResp_menuItemsDELETE (idp : Option String) (st : Store) :
    GoodResp (menuItemsDELETE idp st).1 := by
  unfold menuItemsDELETE
  try dsimp only
  repeat' split
  all_goals try dsimp only
  all_goals first
    | apply goodResp_200
    | apply goodResp_errResp400
    | apply goodResp_errResp404

/-- Every orderItems GET response is well shaped. -/
lemma goodResp_orderItemsGET (p : OrderItemsGetParams) (st : Store) :
    GoodResp (orderItemsGET p st) := by
  unfold orderItemsGET orderItemsList
  try dsimp only
  repeat' split
  all_goals try dsimp only
  all_goals first
    | apply goodResp_200
    | apply goodResp_errResp400
    | apply goodResp_errResp404
    | apply goodResp_serverError

/-- Every orderItems POST response is well shaped. -/
lemma goodResp_orderItemsPOST (now : String) (body : Option OrderItemsPostBody) (st : Store) :
    GoodResp (orderItemsPOST now body st).1 := by
  unfold orderItemsPOST
  try dsimp only
  repeat' split
  all_goals try dsimp only
  all_goals first
    | apply goodResp_200
    | apply goodResp_201
    | apply goodResp_errResp400
    | apply goodResp_serverError

/-- Every orderItems PUT response is well shaped. -/
lemma goodResp_orderItemsPUT (idp : Option String) (body : Option OrderItemsPutBody) (st : Store) :
    GoodResp (orderItemsPUT idp body st).1 := by
  unfold orderItemsPUT
  try dsimp only
  repeat' split
  all_goals try dsimp only
  all_goals first
    | apply goodResp_200
    | apply goodResp_errResp400
    | apply goodResp_errResp404
    | apply goodResp_serverError
    | exact goodResp_validation (orderItemsBuildUpdate_error (by assumption))

/-- Every orderItems DELETE response is well shaped. -/
lemma goodResp_orderItemsDELETE (idp : Option String) (st : Store) :
    GoodResp (orderItemsDELETE idp st).1 := by
  unfold orderItemsDELETE
  try dsimp only
  repeat' split
  all_goals try dsimp only
  all_goals first
    | apply goodResp_200
    | apply goodResp_errResp400
    | apply goodResp_errResp404

/-- Every receipts GET response is well shaped. -/
lemma goodResp_receiptsGET (p : ReceiptsGetParams) (st : Store) :
    GoodResp (receiptsGET p st) := by
  unfold receiptsGET receiptsList
  try dsimp only
  repeat' split
  all_goals try dsimp only
  all_goals first
    | apply goodResp_200
    | apply goodResp_errResp400
    | apply goodResp_errResp404
    | apply goodResp_serverError

/-- Every receipts POST response is well shaped. -/
lemma goodResp_receiptsPOST (now : String) (body : Option ReceiptsPostBody) (st : Store) :
    GoodResp (receiptsPOST now body st).1 := by
  unfold receiptsPOST
  try dsimp only
  repeat' split
  all_goals try dsimp only
  all_goals first
    | apply goodResp_200
    | apply goodResp_201
    | apply goodResp_errResp400
    | apply goodResp_serverError

/-- Every receipts PUT response is well shaped. -/
lemma goodResp_receiptsPUT (idp : Option String) (body : Option ReceiptsPutBody) (st : Store) :
    GoodResp (receiptsPUT idp body st).1 := by
  unfold receiptsPUT
  try dsimp only
  repeat' split
  all_goals try dsimp only
  all_goals first
    | apply goodResp_200
    | apply goodResp_errResp400
    | apply goodResp_errResp404
    | apply goodResp_serverError

/-- Every receipts DELETE response is well shaped. -/
lemma goodResp_receiptsDELETE (idp : Option String) (st : Store) :
    GoodResp (receiptsDELETE idp st).1 := by
  unfold receiptsDELETE
  try dsimp only
  repeat' split
  all_goals try dsimp only
  all_goals first
    | apply goodResp_200
    | apply goodResp_errResp400
    | apply goodResp_errResp404

/-- C4 counterexample: a list request whose limit parameter does not parse
makes the driver throw, and the resulting 500 error response carries no
symbolic code field, contradicting the claimed universal {error, code}
shape. -/
theorem C4_500_without_code :
    (customersGET { limit := some "abc" } sampleStore).status = 500 ∧
    (customersGET { limit := some "abc" } sampleStore).error.isSome = true ∧
    (customersGET { limit := some "abc" } sampleStore).code = none := by
  decide

/-- C4 (amended): every response of every operation on every entity has a
status in {200, 201, 400, 404, 500}; every 400 carries an error message and a
symbolic code; every 404 carries an error message (with a symbolic code on all
routes except offers); every 500 carries an error message but never a code;
and an error message appears only with an error status, so no failure is
silently swallowed. -/
theorem C4_response_shape (op : ApiOp) (st : Store) : GoodResp (applyOp op st).1 := by
  cases op with
  | customersGet p => exact goodResp_customersGET p st
  | customersPost now body => exact goodResp_customersPOST now body st
  | customersPut idp body => exact goodResp_customersPUT idp body st
  | customersDelete idp => exact goodResp_customersDELETE idp st
  | menuItemsGet p => exact goodResp_menuItemsGET p st
  | menuItemsPost now body => exact goodResp_menuItemsPOST now body st
  | menuItemsPut idp body => exact goodResp_menuItemsPUT idp body st
  | menuItemsDelete idp => exact goodResp_menuItemsDELETE idp st
  | offersGet now p => exact goodResp_offersGET now p st
  | offersPost now body => exact goodResp_offersPOST now body st
  | offersPut idp body => exact goodResp_offersPUT idp body st
  | offersDelete idp => exact goodResp_offersDELETE idp st
  | ordersGet p => exact goodResp_ordersGET p st
  | ordersPost now body => exact goodResp_ordersPOST now body st
  | ordersPut now idp body => exact goodResp_ordersPUT now idp body st
  | ordersDelete idp => exact goodResp_ordersDELETE idp st
  | orderItemsGet p => exact goodResp_orderItemsGET p st
  | orderItemsPost now body => exact goodResp_orderItemsPOST now body st
  | orderItemsPut idp body => exact goodResp_orderItemsPUT idp body st
  | orderItemsDelete idp => exact goodResp_orderItemsDELETE idp st
  | paymentsGet p => exact goodResp_paymentsGET p st
  | paymentsPost now body => exact goodResp_paymentsPOST now body st
  | paymentsPut idp body => exact goodResp_paymentsPUT idp body st
  | paymentsDelete idp => exact goodResp_paymentsDELETE idp st
  | receiptsGet p => exact goodResp_receiptsGET p st
  | receiptsPost now body => exact goodResp_receiptsPOST now body st
  | receiptsPut idp body => exact goodResp_receiptsPUT idp body st
  | receiptsDelete idp => exact goodResp_receiptsDELETE idp st
  | shopsGet p => exact goodResp_shopsGET p st
  | shopsPost now body => exact goodResp_shopsPOST now body st
  | shopsPut idp body => exact goodResp_shopsPUT idp body st
  | shopsDelete idp => exact goodResp_shopsDELETE idp st
